import Mathlib

/-!
# Order-integration saga (`backend/internal/services/integration_service.go`)

Shallow embedding of the Go service that integrates a marketplace order into the ERP.
External systems (the two databases and every HTTP endpoint) are an arbitrary state
machine `Env σ`: each call receives the current state and returns a reply and the next
state, so a reply may depend on everything that happened before.  Every model function
returns, besides its Go result, the list of exchanges it performed (`Ran.trace`).

Not modelled: the wall-clock `Timestamp` of a log entry, the process-local `log.Printf`
output and the debug dumps written under `/tmp`.
-/

namespace Integration

/-! ## Go library helpers -/

/-- Whether `p` is an initial segment of `s`. -/
def startsWith : List Char → List Char → Bool
  | [], _ => true
  | _ :: _, [] => false
  | a :: p, b :: s => decide (a = b) && startsWith p s

/-- Position of the first occurrence of `sub` in `s`, if any (characters). -/
def indexChars (sub : List Char) : List Char → Option Nat
  | [] => if sub.isEmpty then some 0 else none
  | c :: s =>
    if startsWith sub (c :: s) then some 0
    else (indexChars sub s).map (· + 1)

/-- Go `strings.Index(s, sub)`: first position of `sub`, or `-1`. -/
def stringsIndex (s sub : String) : Int :=
  match indexChars sub.data s.data with
  | some i => (i : Int)
  | none => -1

/-- Go `strings.Contains(s, sub)`. -/
def stringsContains (s sub : String) : Bool :=
  (indexChars sub.data s.data).isSome

/-- Replace the first occurrence of the non-empty `old` by `new`. -/
def replaceFirstChars (old new : List Char) : List Char → List Char
  | [] => []
  | c :: s =>
    if startsWith old (c :: s) then new ++ (c :: s).drop old.length
    else c :: replaceFirstChars old new s

/-- Go `strings.Replace(s, old, new, 1)` for a non-empty `old`. -/
def stringsReplaceOnce (s old new : String) : String :=
  ⟨replaceFirstChars old.data new.data s.data⟩

/-- Go `strings.Split(s, sep)` for a one-character separator. -/
def splitChars (sep : Char) : List Char → List (List Char)
  | [] => [[]]
  | c :: s =>
    if c = sep then [] :: splitChars sep s
    else
      match splitChars sep s with
      | [] => [[c]]
      | h :: t => (c :: h) :: t

/-- The Go expression `strings.Split(s, "-")[len(strings.Split(s, "-"))-1]`. -/
def lastDashSegment (s : String) : String :=
  ⟨((splitChars '-' s.data).getLast?).getD []⟩

/-- Go slice expression `s[i:]` on characters. -/
def sliceFrom (s : String) (i : Nat) : String := ⟨s.data.drop i⟩

/-- Go slice expression `s[:i]` on characters. -/
def sliceTo (s : String) (i : Nat) : String := ⟨s.data.take i⟩

/-- Finite binary floating-point value `±mant·2^exp`; every finite float64 has this form. -/
structure Dyadic where
  neg : Bool
  mant : Nat
  exp : Int

/-- The value of a Go `int` converted to floating point (exact in this representation). -/
def Dyadic.ofInt (n : Int) : Dyadic := ⟨decide (n < 0), n.natAbs, 0⟩

/-- Magnitude of `x · 10^prec` rounded to an integer, ties to even. -/
def roundScaled (prec : Nat) (x : Dyadic) : Nat :=
  let num := x.mant * 10 ^ prec * 2 ^ x.exp.toNat
  let den := 2 ^ (-x.exp).toNat
  let q := num / den
  let r := num % den
  if 2 * r < den then q
  else if den < 2 * r then q + 1
  else if q % 2 = 0 then q else q + 1

/-- Go `fmt.Sprintf("%.<prec>f", x)` for a float64 `x`. -/
def fmtFixed (prec : Nat) (x : Dyadic) : String :=
  let digits := (toString (roundScaled prec x)).data
  let padded := List.replicate (prec + 1 - digits.length) '0' ++ digits
  let whole := padded.take (padded.length - prec)
  let frac := padded.drop (padded.length - prec)
  let sign := if x.neg then "-" else ""
  if prec = 0 then sign ++ ⟨whole⟩ else sign ++ ⟨whole⟩ ++ "." ++ ⟨frac⟩

/-- A decoded JSON value, i.e. what `encoding/json` stores in an `interface{}`. -/
inductive JSONValue where
  | null
  | bool (b : Bool)
  | num (x : Dyadic)
  | str (s : String)
  | arr (items : List JSONValue)
  | obj (fields : List (String × JSONValue))

/-- A Go `map[string]interface{}`: later bindings of a key override earlier ones. -/
abbrev GoMap := List (String × JSONValue)

/-- Go map index `m[key]`: the last binding of `key`, or `nil` (here `none`). -/
def GoMap.get (m : GoMap) (key : String) : Option JSONValue :=
  (m.reverse.find? (fun kv => kv.1 = key)).map (·.2)

/-- Go `m[key].(string)` with the comma-ok form. -/
def GoMap.getString (m : GoMap) (key : String) : Option String :=
  match m.get key with
  | some (.str s) => some s
  | _ => none

/-- Go map assignment `m[key] = v`. -/
def GoMap.set (m : GoMap) (key : String) (v : JSONValue) : GoMap := m ++ [(key, v)]

/-! ## External systems -/

/-- A Go `error`, kept as its message. -/
abbrev GoError := String

/-- An outgoing HTTP request; `body` is the value handed to `json.Marshal`, if any. -/
structure HttpRequest where
  method : String
  url : String
  headers : List (String × String)
  body : Option JSONValue

/-- What the HTTP client hands back: a transport error, or a status code together with
the outcome of reading the body to its end. -/
inductive HttpResult where
  | netErr (e : GoError)
  | resp (status : Nat) (body : Except GoError String)

/-- The two database handles used by the service (`s.pgDB` and `s.sqlDB`). -/
inductive DB where
  | pg
  | sqlserver
deriving DecidableEq

/-- Outcome of `Query` followed by one `rows.Next()`: the query failed, there is no row,
or the first row with its columns (`none` is SQL NULL). -/
inductive QueryReply where
  | failed (e : GoError)
  | noRows
  | firstRow (cols : List (Option String))

/-- One exchange with an external system, request and reply. -/
inductive Event where
  | http (req : HttpRequest) (res : HttpResult)
  | query (db : DB) (sql : String) (args : List String) (res : QueryReply)
  | exec (db : DB) (sql : String) (args : List String) (err : Option GoError)

/-- One line item of a marketplace order. -/
structure OrderItem where
  ItemID : JSONValue
  Title : String
  UnitPrice : Dyadic
  Quantity : Int

/-- Go struct `MLOrder`. -/
structure MLOrder where
  ID : JSONValue
  DateCreated : String
  OrderItems : List OrderItem
  ShippingID : JSONValue

/-- One entry of `MLItem.Attributes`. -/
structure MLAttribute where
  Name : String
  ValueName : String

/-- Go struct `MLItem`. -/
structure MLItem where
  ID : String
  Title : String
  Attributes : List MLAttribute

/-- The anonymous struct `billingInfo.BillingInfo` of `getMLClientData`. -/
structure BillingInfo where
  DocType : String
  DocNumber : String
  AdditionalInfo : JSONValue

/-- The fields read from the ERP answer to a customer or address registration. -/
structure NBSResult where
  Sucesso : Bool
  Mensagem : String

/-- The anonymous struct `resultEnvio` of `processItemsAndSendOrder`. -/
structure NBSOrderResult where
  CodigoPedido : JSONValue
  Mensagem : String

/-- The world outside the service.  The first group is Go library behaviour that the
source only calls (Unicode case mapping, `fmt` renderings that are not spelled out here,
URL parsing, JSON decoding into each struct, float arithmetic); the second group is the
external systems, as a state machine over `σ`. -/
structure Env (σ : Type) where
  toUpper : String → String
  toLower : String → String
  /-- Rendering of a float64 under the verb `%v`. -/
  fmtG : Dyadic → String
  /-- Rendering of a slice or map under the given verb. -/
  fmtComposite : String → JSONValue → String
  /-- The error `net/url` reports for a URL, if it rejects it. -/
  urlError : String → Option GoError
  /-- Rendering under `%.2f` of the float64 sum of price times quantity over the items. -/
  fmtTotal : List OrderItem → String
  /-- Value of the hard-coded Telegram bot credential (not reproduced here). -/
  tokenTelegram : String
  decodeFordToken : String → Except GoError String
  decodeOrder : String → Except GoError MLOrder
  decodePack : String → Except GoError (List JSONValue)
  decodeItem : String → Except GoError MLItem
  decodeNBSToken : String → Except GoError String
  decodeBilling : String → Except GoError BillingInfo
  decodeCliente : String → Except GoError NBSResult
  decodeEndereco : String → Except GoError NBSResult
  decodePedido : String → Except GoError NBSOrderResult
  /-- The error `rows.Scan` reports for a row it cannot store in string destinations. -/
  scanError : List (Option String) → GoError
  httpDo : σ → HttpRequest → HttpResult × σ
  dbQuery : σ → DB → String → List String → QueryReply × σ
  dbExec : σ → DB → String → List String → Option GoError × σ

/-- Result of running a piece of the service: its Go result, the exchanges it performed
in order, and the state of the outside world afterwards. -/
structure Ran (σ : Type) (α : Type) where
  val : α
  trace : List Event
  st : σ

variable {σ : Type}

/-- Perform one HTTP exchange. -/
def doHTTP (env : Env σ) (s : σ) (req : HttpRequest) : Ran σ HttpResult :=
  ⟨(env.httpDo s req).1, [Event.http req (env.httpDo s req).1], (env.httpDo s req).2⟩

/-- Run `db.Query(sql, args...)` and advance to the first row. -/
def doQuery (env : Env σ) (s : σ) (db : DB) (sql : String) (args : List String) :
    Ran σ QueryReply :=
  ⟨(env.dbQuery s db sql args).1, [Event.query db sql args (env.dbQuery s db sql args).1],
    (env.dbQuery s db sql args).2⟩

/-- Run `db.Exec(sql, args...)`. -/
def doExec (env : Env σ) (s : σ) (db : DB) (sql : String) (args : List String) :
    Ran σ (Option GoError) :=
  ⟨(env.dbExec s db sql args).1, [Event.exec db sql args (env.dbExec s db sql args).1],
    (env.dbExec s db sql args).2⟩

/-- Go `fmt.Sprintf("%v", v)` for a decoded JSON value. -/
def sprintfV (env : Env σ) : JSONValue → String
  | .null => "<nil>"
  | .bool b => if b then "true" else "false"
  | .num x => env.fmtG x
  | .str s => s
  | v => env.fmtComposite "%v" v

/-- Go `fmt.Sprintf("%.0f", v)` for a decoded JSON value: only a float64 is a valid
operand, every other dynamic type is rendered as a bad-verb marker.  The marker prints the
operand with the flags of the verb, and the precision 0 cuts a string operand down to no
character at all, so every string gives the same text. -/
def sprintfF0 (env : Env σ) : JSONValue → String
  | .null => "%!f(<nil>)"
  | .bool b => "%!f(bool=" ++ (if b then "true" else "false") ++ ")"
  | .num x => fmtFixed 0 x
  | .str _ => "%!f(string=)"
  | v => env.fmtComposite "%.0f" v

/-- The request issued by `http.Get(url)`. -/
def httpGet (url : String) : HttpRequest := ⟨"GET", url, [], none⟩

/-! ## Token Provider -/

/-- Go method `getMLToken`: the marketplace token and the user id at its end. -/
def getMLToken (env : Env σ) (s : σ) (conta : String) :
    Ran σ (Except GoError (String × String)) :=
  let tkConta := "tk" ++ conta
  if conta = "ford" then
    let url := ("https://imgs-amz.s3.us-east-1.amazonaws.com/tk/" ++ tkConta ++ ".txt")
    match env.urlError url with
    | some e => ⟨.error ("erro ao obter token fords: " ++ e), [], s⟩
    | none =>
      let r := doHTTP env s (httpGet url)
      match r.val with
      | .netErr e => ⟨.error ("erro ao obter token fords: " ++ e), r.trace, r.st⟩
      | .resp _ body =>
        match body.bind env.decodeFordToken with
        | .error e => ⟨.error ("erro ao decodificar token fords: " ++ e), r.trace, r.st⟩
        | .ok tokenML => ⟨.ok (tokenML, lastDashSegment tokenML), r.trace, r.st⟩
  else
    let tkConta := stringsReplaceOnce tkConta "principal" "amz"
    let urlToken := ("https://imgs-amz.s3.us-east-1.amazonaws.com/tk/" ++ tkConta ++ ".html")
    match env.urlError urlToken with
    | some e => ⟨.error ("erro ao obter token: " ++ e), [], s⟩
    | none =>
      let r := doHTTP env s (httpGet urlToken)
      match r.val with
      | .netErr e => ⟨.error ("erro ao obter token: " ++ e), r.trace, r.st⟩
      | .resp _ (.error e) => ⟨.error ("erro ao ler conte√∫do: " ++ e), r.trace, r.st⟩
      | .resp _ (.ok contentStr) =>
        let tokenIndex := stringsIndex contentStr "y>" + 2
        if tokenIndex < 2 then ⟨.error "formato de token inv√°lido", r.trace, r.st⟩
        else
          let tokenMid := sliceFrom contentStr tokenIndex.toNat
          let tokenIndexEnd := stringsIndex tokenMid "</"
          if tokenIndexEnd = -1 then ⟨.error "formato de token inv√°lido", r.trace, r.st⟩
          else
            let tokenML := "APP_USR-" ++ sliceTo tokenMid tokenIndexEnd.toNat
            ⟨.ok (tokenML, lastDashSegment tokenML), r.trace, r.st⟩

/-! ## Order Fetcher -/

/-- The GET request built by `getMLOrder` (token in the query string, two headers). -/
def mlOrderRequest (url : String) : HttpRequest :=
  ⟨"GET", url, [("Content-Type", "application/json"), ("Accept", "application/json")], none⟩

/-- Go method `getMLOrder`: direct lookup, then the pack fallback on a 404. -/
def getMLOrder (env : Env σ) (s : σ) (numPedido tokenML : String) :
    Ran σ (Except GoError MLOrder) :=
  let url := ("https://api.mercadolibre.com/orders/" ++ numPedido ++ "?access_token=" ++ tokenML)
  match env.urlError url with
  | some e => ⟨.error e, [], s⟩
  | none =>
    let r := doHTTP env s (mlOrderRequest url)
    match r.val with
    | .netErr e => ⟨.error e, r.trace, r.st⟩
    | .resp status body =>
      let notFound : GoError := ("erro ao obter pedido ML: status " ++ toString status)
      if status = 200 then
        match body.bind env.decodeOrder with
        | .error e => ⟨.error e, r.trace, r.st⟩
        | .ok order => ⟨.ok order, r.trace, r.st⟩
      else if status = 404 then
        let packURL := ("https://api.mercadolibre.com/packs/" ++ numPedido ++ "?access_token=" ++ tokenML)
        match env.urlError packURL with
        | some e => ⟨.error e, r.trace, r.st⟩
        | none =>
          let rp := doHTTP env r.st (mlOrderRequest packURL)
          match rp.val with
          | .netErr e => ⟨.error e, r.trace ++ rp.trace, rp.st⟩
          | .resp packStatus packBody =>
            if packStatus = 200 then
              match packBody.bind env.decodePack with
              | .error e => ⟨.error e, r.trace ++ rp.trace, rp.st⟩
              | .ok [] => ⟨.error notFound, r.trace ++ rp.trace, rp.st⟩
              | .ok (first :: _) =>
                let firstOrderID := sprintfF0 env first
                let orderURL := ("https://api.mercadolibre.com/orders/" ++ firstOrderID ++ "?access_token=" ++ tokenML)
                match env.urlError orderURL with
                | some e => ⟨.error e, r.trace ++ rp.trace, rp.st⟩
                | none =>
                  let ro := doHTTP env rp.st (mlOrderRequest orderURL)
                  match ro.val with
                  | .netErr e => ⟨.error e, r.trace ++ rp.trace ++ ro.trace, ro.st⟩
                  | .resp orderStatus orderBody =>
                    if orderStatus = 200 then
                      match orderBody.bind env.decodeOrder with
                      | .error e => ⟨.error e, r.trace ++ rp.trace ++ ro.trace, ro.st⟩
                      | .ok order => ⟨.ok order, r.trace ++ rp.trace ++ ro.trace, ro.st⟩
                    else ⟨.error notFound, r.trace ++ rp.trace ++ ro.trace, ro.st⟩
            else ⟨.error notFound, r.trace ++ rp.trace, rp.st⟩
      else ⟨.error notFound, r.trace, r.st⟩

/-! ## Mapping Resolver -/

/-- Go method `getSchemaFromConta`. -/
def getSchemaFromConta (env : Env σ) (conta : String) : String :=
  let c := env.toLower conta
  if c = "principal" then "principal"
  else if c = "oficial" then "oficial"
  else if c = "renault" then "renault"
  else if c = "psa" then "psa"
  else if c = "ford" then "ford"
  else if c = "jeep" then "jeep"
  else "principal"

/-- Go method `getCodigoFornecedor`: supplier code first, final company code second. -/
def getCodigoFornecedor (codEmpresa : String) (hasDepara : Bool) : String × String :=
  if codEmpresa = "17" then ("7", "17")
  else if codEmpresa = "144" then ("13", "144")
  else if codEmpresa = "44" then ("13", "144")
  else if codEmpresa = "12" then ("12", "17")
  else if codEmpresa = "40" then ("1", "40")
  else if codEmpresa = "34" then ("9", "34")
  else if codEmpresa = "41" then ("11", "41")
  else if codEmpresa = "47" then ("17", "47")
  else if codEmpresa = "140" then ("1", "140")
  else if codEmpresa = "LUCIOS" then
    if hasDepara then ("8", "LUCIOS") else ("lucio nao encontrado", "LUCIOS")
  else if codEmpresa = "OUTROS" then ("8", "17")
  else ("nao encontrado", codEmpresa)

/-- Go method `getSchemaFromCodEmpresa`. -/
def getSchemaFromCodEmpresa (codEmpresa : String) : String :=
  if codEmpresa = "17" then "principal"
  else if codEmpresa = "144" then "psa"
  else if codEmpresa = "44" then "psa"
  else if codEmpresa = "12" then "principal"
  else if codEmpresa = "40" then "ford"
  else if codEmpresa = "34" then "jeep"
  else if codEmpresa = "41" then "renault"
  else if codEmpresa = "47" then "renault"
  else if codEmpresa = "140" then "ford"
  else if codEmpresa = "LUCIOS" then "principal"
  else if codEmpresa = "OUTROS" then "principal"
  else "principal"

/-- The `MPN` scan of `getEmpresaFornecedor`: value of the first attribute named `MPN`. -/
def validadorPeca (item : MLItem) : String :=
  match item.Attributes.find? (fun a => a.Name = "MPN") with
  | some a => a.ValueName
  | none => ""

/-- Go method `getEmpresaFornecedor`: final company code first, supplier code second. -/
def getEmpresaFornecedor (env : Env σ) (s : σ) (mlbItem conta : String) :
    Ran σ (Except GoError (String × String)) :=
  let url := ("https://api.mercadolibre.com/items/" ++ mlbItem)
  match env.urlError url with
  | some e => ⟨.error e, [], s⟩
  | none =>
    let r := doHTTP env s (httpGet url)
    match r.val with
    | .netErr e => ⟨.error e, r.trace, r.st⟩
    | .resp _ body =>
      match body.bind env.decodeItem with
      | .error e => ⟨.error e, r.trace, r.st⟩
      | .ok item =>
        let schema := getSchemaFromConta env conta
        let query := ("SELECT mlb, sku, filial FROM " ++ schema ++ ".stg_Depara WHERE mlb = @p1")
        let q := doQuery env r.st DB.sqlserver query [mlbItem]
        match q.val with
        | .failed e => ⟨.error e, r.trace ++ q.trace, q.st⟩
        | .firstRow [some _, some _, some filial] =>
          let codEmpresa :=
            if stringsContains (validadorPeca item) "LC" then "LUCIOS"
            else if filial ≠ "" then filial
            else "OUTROS"
          let cf := getCodigoFornecedor codEmpresa true
          ⟨.ok (cf.2, cf.1), r.trace ++ q.trace, q.st⟩
        | .firstRow cols => ⟨.error (env.scanError cols), r.trace ++ q.trace, q.st⟩
        | .noRows =>
          let codEmpresa :=
            if stringsContains (validadorPeca item) "LC" then "LUCIOS" else "OUTROS"
          let cf := getCodigoFornecedor codEmpresa false
          ⟨.ok (cf.2, cf.1), r.trace ++ q.trace, q.st⟩

/-- Go method `getNBSToken`. -/
def getNBSToken (env : Env σ) (s : σ) (codEmpresa : String) : Ran σ (Except GoError String) :=
  let conta := if codEmpresa = "LUCIOS" then "HYSTALO17" else ("HYSTALO" ++ codEmpresa)
  let url := ("http://10.13.1.19:8080/nbsapi-gateway/token?usuario=" ++ conta ++ "&senha=nbsapi&idioma=PT&pacote=HYSTALO")
  match env.urlError url with
  | some e => ⟨.error e, [], s⟩
  | none =>
    let r := doHTTP env s ⟨"POST", url, [("Content-Type", "application/json")], none⟩
    match r.val with
    | .netErr e => ⟨.error e, r.trace, r.st⟩
    | .resp _ body =>
      match body.bind env.decodeNBSToken with
      | .error e => ⟨.error e, r.trace, r.st⟩
      | .ok token => ⟨.ok token, r.trace, r.st⟩

/-! ## Customer data -/

/-- One step of the array branch of `getMLClientData`: an element that is an object with
string `name` and string `value` binds `name` to `value`. -/
def addInfoItem (m : GoMap) : JSONValue → GoMap
  | .obj itemMap =>
    match GoMap.getString itemMap "name" with
    | some name =>
      match GoMap.getString itemMap "value" with
      | some value => m.set name (.str value)
      | none => m
    | none => m
  | _ => m

/-- The map `additionalInfoMap` built by `getMLClientData` from `additional_info`,
which may be an array of name/value objects or an object. -/
def additionalInfoMap : JSONValue → GoMap
  | .arr items => items.foldl addInfoItem []
  | .obj fields => fields
  | _ => []

/-- The customer name and kind derived by `getMLClientData`. -/
def nomeTipoCliente (env : Env σ) (b : BillingInfo) : String × String :=
  let info := additionalInfoMap b.AdditionalInfo
  if b.DocType = "CPF" then
    match info.getString "FIRST_NAME" with
    | some firstName =>
      match info.getString "LAST_NAME" with
      | some lastName => (env.toUpper (firstName ++ " " ++ lastName), "F")
      | none => (env.toUpper firstName, "F")
    | none => ("CLIENTE ML", "F")
  else
    match info.getString "BUSINESS_NAME" with
    | some businessName => (env.toUpper businessName, "J")
    | none => ("CLIENTE ML", "J")

/-- A Go `int` or untyped numeric constant stored in an `interface{}`. -/
def jsonInt (n : Int) : JSONValue := .num (Dyadic.ofInt n)

/-- The map `clienteData` returned by `getMLClientData`. -/
def clienteDataMap (codigoCliente tipoCliente nomeCliente : String) : GoMap :=
  [ ("codigoCliente", .str codigoCliente),
    ("codigoTipoCliente", jsonInt 1),
    ("codigoRamo", .str "V"),
    ("codigoClasse", jsonInt 53),
    ("codigoClasseTipo", .str "24"),
    ("codigoEstadoCivil", .str "1"),
    ("prefixoCelular", .str "11"),
    ("telefoneCelular", .str "25948379"),
    ("prefixoComercial", .str "11"),
    ("telefoneComercial", .str "25948379"),
    ("prefixoResidencial", .str "11"),
    ("telefoneResidencial", .str "25948379"),
    ("codigoNacionalidade", .str "36"),
    ("codigoProfissao", .str "102"),
    ("paiCliente", .str ""),
    ("maeCliente", .str ""),
    ("emailCliente", .str "09059264630@MAIL.COM.BR"),
    ("tipo", .str tipoCliente),
    ("nome", .str nomeCliente),
    ("sexo", .str "F"),
    ("nascimento", .str "1993-01-01T09:52:50.638Z"),
    ("cpfCnpj", .str codigoCliente),
    ("rgIe", .str "0"),
    ("ssp", .str "SP"),
    ("atualizaExistente", .bool true),
    ("clienteRevendedor", .bool false),
    ("rua", .str "Rua do Mercado Livre"),
    ("bairro", .str "Centro"),
    ("uf", .str "SP"),
    ("cep", .str "01234567") ]

/-- The tail of `getMLClientData`, from the decoded billing info to `clienteData`. -/
def clienteDataOf (env : Env σ) (b : BillingInfo) : GoMap :=
  clienteDataMap b.DocNumber (nomeTipoCliente env b).2 (nomeTipoCliente env b).1

/-- The GET request built by `getMLClientData` (bearer token in a header). -/
def mlBearerRequest (url tokenML : String) : HttpRequest :=
  ⟨"GET", url, [("Authorization", ("Bearer " ++ tokenML)), ("Content-Type", "application/json")],
    none⟩

/-- Go method `getMLClientData`. -/
def getMLClientData (env : Env σ) (s : σ) (numPedido tokenML : String) :
    Ran σ (Except GoError GoMap) :=
  let urlBilling := ("https://api.mercadolibre.com/orders/" ++ numPedido ++ "/billing_info")
  match env.urlError urlBilling with
  | some e => ⟨.error e, [], s⟩
  | none =>
    let r := doHTTP env s (mlBearerRequest urlBilling tokenML)
    match r.val with
    | .netErr e => ⟨.error e, r.trace, r.st⟩
    | .resp status body =>
      if status = 200 then
        match body.bind env.decodeBilling with
        | .error e => ⟨.error e, r.trace, r.st⟩
        | .ok b => ⟨.ok (clienteDataOf env b), r.trace, r.st⟩
      else
        let packURL := ("https://api.mercadolibre.com/packs/" ++ numPedido)
        match env.urlError packURL with
        | some e => ⟨.error e, r.trace, r.st⟩
        | none =>
          let rp := doHTTP env r.st (mlBearerRequest packURL tokenML)
          match rp.val with
          | .netErr e => ⟨.error e, r.trace ++ rp.trace, rp.st⟩
          | .resp packStatus packBody =>
            if packStatus = 200 then
              match packBody.bind env.decodePack with
              | .error e => ⟨.error e, r.trace ++ rp.trace, rp.st⟩
              | .ok [] => ⟨.error "nenhum pedido encontrado no pack", r.trace ++ rp.trace, rp.st⟩
              | .ok (first :: _) =>
                let firstOrderID := sprintfF0 env first
                let billingURL := ("https://api.mercadolibre.com/orders/" ++ firstOrderID ++ "/billing_info")
                match env.urlError billingURL with
                | some e => ⟨.error e, r.trace ++ rp.trace, rp.st⟩
                | none =>
                  let rb := doHTTP env rp.st (mlBearerRequest billingURL tokenML)
                  match rb.val with
                  | .netErr e => ⟨.error e, r.trace ++ rp.trace ++ rb.trace, rb.st⟩
                  | .resp billingStatus billingBody =>
                    if billingStatus = 200 then
                      match billingBody.bind env.decodeBilling with
                      | .error e => ⟨.error e, r.trace ++ rp.trace ++ rb.trace, rb.st⟩
                      | .ok b =>
                        ⟨.ok (clienteDataOf env b), r.trace ++ rp.trace ++ rb.trace, rb.st⟩
                    else
                      ⟨.error ("erro ao obter billing_info do pack: status " ++ toString billingStatus),
                        r.trace ++ rp.trace ++ rb.trace, rb.st⟩
            else ⟨.error ("erro ao obter pack: status " ++ toString packStatus), r.trace ++ rp.trace, rp.st⟩

/-! ## Customer/Address Registrar -/

/-- The constant `urlCliente` of `registerClient`. -/
def urlCliente : String := "http://10.13.1.19:8080/nbsapi-gateway/nbs/ecommerce/hystalo/api/clientes"

/-- The constant `urlEndereco` of `registerAddress`. -/
def urlEndereco : String := "http://10.13.1.19:8080/nbsapi-gateway/nbs/ecommerce/hystalo/api/clientes/endereco"

/-- The constant `urlPedidoEnvio` of `processItemsAndSendOrder`. -/
def urlPedidoEnvio : String := "http://10.13.1.19:8080/nbsapi-gateway/nbs/ecommerce/hystalo/api/pedidos"

/-- The header map sent with every ERP call. -/
def nbsHeaders (tokenNBS : String) : List (String × String) :=
  [("Content-Type", "application/json"), ("Authorization", ("Bearer " ++ tokenNBS))]

/-- The text obtained by `body, _ := io.ReadAll(resp.Body)` (what was read before a read
error is not modelled and counts as empty). -/
def bodyText : Except GoError String → String
  | .ok b => b
  | .error _ => ""

/-- Go method `registerClient`. -/
def registerClient (env : Env σ) (s : σ) (numPedido tokenML tokenNBS : String) :
    Ran σ (Except GoError String) :=
  let c := getMLClientData env s numPedido tokenML
  match c.val with
  | .error e => ⟨.error ("erro ao obter dados do cliente: " ++ e), c.trace, c.st⟩
  | .ok clienteData =>
    let r := doHTTP env c.st ⟨"POST", urlCliente, nbsHeaders tokenNBS, some (.obj clienteData)⟩
    match r.val with
    | .netErr e => ⟨.error ("erro ao enviar cliente para NBS: " ++ e), c.trace ++ r.trace, r.st⟩
    | .resp status body =>
      if status ≠ 200 then
        ⟨.error ("erro na API do NBS (status " ++ toString status ++ "): " ++ bodyText body), c.trace ++ r.trace, r.st⟩
      else
        match body with
        | .error e => ⟨.error ("erro ao ler resposta do NBS: " ++ e), c.trace ++ r.trace, r.st⟩
        | .ok text =>
          match env.decodeCliente text with
          | .error e => ⟨.error ("erro ao decodificar resposta do NBS: " ++ e), c.trace ++ r.trace, r.st⟩
          | .ok resultCliente =>
            if !resultCliente.Sucesso then
              ⟨.error ("erro na API do NBS: " ++ resultCliente.Mensagem), c.trace ++ r.trace, r.st⟩
            else ⟨.ok "", c.trace ++ r.trace, r.st⟩

/-- The map `enderecoData` of `registerAddress`. -/
def enderecoDataMap (codigoCliente : String) : GoMap :=
  [ ("codigoCliente", .str codigoCliente),
    ("clienteTipoEndereco", jsonInt 4),
    ("codCidades", .str "3550308"),
    ("CEP", .str "01234567"),
    ("rua", .str "Rua do Mercado Livre"),
    ("complemento", .str "N/A"),
    ("bairro", .str "Centro"),
    ("uf", .str "SP"),
    ("numeroEndereco", .str "123"),
    ("nomePropriedade", .str "Internet"),
    ("inscricaoEstadual", .str "ISENTO"),
    ("fachada", .str "Internet"),
    ("contato", .str "Consumidor"),
    ("telefoneContato", .str "25948379"),
    ("prefixoTelefoneContato", .str "11") ]

/-- The Go expression `clienteData["codigoCliente"].(string)`.  The assertion cannot
fail: `getMLClientData` always binds that key to a string
(`codigoClienteOf_getMLClientData`). -/
def codigoClienteOf (clienteData : GoMap) : String :=
  (clienteData.getString "codigoCliente").getD ""

/-- Go method `registerAddress`. -/
def registerAddress (env : Env σ) (s : σ) (numPedido tokenML tokenNBS : String) :
    Ran σ (Except GoError String) :=
  let c := getMLClientData env s numPedido tokenML
  match c.val with
  | .error e => ⟨.error ("erro ao obter dados do cliente para endere√ßo: " ++ e), c.trace, c.st⟩
  | .ok clienteData =>
    let enderecoData := enderecoDataMap (codigoClienteOf clienteData)
    let r := doHTTP env c.st ⟨"POST", urlEndereco, nbsHeaders tokenNBS, some (.obj enderecoData)⟩
    match r.val with
    | .netErr e => ⟨.error ("erro ao enviar endere√ßo para NBS: " ++ e), c.trace ++ r.trace, r.st⟩
    | .resp status body =>
      if status ≠ 200 then
        ⟨.error ("erro na API do NBS (status " ++ toString status ++ "): " ++ bodyText body), c.trace ++ r.trace, r.st⟩
      else
        match body with
        | .error e => ⟨.error ("erro ao ler resposta do NBS: " ++ e), c.trace ++ r.trace, r.st⟩
        | .ok text =>
          match env.decodeEndereco text with
          | .error e => ⟨.error ("erro ao decodificar resposta do NBS: " ++ e), c.trace ++ r.trace, r.st⟩
          | .ok resultEndereco =>
            if !resultEndereco.Sucesso then
              ⟨.error ("erro na API do NBS: " ++ resultEndereco.Mensagem), c.trace ++ r.trace, r.st⟩
            else ⟨.ok "", c.trace ++ r.trace, r.st⟩

/-! ## Ledger writes -/

/-- The SQL text of `insertInitialStatus`. -/
def sqlInsertInitial : String := "\n\t\tINSERT INTO integrator.fato_StatusVenda \n\t\tVALUES (\n\t\t\t\x27Mercado Livre\x27,\n\t\t\t$1,\n\t\t\t$2,\n\t\t\t$3,\n\t\t\t$4,\n\t\t\t\x27Mercado Envios\x27,\n\t\t\tNOW(),\n\t\t\tnull,\n\t\t\tnull,\n\t\t\tnull,\n\t\t\tnull,\n\t\t\tnull,\n\t\t\t0\n\t\t)\n\t"

/-- The SQL text of `updateFinalStatus`. -/
def sqlUpdateFinal : String := "\n\t\tUPDATE integrator.fato_StatusVenda \n\t\tSET\n\t\t\tnum_prenota = $1,\n\t\t\tdat_prenota = NOW(),\n\t\t\tflg_statuspedido = 1\n\t\tWHERE id_conta = $2\n\t\tAND num_pedido = $3\n\t"

/-- The SQL text of the existence check of `ProcessIntegration`. -/
def sqlValidate : String := "SELECT * FROM integrator.fato_StatusVenda WHERE num_pedido = $1"

/-- Go method `insertInitialStatus`. -/
def insertInitialStatus (env : Env σ) (s : σ) (numPedido conta tokenUser idShipping : String) :
    Ran σ (Option GoError) :=
  doExec env s DB.pg sqlInsertInitial [env.toUpper conta, tokenUser, numPedido, idShipping]

/-- Go method `updateFinalStatus`. -/
def updateFinalStatus (env : Env σ) (s : σ) (numPedido numeroPedido tokenUser : String) :
    Ran σ (Option GoError) :=
  doExec env s DB.pg sqlUpdateFinal [numeroPedido, tokenUser, numPedido]

/-! ## Order Submitter -/

/-- Go method `getSKUFromDePara`. -/
def getSKUFromDePara (env : Env σ) (s : σ) (mlbItem codEmpresa : String) :
    Ran σ (Except GoError String) :=
  let schema := getSchemaFromCodEmpresa codEmpresa
  let query := ("SELECT sku FROM " ++ schema ++ ".stg_Depara WHERE mlb = @p1")
  let q := doQuery env s DB.sqlserver query [mlbItem]
  match q.val with
  | .failed e => ⟨.error ("erro ao consultar DePara: " ++ e), q.trace, q.st⟩
  | .firstRow [some sku] => ⟨.ok sku, q.trace, q.st⟩
  | .firstRow cols => ⟨.error ("erro ao ler SKU: " ++ env.scanError cols), q.trace, q.st⟩
  | .noRows => ⟨.error ("SKU n√£o encontrado para MLB " ++ mlbItem), q.trace, q.st⟩

/-- The map appended to `finalResult` for one resolved line item. -/
def orderItemMap (sku codFornecedor : String) (item : OrderItem) : GoMap :=
  [ ("COD_ITEM", .str sku),
    ("COD_FORNECEDOR", .str codFornecedor),
    ("PRECO_UNITARIO", .num item.UnitPrice),
    ("QTDE", jsonInt item.Quantity) ]

/-- One iteration of the item loop of `processItemsAndSendOrder`: `acc.val` is
`finalResult`; a failed lookup leaves it as it is (`continue`). -/
def itemLoopStep (env : Env σ) (codEmpresa codFornecedor : String)
    (acc : Ran σ (List GoMap)) (item : OrderItem) : Ran σ (List GoMap) :=
  let mlbItem := sprintfV env item.ItemID
  let r := getSKUFromDePara env acc.st mlbItem codEmpresa
  match r.val with
  | .error _ => ⟨acc.val, acc.trace ++ r.trace, r.st⟩
  | .ok sku =>
    ⟨acc.val ++ [orderItemMap sku codFornecedor item], acc.trace ++ r.trace, r.st⟩

/-- The item loop of `processItemsAndSendOrder`, started with an empty `finalResult`. -/
def itemLoop (env : Env σ) (s : σ) (codEmpresa codFornecedor : String)
    (items : List OrderItem) : Ran σ (List GoMap) :=
  items.foldl (itemLoopStep env codEmpresa codFornecedor) ⟨[], [], s⟩

/-- The map `dataPedido` of `processItemsAndSendOrder`. -/
def dataPedidoMap (order : MLOrder) (codEmpresa codCliente : String)
    (finalResult : List GoMap) : GoMap :=
  [ ("COD_PEDIDO_WEB", jsonInt 1005502702),
    ("COD_CLIENTE", .str codCliente),
    ("TIPO_ENDERECO", jsonInt 4),
    ("COD_TRANSPORTADORA", jsonInt 0),
    ("VALOR_FRETE_TOTAL", .num ⟨false, 0, 0⟩),
    ("CNPJ_INTERMED", .str "03361252000134"),
    ("IDENT_CAD_INTERMED", .str "Mercado Livre"),
    ("NOME", .str ("ECOMML" ++ codEmpresa)),
    ("Itens", .arr (finalResult.map JSONValue.obj)),
    ("Pagamentos", .arr [.obj
      [ ("codigoBandeira", .str "MP"),
        ("tipoCartao", .str "CREDITO"),
        ("dataPagamento", .str order.DateCreated),
        ("numeroCartao", .str "9999999999999999"),
        ("numeroAutorizacao", .str "01071531"),
        ("quantidadeParcelas", jsonInt 1) ]]) ]

/-- The type switch of `processItemsAndSendOrder` that turns `codigoPedido` into a
string (after JSON decoding the dynamic type is never `int`). -/
def codigoPedidoString (env : Env σ) : JSONValue → String
  | .str v => v
  | .num v => fmtFixed 0 v
  | v => sprintfV env v

/-- The error `processItemsAndSendOrder` returns when no line item resolved to a SKU. -/
def errNoValidItems : GoError := "nenhum item v√°lido encontrado para processamento"

/-- Go method `processItemsAndSendOrder`. -/
def processItemsAndSendOrder (env : Env σ) (s : σ) (order : MLOrder)
    (codEmpresa codFornecedor codCliente tokenNBS : String) : Ran σ (Except GoError String) :=
  let l := itemLoop env s codEmpresa codFornecedor order.OrderItems
  if l.val.length = 0 then ⟨.error errNoValidItems, l.trace, l.st⟩
  else
    let dataPedido := dataPedidoMap order codEmpresa codCliente l.val
    let r := doHTTP env l.st
      ⟨"POST", urlPedidoEnvio, nbsHeaders tokenNBS, some (.obj dataPedido)⟩
    match r.val with
    | .netErr e => ⟨.error ("erro ao enviar pedido para NBS: " ++ e), l.trace ++ r.trace, r.st⟩
    | .resp status body =>
      if status ≠ 200 then
        ⟨.error ("erro na API do NBS (status " ++ toString status ++ "): " ++ bodyText body), l.trace ++ r.trace, r.st⟩
      else
        match body with
        | .error e => ⟨.error ("erro ao ler resposta do NBS: " ++ e), l.trace ++ r.trace, r.st⟩
        | .ok text =>
          match env.decodePedido text with
          | .error e => ⟨.error ("erro ao decodificar resposta do NBS: " ++ e), l.trace ++ r.trace, r.st⟩
          | .ok resultEnvio =>
            let numeroPedido := codigoPedidoString env resultEnvio.CodigoPedido
            if numeroPedido = "" then ⟨.error "n√∫mero da pr√©-nota n√£o retornado pela API do NBS", l.trace ++ r.trace, r.st⟩
            else ⟨.ok numeroPedido, l.trace ++ r.trace, r.st⟩

/-! ## Notifier -/

/-- Go method `sendTelegramMessage`; failures are only logged. -/
def sendTelegramMessage (env : Env σ) (s : σ) (message : String) : Ran σ Unit :=
  let url := ("https://api.telegram.org/bot" ++ env.tokenTelegram ++ "/sendMessage")
  let r := doHTTP env s ⟨"POST", url, [("Content-Type", "application/json")],
    some (.obj [("chat_id", .str "-4282027613"), ("text", .str message)])⟩
  ⟨(), r.trace, r.st⟩

/-! ## The saga -/

/-- Go struct `IntegrationRequest`. -/
structure IntegrationRequest where
  Conta : String
  Marketplace : String
  NumPedido : String

/-- Go struct `IntegrationLogEntry`, without its wall-clock `Timestamp`. -/
structure IntegrationLogEntry where
  Level : String
  Step : String
  Message : String
deriving DecidableEq

/-- Go struct `IntegrationResponse`. -/
structure IntegrationResponse where
  TotalProcessed : Int
  SuccessCount : Int
  ErrorCount : Int
  Results : List GoMap
  Logs : List IntegrationLogEntry

/-- The value every failing `return` of `processOrder` builds from the log so far. -/
def failure (logs : List IntegrationLogEntry) :
    Option (IntegrationResponse × List IntegrationLogEntry) :=
  some (⟨0, 0, 1, [], logs⟩, logs)

/-- The log entries of the loop `for i, item := range order.OrderItems` of
`processOrder`; `i` is the index of the first item of the list. -/
def itemLogs (env : Env σ) (i : Nat) : List OrderItem → List IntegrationLogEntry
  | [] => []
  | item :: rest =>
    ⟨"info", "üì¶", ("Item " ++ toString (i + 1) ++ ": MLB " ++ sprintfV env item.ItemID ++ " | Pre√ßo: R$ " ++ fmtFixed 2 item.UnitPrice ++ " | Qtd: " ++ toString item.Quantity)⟩
      :: itemLogs env (i + 1) rest

/-- The address line logged by `processOrder` before the address registration. -/
def enderecoCompleto (clienteData : GoMap) : String :=
  match clienteData.getString "rua" with
  | some rua =>
    match clienteData.getString "bairro" with
    | some bairro =>
      match clienteData.getString "uf" with
      | some uf => (rua ++ ", " ++ bairro ++ " - " ++ uf)
      | none => "Endere√ßo n√£o identificado"
    | none => "Endere√ßo n√£o identificado"
  | none => "Endere√ßo n√£o identificado"

/-- Go method `processOrder`.  The result is `none` when the Go code panics, which it
does at `order.OrderItems[0]` for an order without line items. -/
def processOrder (env : Env σ) (s : σ) (numPedido conta tokenML tokenUser : String) :
    Ran σ (Option (IntegrationResponse × List IntegrationLogEntry)) :=
  let logs : List IntegrationLogEntry := [⟨"info", "üìã", "Obtendo dados do pedido no Mercado Livre..."⟩]
  let o := getMLOrder env s numPedido tokenML
  match o.val with
  | .error e => ⟨failure (logs ++ [⟨"error", "‚ùå", ("Erro ao obter dados do pedido: " ++ e)⟩]), o.trace, o.st⟩
  | .ok order =>
  let logs := logs ++
    [⟨"success", "‚úÖ", ("Pedido obtido: " ++ numPedido ++ " | Itens: " ++ toString order.OrderItems.length)⟩,
     ⟨"info", "üöö", ("Tipo de Envio: " ++ "Envio Flex")⟩,
     ⟨"info", "üè¢", "Determinando empresa e fornecedor..."⟩]
  match order.OrderItems with
  | [] => ⟨none, o.trace, o.st⟩
  | firstItem :: _ =>
  let itemID := sprintfV env firstItem.ItemID
  let ef := getEmpresaFornecedor env o.st itemID conta
  let tr := o.trace ++ ef.trace
  match ef.val with
  | .error e => ⟨failure (logs ++ [⟨"error", "‚ùå", ("Erro ao determinar empresa/fornecedor: " ++ e)⟩]), tr, ef.st⟩
  | .ok (codEmpresa, codFornecedor) =>
  let nomConta := env.toUpper conta
  let logs := logs ++
    [⟨"success", "‚úÖ", ("Empresa: " ++ codEmpresa ++ ", Fornecedor: " ++ codFornecedor ++ ", Conta: " ++ nomConta)⟩,
     ⟨"info", "üîë", "Obtendo token do NBS..."⟩]
  let t := getNBSToken env ef.st codEmpresa
  let tr := tr ++ t.trace
  match t.val with
  | .error e => ⟨failure (logs ++ [⟨"error", "üîë", ("Erro ao obter token NBS: " ++ e)⟩]), tr, t.st⟩
  | .ok tokenNBS =>
  let logs := logs ++ [⟨"success", "üîë", "Token do NBS obtido com sucesso"⟩, ⟨"info", "üë§", "Coletando dados do cliente do Mercado Livre..."⟩]
  let cd := getMLClientData env t.st numPedido tokenML
  let tr := tr ++ cd.trace
  match cd.val with
  | .error e => ⟨failure (logs ++ [⟨"error", "‚ùå", ("Erro ao obter dados do cliente: " ++ e)⟩]), tr, cd.st⟩
  | .ok clienteData =>
  let nomeCliente := (clienteData.getString "nome").getD "Cliente n√£o identificado"
  let docCliente := (clienteData.getString "codigoCliente").getD "Documento n√£o identificado"
  let logs := logs ++
    [⟨"success", "‚úÖ", ("Cliente identificado: " ++ nomeCliente ++ " | Doc: " ++ docCliente)⟩, ⟨"info", "üë§", "Cadastrando cliente no NBS..."⟩]
  let rc := registerClient env cd.st numPedido tokenML tokenNBS
  let tr := tr ++ rc.trace
  match rc.val with
  | .error e => ⟨failure (logs ++ [⟨"error", "‚ùå", ("Erro ao cadastrar cliente: " ++ e)⟩]), tr, rc.st⟩
  | .ok _ =>
  let logs := logs ++
    [⟨"success", "‚úÖ", ("Cliente " ++ nomeCliente ++ " cadastrado no NBS com sucesso")⟩,
     ⟨"info", "üè†", ("Endere√ßo identificado: " ++ enderecoCompleto clienteData)⟩,
     ⟨"info", "üè†", "Cadastrando endere√ßo no NBS..."⟩]
  let ra := registerAddress env rc.st numPedido tokenML tokenNBS
  let tr := tr ++ ra.trace
  match ra.val with
  | .error e => ⟨failure (logs ++ [⟨"error", "‚ùå", ("Erro ao cadastrar endere√ßo: " ++ e)⟩]), tr, ra.st⟩
  | .ok _ =>
  let logs := logs ++ [⟨"success", "‚úÖ", "Endere√ßo cadastrado no NBS com sucesso"⟩, ⟨"info", "üìù", "Inserindo status inicial do pedido..."⟩]
  let shippingID := sprintfV env order.ShippingID
  let ins := insertInitialStatus env ra.st numPedido nomConta tokenUser shippingID
  let tr := tr ++ ins.trace
  match ins.val with
  | some e => ⟨failure (logs ++ [⟨"error", "üìù", ("Erro ao inserir status inicial: " ++ e)⟩]), tr, ins.st⟩
  | none =>
  let logs := logs ++ [⟨"success", "üìù", "Status inicial inserido com sucesso"⟩]
  let cd2 := getMLClientData env ins.st numPedido tokenML
  let tr := tr ++ cd2.trace
  match cd2.val with
  | .error e => ⟨failure (logs ++ [⟨"error", "üë§", ("Erro ao obter dados do cliente: " ++ e)⟩]), tr, cd2.st⟩
  | .ok clienteData2 =>
  let codCliente := codigoClienteOf clienteData2
  let logs := logs ++ [⟨"info", "üì¶", ("Processando " ++ toString order.OrderItems.length ++ " item(s) do pedido...")⟩]
    ++ itemLogs env 0 order.OrderItems ++ [⟨"info", "‚öôÔ∏è", "Enviando pedido para NBS..."⟩]
  let ps := processItemsAndSendOrder env cd2.st order codEmpresa codFornecedor codCliente tokenNBS
  let tr := tr ++ ps.trace
  match ps.val with
  | .error e => ⟨failure (logs ++ [⟨"error", "‚ùå", ("Erro ao processar itens: " ++ e)⟩]), tr, ps.st⟩
  | .ok numeroPedido =>
  let logs := logs ++
    [⟨"success", "‚úÖ", ("Pedido processado com sucesso! N√∫mero da pr√©-nota: " ++ numeroPedido)⟩, ⟨"info", "üìä", "Atualizando status final do pedido..."⟩]
  let up := updateFinalStatus env ps.st numPedido numeroPedido tokenUser
  let tr := tr ++ up.trace
  match up.val with
  | some e => ⟨failure (logs ++ [⟨"error", "üìä", ("Erro ao atualizar status final: " ++ e)⟩]), tr, up.st⟩
  | none =>
  let logs := logs ++
    [⟨"success", "üìä", "Status final atualizado com sucesso"⟩, ⟨"success", "üéØ", ("Integra√ß√£o conclu√≠da com sucesso! Pedido " ++ numPedido ++ " integrado como pr√©-nota " ++ numeroPedido)⟩]
  let msg := ("üéâ " ++ env.toUpper conta ++ " (MeLi) - NOVO PEDIDO RECEBIDO! üéâ\n\nüõí " ++ numPedido ++ " | " ++ numeroPedido ++ "\n\nüöö Tipo de Envio: Envio Flex")
  let tg := sendTelegramMessage env up.st msg
  ⟨some (⟨1, 1, 0,
      [[("pedido", .str numPedido), ("numero_pedido", .str numeroPedido),
        ("prenota", .str numeroPedido), ("status", .str "sucesso")]], logs⟩, logs),
    tr ++ tg.trace, tg.st⟩

/-- The address line of the final success message of `ProcessIntegration`. -/
def clienteEnderecoOf (clienteData : GoMap) : String :=
  match clienteData.getString "rua" with
  | some rua =>
    match clienteData.getString "bairro" with
    | some bairro =>
      match clienteData.getString "uf" with
      | some uf => (rua ++ ", " ++ bairro ++ " - " ++ uf)
      | none => (rua ++ ", " ++ bairro)
    | none => rua
  | none => "Endere√ßo n√£o identificado"

/-- The `prenota` read from the first result by `ProcessIntegration`. -/
def numeroPrenotaOf (results : List GoMap) : String :=
  match results with
  | [] => ""
  | first :: _ => (first.getString "prenota").getD ""

/-- The success branch of the final Telegram message of `ProcessIntegration`: it fetches
the token, the customer data and the order once more and returns the message text. -/
def finalSuccessMessage (env : Env σ) (s : σ) (req : IntegrationRequest)
    (results : List GoMap) : Ran σ String :=
  let t := getMLToken env s req.Conta
  let text (clienteNome clienteEndereco numeroItens valorTotal : String) : String :=
    ("üéâ NOVO PEDIDO INTEGRADO COM SUCESSO! üéâ\n\nüìã INFORMA√á√ïES DO PEDIDO:\n‚Ä¢ Conta: " ++ env.toUpper req.Conta ++ "\n‚Ä¢ N√∫mero: " ++ req.NumPedido ++ "\n‚Ä¢ Tipo de Envio: " ++ "Envio Flex" ++ "\n‚Ä¢ Cliente: " ++ clienteNome ++ "\n‚Ä¢ Endere√ßo: " ++ clienteEndereco ++ "\n‚Ä¢ Itens: " ++ numeroItens ++ "\n‚Ä¢ Valor Total: R$ " ++ valorTotal ++ "\n\n‚úÖ PROCESSAMENTO:\n‚Ä¢ Cliente cadastrado no NBS\n‚Ä¢ Endere√ßo registrado no NBS\n‚Ä¢ Pedido processado com sucesso\n\nüìÑ PR√â-NOTA GERADA: " ++ numeroPrenotaOf results)
  match t.val with
  | .error _ => ⟨text "Cliente n√£o identificado" "Endere√ßo n√£o identificado" "0" (fmtFixed 2 ⟨false, 0, 0⟩), t.trace, t.st⟩
  | .ok (tokenML, _) =>
    let cd := getMLClientData env t.st req.NumPedido tokenML
    let clienteNome :=
      match cd.val with
      | .ok clienteData => (clienteData.getString "nome").getD "Cliente n√£o identificado"
      | .error _ => "Cliente n√£o identificado"
    let clienteEndereco :=
      match cd.val with
      | .ok clienteData => clienteEnderecoOf clienteData
      | .error _ => "Endere√ßo n√£o identificado"
    let o := getMLOrder env cd.st req.NumPedido tokenML
    match o.val with
    | .ok order =>
      ⟨text clienteNome clienteEndereco (toString order.OrderItems.length)
          (env.fmtTotal order.OrderItems), t.trace ++ cd.trace ++ o.trace, o.st⟩
    | .error _ =>
      ⟨text clienteNome clienteEndereco "0" (fmtFixed 2 ⟨false, 0, 0⟩),
        t.trace ++ cd.trace ++ o.trace, o.st⟩

/-- Go method `ProcessIntegration`; `none` when `processOrder` panics. -/
def ProcessIntegration (env : Env σ) (s : σ) (req : IntegrationRequest) :
    Ran σ (Option IntegrationResponse) :=
  let logs : List IntegrationLogEntry :=
    [⟨"info", "üéâ", (env.toUpper req.Conta ++ " (MeLi) - NOVO PEDIDO RECEBIDO! üéâ")⟩,
     ⟨"info", "üõí", (req.NumPedido ++ " | " ++ req.Marketplace)⟩,
     ⟨"info", "üîç", "Verificando se o pedido j√° foi processado..."⟩]
  let q := doQuery env s DB.pg sqlValidate [req.NumPedido]
  match q.val with
  | .failed e =>
    ⟨some ⟨0, 0, 1, [], logs ++ [⟨"error", "‚ùå", ("Erro ao verificar pedido no PostgreSQL: " ++ e)⟩]⟩, q.trace, q.st⟩
  | .firstRow _ =>
    ⟨some ⟨0, 0, 1, [], logs ++ [⟨"warning", "‚ö†Ô∏è", ("Pedido " ++ req.NumPedido ++ " j√° foi processado anteriormente")⟩]⟩, q.trace, q.st⟩
  | .noRows =>
  let logs := logs ++ [⟨"info", "üîë", "Obtendo token do Mercado Livre..."⟩]
  let t := getMLToken env q.st req.Conta
  match t.val with
  | .error e =>
    ⟨some ⟨0, 0, 1, [], logs ++ [⟨"error", "‚ùå", ("Erro ao obter token ML: " ++ e)⟩]⟩, q.trace ++ t.trace, t.st⟩
  | .ok (tokenML, tokenUser) =>
  let logs := logs ++ [⟨"success", "‚úÖ", "Token do Mercado Livre obtido com sucesso"⟩, ⟨"info", "üöö", "Tipo de Envio: Envio Flex"⟩]
  let p := processOrder env t.st req.NumPedido req.Conta tokenML tokenUser
  match p.val with
  | none => ⟨none, q.trace ++ t.trace ++ p.trace, p.st⟩
  | some (result, processLogs) =>
  let logs := logs ++ processLogs
  if result.SuccessCount > 0 then
    let m := finalSuccessMessage env p.st req result.Results
    let tg := sendTelegramMessage env m.st m.val
    ⟨some ⟨1, result.SuccessCount, result.ErrorCount, result.Results, logs⟩,
      q.trace ++ t.trace ++ p.trace ++ m.trace ++ tg.trace, tg.st⟩
  else
    let finalMsg := ("‚ùå " ++ env.toUpper req.Conta ++ " (MeLi) - INTEGRA√á√ÉO FALHOU! ‚ùå\n\nüìä Resumo:\n‚Ä¢ Total processado: 1\n‚Ä¢ Sucessos: " ++ toString result.SuccessCount ++ "\n‚Ä¢ Erros: " ++ toString result.ErrorCount ++ "\n\n‚ùå Pedido " ++ req.NumPedido ++ " falhou na integra√ß√£o!")
    let tg := sendTelegramMessage env p.st finalMsg
    ⟨some ⟨1, result.SuccessCount, result.ErrorCount, result.Results, logs⟩,
      q.trace ++ t.trace ++ p.trace ++ tg.trace, tg.st⟩

/-! ## Vocabulary of the claims -/

/-- Common root of the ERP resource endpoints (`clientes`, `clientes/endereco`,
`pedidos`). -/
def erpBase : String := "http://10.13.1.19:8080/nbsapi-gateway/nbs/"

/-- The operations that change data in the ERP or in the ledger; `other` is any such
operation that is not one of the five steps of the saga. -/
inductive WriteOp where
  | registerCustomer
  | registerAddress
  | insertInitial
  | submitOrder
  | updateFinal
  | other
deriving DecidableEq

/-- The write operation an exchange amounts to, if any: a non-GET request to an ERP
resource, or an `Exec` on a database. -/
def Event.writeOp : Event → Option WriteOp
  | .http req _ =>
    if req.method = "GET" then none
    else if !startsWith erpBase.data req.url.data then none
    else if req.method = "POST" ∧ req.url = urlCliente then some .registerCustomer
    else if req.method = "POST" ∧ req.url = urlEndereco then some .registerAddress
    else if req.method = "POST" ∧ req.url = urlPedidoEnvio then some .submitOrder
    else some .other
  | .query _ _ _ _ => none
  | .exec db sql _ _ =>
    if db = DB.pg ∧ sql = sqlInsertInitial then some .insertInitial
    else if db = DB.pg ∧ sql = sqlUpdateFinal then some .updateFinal
    else some .other

/-- The write operations of a trace, in order. -/
def writeOps (tr : List Event) : List WriteOp := tr.filterMap Event.writeOp

/-- The exchanges of a trace that are write operations, in order. -/
def writeEvents (tr : List Event) : List Event := tr.filter (fun e => e.writeOp.isSome)

/-- The five write steps of the saga, in their order. -/
def sagaWrites : List WriteOp :=
  [.registerCustomer, .registerAddress, .insertInitial, .submitOrder, .updateFinal]

/-- Whether the service treats the reply of an exchange as a failure of that operation. -/
def opFailed (env : Env σ) : Event → Bool
  | .http req (.resp status (.ok text)) =>
    if status ≠ 200 then true
    else if req.url = urlCliente then
      match env.decodeCliente text with
      | .ok r => !r.Sucesso
      | .error _ => true
    else if req.url = urlEndereco then
      match env.decodeEndereco text with
      | .ok r => !r.Sucesso
      | .error _ => true
    else if req.url = urlPedidoEnvio then
      match env.decodePedido text with
      | .ok r => decide (codigoPedidoString env r.CodigoPedido = "")
      | .error _ => true
    else false
  | .http _ _ => true
  | .query _ _ _ (.failed _) => true
  | .query _ _ _ _ => false
  | .exec _ _ _ err => err.isSome

/-- An ERP reply to a registration that the registration contract calls unsuccessful: a
status outside 200..299, or a decoded success flag that is false. -/
def registrationRefused (decode : String → Except GoError NBSResult) : HttpResult → Prop
  | .resp status body =>
    ¬ (200 ≤ status ∧ status < 300) ∨
      ∃ text r, body = .ok text ∧ decode text = .ok r ∧ r.Sucesso = false
  | .netErr _ => False

/-- Whether a log entry has level `error`. -/
def isErrorEntry (e : IntegrationLogEntry) : Bool := decide (e.Level = "error")

/-- The log entries that open the nine steps of the saga, in the order of the steps:
idempotency check, token, order fetch, mapping, customer, address, initial ledger write,
order submit, final ledger write. -/
def sagaSteps : List IntegrationLogEntry :=
  [ ⟨"info", "üîç", "Verificando se o pedido j√° foi processado..."⟩,
    ⟨"info", "üîë", "Obtendo token do Mercado Livre..."⟩,
    ⟨"info", "üìã", "Obtendo dados do pedido no Mercado Livre..."⟩,
    ⟨"info", "üè¢", "Determinando empresa e fornecedor..."⟩,
    ⟨"info", "üë§", "Cadastrando cliente no NBS..."⟩,
    ⟨"info", "üè†", "Cadastrando endere√ßo no NBS..."⟩,
    ⟨"info", "üìù", "Inserindo status inicial do pedido..."⟩,
    ⟨"info", "‚öôÔ∏è", "Enviando pedido para NBS..."⟩,
    ⟨"info", "üìä", "Atualizando status final do pedido..."⟩ ]

/-- The line items that resolve to a SKU, each with its SKU, in their original order;
the lookups are made one after the other starting in state `s`. -/
def resolvedItems (env : Env σ) (codEmpresa : String) :
    σ → List OrderItem → List (OrderItem × String)
  | _, [] => []
  | s, item :: rest =>
    match (getSKUFromDePara env s (sprintfV env item.ItemID) codEmpresa).val with
    | .ok sku =>
      (item, sku) :: resolvedItems env codEmpresa
        (getSKUFromDePara env s (sprintfV env item.ItemID) codEmpresa).st rest
    | .error _ =>
      resolvedItems env codEmpresa
        (getSKUFromDePara env s (sprintfV env item.ItemID) codEmpresa).st rest

/-- How a run of `processOrder` ended: `none` for a panic, otherwise whether it reports
success. -/
def outcomeOf (v : Option (IntegrationResponse × List IntegrationLogEntry)) : Option Bool :=
  v.map (fun p => decide (p.1.SuccessCount = 1))

/-- The possible sequences `evs` of write exchanges of one run of `processOrder`,
together with how the run ended: the five saga writes in order, cut after any of them;
every write that is followed by another one was accepted; the final update carries the
document number of the accepted submission; the run succeeds only if the update was
accepted. -/
def WritesShape (env : Env σ) (numPedido tokenUser : String) (evs : List Event)
    (outcome : Option Bool) : Prop :=
  (evs = [] ∧ outcome ≠ some true) ∨
  ∃ c, c.writeOp = some .registerCustomer ∧
    ((evs = [c] ∧ outcome = some false) ∨
     (opFailed env c = false ∧ ∃ a, a.writeOp = some .registerAddress ∧
       ((evs = [c, a] ∧ outcome = some false) ∨
        (opFailed env a = false ∧ ∃ i, i.writeOp = some .insertInitial ∧
          ((evs = [c, a, i] ∧ outcome = some false) ∨
           (opFailed env i = false ∧
            (∃ s1 ce items, resolvedItems env ce s1 items ≠ []) ∧
            ∃ o, o.writeOp = some .submitOrder ∧
             ((evs = [c, a, i, o] ∧ outcome = some false) ∨
              (opFailed env o = false ∧ ∃ hd body text r err,
                o = Event.http ⟨"POST", urlPedidoEnvio, hd, body⟩ (.resp 200 (.ok text)) ∧
                env.decodePedido text = .ok r ∧
                codigoPedidoString env r.CodigoPedido ≠ "" ∧
                evs = [c, a, i, o, Event.exec DB.pg sqlUpdateFinal
                  [codigoPedidoString env r.CodigoPedido, tokenUser, numPedido] err] ∧
                outcome = some err.isNone))))))))

/-- Whether an exchange is an HTTP request. -/
def Event.isHTTP : Event → Bool
  | .http _ _ => true
  | _ => false

/-- The schema named in the mapping query of an exchange: the text between `FROM ` and
`.stg_Depara` of its SQL, if it has that shape. -/
def Event.deparaSchema : Event → Option String
  | .query _ sql _ _ =>
    match indexChars " FROM ".data sql.data, indexChars ".stg_Depara".data sql.data with
    | some i, some j => some ⟨(sql.data.take j).drop (i + 6)⟩
    | _, _ => none
  | _ => none

/-- The float64 nearest to the natural number `n` (ties to even): what `encoding/json`
stores in an `interface{}` for the integer literal `n`.  It is `n` itself below `2^53`;
overflow beyond the float64 range is not modelled. -/
def float64OfNat (n : Nat) : Dyadic :=
  if n < 2 ^ 53 then ⟨false, n, 0⟩
  else
    let shift := Nat.log2 n + 1 - 53
    let q := n / 2 ^ shift
    let r := n % 2 ^ shift
    let half := 2 ^ (shift - 1)
    let m := if r < half then q else if half < r then q + 1 else if q % 2 = 0 then q else q + 1
    ⟨false, m, shift⟩

/-- The company/supplier pairs (company first) that the supplier table is said to assign
to a mapped company code. -/
def claimedSupplierTable : List (String × String × String) :=
  [ ("17", "17", "7"), ("144", "144", "13"), ("44", "144", "13"), ("12", "17", "12"),
    ("40", "40", "1"), ("34", "34", "9"), ("41", "41", "11"), ("47", "47", "17"),
    ("140", "140", "1") ]

/-- The text before and the text after the first occurrence of `sub` in `s`, if `sub`
occurs in `s`. -/
def cutAtFirst (sub : List Char) : List Char → Option (List Char × List Char)
  | [] => if sub.isEmpty then some ([], []) else none
  | c :: s =>
    if startsWith sub (c :: s) then some ([], (c :: s).drop sub.length)
    else (cutAtFirst sub s).map (fun p => (c :: p.1, p.2))

/-- The marker-based token extraction in the words of its description: no token when the
text has no `y>` or has no `</` after the first `y>`; otherwise `APP_USR-` followed by the
text between the first `y>` and the next `</`. -/
def markerToken (content : String) : Option String :=
  match cutAtFirst "y>".data content.data with
  | none => none
  | some (_, rest) =>
    match cutAtFirst "</".data rest with
    | none => none
    | some (between, _) => some ("APP_USR-" ++ ⟨between⟩)

/-- Whether an exchange is a message handed to the Notifier: a POST to the Telegram bot
API. -/
def Event.isNotifier : Event → Bool
  | .http req _ =>
    decide (req.method = "POST") && startsWith "https://api.telegram.org/bot".data req.url.data
  | _ => false

/-- Number of Notifier messages in a trace. -/
def notifierCount (tr : List Event) : Nat := tr.countP Event.isNotifier

/-- The field `additional_info` given as an array of name/value objects. -/
def infoArray (pairs : List (String × String)) : JSONValue :=
  .arr (pairs.map (fun p => .obj [("name", .str p.1), ("value", .str p.2)]))

/-- The field `additional_info` given as one object that maps each name to its value. -/
def infoObject (pairs : List (String × String)) : JSONValue :=
  .obj (pairs.map (fun p => (p.1, .str p.2)))

/-- The payloads of the order submissions in a trace: the JSON objects sent by a POST to
the order endpoint of the ERP, in order. -/
def submittedPayloads (tr : List Event) : List GoMap :=
  tr.filterMap (fun e =>
    match e with
    | .http ⟨"POST", url, _, some (.obj payload)⟩ _ =>
      if url = urlPedidoEnvio then some payload else none
    | _ => none)

/-- The card number of an order-submission payload: `numeroCartao` of the only element of
`Pagamentos`. -/
def payloadCardNumber (payload : GoMap) : Option JSONValue :=
  match payload.get "Pagamentos" with
  | some (.arr [.obj pagamento]) => GoMap.get pagamento "numeroCartao"
  | _ => none

/-- Whether a trace has an initial ledger write that the ledger accepted. -/
def insertAccepted (tr : List Event) : Bool :=
  tr.any (fun e =>
    match e with
    | .exec DB.pg sql _ none => decide (sql = sqlInsertInitial)
    | _ => false)

/-- What is assumed of a ledger for the order `numPedido`, where `has s` says that the
ledger holds a row for it in the state `s`: an accepted initial write leaves a row; no HTTP
exchange, query or final update removes it; and the existence check finds it. -/
structure LedgerKeepsRow (env : Env σ) (numPedido : String) (has : σ → Bool) : Prop where
  insert_adds : ∀ s a b d,
    (env.dbExec s DB.pg sqlInsertInitial [a, b, numPedido, d]).1 = none →
      has (env.dbExec s DB.pg sqlInsertInitial [a, b, numPedido, d]).2 = true
  http_keeps : ∀ s req, has s = true → has (env.httpDo s req).2 = true
  query_keeps : ∀ s db sql args, has s = true → has (env.dbQuery s db sql args).2 = true
  update_keeps : ∀ s args, has s = true → has (env.dbExec s DB.pg sqlUpdateFinal args).2 = true
  check_finds : ∀ s, has s = true →
    ∃ cols, (env.dbQuery s DB.pg sqlValidate [numPedido]).1 = .firstRow cols

/-- Whether an exchange is a SKU lookup of `getSKUFromDePara` that found a SKU: a query
of the mapping store for the column `sku` alone that is answered with a row of one
non-null column. -/
def Event.resolvesSKU : Event → Bool
  | .query DB.sqlserver sql _ (.firstRow [some _]) =>
    startsWith "SELECT sku FROM ".data sql.data
  | _ => false

/-- Whether some SKU lookup of a trace found a SKU. -/
def skuResolved (tr : List Event) : Bool := tr.any Event.resolvesSKU

/-- The world as seen by a run of `ProcessIntegration` while a second invocation, for the
request `other`, runs concurrently: the second invocation runs from start to end right
after the existence check of the observed run has been answered.  The flag in the state
says whether that has happened. -/
def withConcurrentRun (env : Env σ) (other : IntegrationRequest) : Env (σ × Bool) :=
  { toUpper := env.toUpper
    toLower := env.toLower
    fmtG := env.fmtG
    fmtComposite := env.fmtComposite
    urlError := env.urlError
    fmtTotal := env.fmtTotal
    tokenTelegram := env.tokenTelegram
    decodeFordToken := env.decodeFordToken
    decodeOrder := env.decodeOrder
    decodePack := env.decodePack
    decodeItem := env.decodeItem
    decodeNBSToken := env.decodeNBSToken
    decodeBilling := env.decodeBilling
    decodeCliente := env.decodeCliente
    decodeEndereco := env.decodeEndereco
    decodePedido := env.decodePedido
    scanError := env.scanError
    httpDo := fun s req => ((env.httpDo s.1 req).1, ((env.httpDo s.1 req).2, s.2))
    dbQuery := fun s db sql args =>
      if s.2 = false ∧ db = DB.pg ∧ sql = sqlValidate then
        ((env.dbQuery s.1 db sql args).1,
          ((ProcessIntegration env (env.dbQuery s.1 db sql args).2 other).st, true))
      else ((env.dbQuery s.1 db sql args).1, ((env.dbQuery s.1 db sql args).2, s.2))
    dbExec := fun s db sql args =>
      ((env.dbExec s.1 db sql args).1, ((env.dbExec s.1 db sql args).2, s.2)) }

/-! ## A sample world

A small concrete environment used to evaluate the service on explicit inputs: one order
`2000012345678` of account `psa` with a single line item `MLB111`, and a pack
`2000000000000001` whose only sub-order is `2000000000000002`. -/

/-- ASCII upper-casing (agrees with `strings.ToUpper` on ASCII text). -/
def asciiUpper (s : String) : String := ⟨s.data.map Char.toUpper⟩

/-- ASCII lower-casing (agrees with `strings.ToLower` on ASCII text). -/
def asciiLower (s : String) : String := ⟨s.data.map Char.toLower⟩

/-- Whether a character is a hexadecimal digit. -/
def isHexDigit (c : Char) : Bool :=
  ('0' ≤ c && c ≤ '9') || ('a' ≤ c && c ≤ 'f') || ('A' ≤ c && c ≤ 'F')

/-- Whether the part of a URL before its query has a `%` that is not followed by two
hexadecimal digits; `net/url` rejects such a URL. -/
def hasBadEscape : List Char → Bool
  | [] => false
  | c :: rest =>
    if c = '?' then false
    else if c = '%' then
      match rest with
      | a :: b :: rest2 => !(isHexDigit a && isHexDigit b) || hasBadEscape rest2
      | _ => true
    else hasBadEscape rest

/-- Switches of the sample world. -/
structure Scenario where
  /-- Whether the ledger already holds a row for every order id. -/
  ledgerHasRow : Bool
  /-- Whether the SKU query of the mapping store finds a row. -/
  skuFound : Bool
  /-- Status code of the ERP answer to the customer registration. -/
  clienteStatus : Nat
  /-- Success flag of the ERP answer to the customer registration. -/
  clienteSucesso : Bool
  /-- How the pack lists the id of its only sub-order. -/
  packOrderID : JSONValue

/-- The order served by the sample marketplace. -/
def sampleOrder : MLOrder :=
  { ID := .num ⟨false, 2000012345678, 0⟩
    DateCreated := "2024-05-01T10:00:00.000-04:00"
    OrderItems := [⟨.str "MLB111", "Filtro", ⟨false, 199, -1⟩, 2⟩]
    ShippingID := .str "43210987654" }

/-- HTTP side of the sample world. -/
def sampleHTTP (sc : Scenario) (req : HttpRequest) : HttpResult :=
  if req.url = "https://imgs-amz.s3.us-east-1.amazonaws.com/tk/tkpsa.html" then
    .resp 200 (.ok "<html><body>1234-5678</body></html>")
  else if req.url = "https://api.mercadolibre.com/orders/2000012345678?access_token=APP_USR-1234-5678" then
    .resp 200 (.ok "order")
  else if req.url = "https://api.mercadolibre.com/orders/2000000000000001?access_token=APP_USR-1234-5678" then
    .resp 404 (.ok "not found")
  else if req.url = "https://api.mercadolibre.com/packs/2000000000000001?access_token=APP_USR-1234-5678" then
    .resp 200 (.ok "pack")
  else if req.url = "https://api.mercadolibre.com/orders/2000000000000002?access_token=APP_USR-1234-5678" then
    .resp 200 (.ok "order")
  else if req.url = "https://api.mercadolibre.com/items/MLB111" then
    .resp 200 (.ok "item")
  else if req.url = "http://10.13.1.19:8080/nbsapi-gateway/token?usuario=HYSTALO17&senha=nbsapi&idioma=PT&pacote=HYSTALO" then
    .resp 200 (.ok "token")
  else if req.url = "https://api.mercadolibre.com/orders/2000012345678/billing_info" then
    .resp 200 (.ok "billing")
  else if req.url = urlCliente then
    .resp sc.clienteStatus (.ok (if sc.clienteSucesso then "done" else "refused"))
  else if req.url = urlEndereco then .resp 200 (.ok "done")
  else if req.url = urlPedidoEnvio then .resp 200 (.ok "pedido")
  else if req.url = "https://api.telegram.org/botT/sendMessage" then .resp 200 (.ok "sent")
  else .resp 404 (.ok "not found")

/-- Database side of the sample world. -/
def sampleQuery (sc : Scenario) (db : DB) (sql : String) : QueryReply :=
  match db with
  | .pg => if sc.ledgerHasRow then .firstRow [some "Mercado Livre"] else .noRows
  | .sqlserver =>
    if startsWith "SELECT sku ".data sql.data then
      if sc.skuFound then .firstRow [some "ABC123"] else .noRows
    else .firstRow [some "MLB111", some "ABC123", some "17"]

/-- The sample world. -/
def sampleEnv (sc : Scenario) : Env Unit :=
  { toUpper := asciiUpper
    toLower := asciiLower
    fmtG := fmtFixed 0
    fmtComposite := fun _ _ => "[]"
    urlError := fun url => if hasBadEscape url.data then some "invalid URL escape" else none
    fmtTotal := fun _ => "199.00"
    tokenTelegram := "T"
    decodeFordToken := fun _ => .error "unexpected end of JSON input"
    decodeOrder := fun b => if b = "order" then .ok sampleOrder else .error "invalid character"
    decodePack := fun b =>
      if b = "pack" then .ok [sc.packOrderID] else .error "invalid character"
    decodeItem := fun b =>
      if b = "item" then .ok ⟨"MLB111", "Filtro", [⟨"MPN", "F100"⟩]⟩
      else .error "invalid character"
    decodeNBSToken := fun b => if b = "token" then .ok "nbs-1" else .error "invalid character"
    decodeBilling := fun b =>
      if b = "billing" then
        .ok ⟨"CPF", "12345678909",
          .arr [.obj [("name", .str "FIRST_NAME"), ("value", .str "Ana")],
                .obj [("name", .str "LAST_NAME"), ("value", .str "Lima")]]⟩
      else .error "invalid character"
    decodeCliente := fun b =>
      if b = "done" then .ok ⟨true, ""⟩
      else if b = "refused" then .ok ⟨false, "cliente recusado"⟩
      else .error "invalid character"
    decodeEndereco := fun b =>
      if b = "done" then .ok ⟨true, ""⟩ else .error "invalid character"
    decodePedido := fun b =>
      if b = "pedido" then .ok ⟨.num ⟨false, 998877, 0⟩, ""⟩ else .error "invalid character"
    scanError := fun _ => "sql: Scan error"
    httpDo := fun _ req => (sampleHTTP sc req, ())
    dbQuery := fun _ db sql _ => (sampleQuery sc db sql, ())
    dbExec := fun _ _ _ _ => (none, ()) }

/-- The scenario in which every external step succeeds. -/
def happy : Scenario := ⟨false, true, 200, true, .num ⟨false, 2000000000000002, 0⟩⟩

/-- The scenario in which the ledger already holds the order. -/
def alreadyInLedger : Scenario := { happy with ledgerHasRow := true }

/-- The scenario in which no line item resolves to a SKU. -/
def noSKU : Scenario := { happy with skuFound := false }

/-- The scenario in which the ERP refuses the customer with a false success flag. -/
def clienteRefused : Scenario := { happy with clienteSucesso := false }

/-- The scenario in which the pack lists its sub-order id as a JSON string. -/
def packWithStringID : Scenario := { happy with packOrderID := .str "2000000000000002" }

/-- The request of the sample order. -/
def sampleRequest : IntegrationRequest := ⟨"psa", "Mercado Livre", "2000012345678"⟩

/-- Decoding of a JSON document into the struct `resultEnvio` of
`processItemsAndSendOrder`, which has the fields `data.codigoPedido` and `mensagem` and
ignores every other key of the document. -/
def resultEnvioOf (doc : GoMap) : NBSOrderResult :=
  { CodigoPedido :=
      match doc.get "data" with
      | some (.obj d) => (GoMap.get d "codigoPedido").getD .null
      | _ => .null
    Mensagem := (doc.getString "mensagem").getD "" }

/-- The sample world in which the ERP answers the order submission with status 200 and
the JSON document `doc`. -/
def orderReplyEnv (doc : GoMap) : Env Unit :=
  { sampleEnv happy with
    decodePedido := fun b =>
      if b = "pedido" then .ok (resultEnvioOf doc) else .error "invalid character" }

/-- An ERP answer to the order submission that reports failure and still carries a
document number. -/
def refusedOrderDoc : GoMap :=
  [ ("sucesso", .bool false), ("mensagem", .str "pedido recusado"),
    ("data", .obj [("codigoPedido", .str "123")]) ]

/-- An ERP answer to the order submission that carries no document number. -/
def absentOrderDoc : GoMap :=
  [ ("sucesso", .bool true), ("mensagem", .str ""), ("data", .obj []) ]

/-- A request for the account `renault`, whose credential document the sample world does
not serve. -/
def renaultRequest : IntegrationRequest := ⟨"renault", "Mercado Livre", "2000012345678"⟩

/-- The sample world in which the marketplace returns the sample order without line
items. -/
def emptyOrderEnv : Env Unit :=
  { sampleEnv happy with
    decodeOrder := fun b =>
      if b = "order" then .ok { sampleOrder with OrderItems := [] }
      else .error "invalid character" }

/-- The sample world in which the mapping store holds a SKU for every item but `MLB111`,
the only line item of the sample order. -/
def unmappedItemEnv : Env Unit :=
  { sampleEnv happy with
    dbQuery := fun _ db sql args =>
      if db = DB.sqlserver ∧ startsWith "SELECT sku ".data sql.data ∧ args = ["MLB111"] then
        (.noRows, ())
      else (sampleQuery happy db sql, ()) }

/-- The sample world in which the item has three attributes: a brand, a part number that
contains `LC`, and a second attribute named `MPN`. -/
def lucioItemEnv : Env Unit :=
  { sampleEnv happy with
    decodeItem := fun b =>
      if b = "item" then
        .ok ⟨"MLB111", "Filtro", [⟨"BRAND", "ACME"⟩, ⟨"MPN", "9LC100"⟩, ⟨"MPN", "F100"⟩]⟩
      else .error "invalid character" }

/-- An ERP answer to the order submission whose document number is the empty string. -/
def emptyNumberDoc : GoMap :=
  [ ("sucesso", .bool true), ("mensagem", .str ""), ("data", .obj [("codigoPedido", .str "")]) ]

/-- An ERP answer to the order submission with the document number 998877. -/
def acceptedOrderDoc : GoMap :=
  [ ("sucesso", .bool true), ("mensagem", .str ""),
    ("data", .obj [("codigoPedido", .num ⟨false, 998877, 0⟩)]) ]

/-- A sample world with a ledger that has a state: the state is the list of the order ids
that have a row, the existence check finds a row exactly for these, and an accepted
initial write adds one; `unique` says whether the ledger refuses a second row for an
order id.  The ERP answers the order submission with the document `doc`; everything else
is as in the sample world where every step succeeds. -/
def ledgerEnv (unique : Bool) (doc : GoMap) : Env (List String) :=
  { toUpper := asciiUpper
    toLower := asciiLower
    fmtG := (sampleEnv happy).fmtG
    fmtComposite := (sampleEnv happy).fmtComposite
    urlError := (sampleEnv happy).urlError
    fmtTotal := (sampleEnv happy).fmtTotal
    tokenTelegram := "T"
    decodeFordToken := (sampleEnv happy).decodeFordToken
    decodeOrder := (sampleEnv happy).decodeOrder
    decodePack := (sampleEnv happy).decodePack
    decodeItem := (sampleEnv happy).decodeItem
    decodeNBSToken := (sampleEnv happy).decodeNBSToken
    decodeBilling := (sampleEnv happy).decodeBilling
    decodeCliente := (sampleEnv happy).decodeCliente
    decodeEndereco := (sampleEnv happy).decodeEndereco
    decodePedido := (orderReplyEnv doc).decodePedido
    scanError := (sampleEnv happy).scanError
    httpDo := fun s req => (sampleHTTP happy req, s)
    dbQuery := fun s db sql args =>
      match db with
      | .pg =>
        (match args with
         | [numPedido] =>
           if s.contains numPedido then .firstRow [some "Mercado Livre"] else .noRows
         | _ => .failed "bind message supplies the wrong number of parameters", s)
      | .sqlserver => (sampleQuery happy db sql, s)
    dbExec := fun s db sql args =>
      if db = DB.pg ∧ sql = sqlInsertInitial then
        match args with
        | [_, _, numPedido, _] =>
          if unique ∧ s.contains numPedido then
            (some "duplicate key value violates unique constraint", s)
          else (none, numPedido :: s)
        | _ => (some "bind message supplies the wrong number of parameters", s)
      else (none, s) }

/-! ## Invoice Sync

The service of `xml_integrator.go`.  Its definitions live in the namespace `XMLIntegrator`,
since some of its methods share their names with methods of the integration service. -/

namespace XMLIntegrator

/-- Go struct `PedidoInfo`: one ledger record. -/
structure PedidoInfo where
  NumPedido : String
  NumPrenota : String
  NumEnvio : String
  NumNotaFiscal : String
  NomTipoEnvio : String
  FlgStatusPedido : Int
  NomEmpresa : String

/-- Go struct `OracleXMLData`. -/
structure OracleXMLData where
  Controle : String
  Emissao : String
  CodOrcMapa : String
  PedidoExterno : String
  XMLNota : String
  Status : String

/-- Go struct `MLResponse`; `BufferingDate` is its field `LeadTime.Buffering.Date`. -/
structure MLResponse where
  Status : String
  Substatus : String
  BufferingDate : String

/-- A log entry of a run: the map with the keys `level`, `step` and `message` (its
wall-clock `timestamp` is not modelled). -/
structure LogEntry where
  Level : String
  Step : String
  Message : String
deriving DecidableEq

/-- Go struct `websocket.LogMessage` without its `Timestamp`; `MsgType` is its field
`Type`. -/
structure LogMessage where
  MsgType : String
  Level : String
  Step : String
  Message : String
  ProcessID : String
deriving DecidableEq

/-- One element of `results`: the map with these six keys. -/
structure ResultEntry where
  pedido : String
  prenota : String
  envio : String
  nota_fiscal : String
  status : String
  substatus : String
deriving DecidableEq

/-- The `Data` map of the `APIResponse` that `ProcessXMLIntegration` returns (its
`Success` is always true and its `Message` always the same text). -/
structure Response where
  TotalProcessed : Nat
  SuccessCount : Nat
  ErrorCount : Nat
  Results : List ResultEntry
  Logs : List LogEntry

/-- Reply of the ledger to the query of `getPedidosFromPostgres`: an error of `Query`, or
the rows as `rows.Scan` delivers them together with the final `rows.Err()`. -/
inductive PedidosReply where
  | failed (e : GoError)
  | rows (scanned : List (Except GoError PedidoInfo)) (iterErr : Option GoError)

/-- Reply of the ERP database to `QueryRow(...).Scan(...)` of `getXMLDataFromOracle`:
`sql.ErrNoRows`, any other error, or the scanned row. -/
inductive OracleReply where
  | noRows
  | failed (e : GoError)
  | row (d : OracleXMLData)

/-- One exchange of the service with the outside, with the reply it got. -/
inductive Exchange where
  | http (req : HttpRequest) (res : HttpResult)
  | pedidos (sql : String) (numPedido : String) (res : PedidosReply)
  | oracle (sql : String) (codOrcMapa : String) (res : OracleReply)
  | exec (sql : String) (args : List String) (err : Option GoError)
  | broadcast (msg : LogMessage)

/-- The world outside the service: Go library behaviour that the source only calls, and
the external systems as a state machine over `σ`. -/
structure World (σ : Type) where
  toLower : String → String
  toUpper : String → String
  /-- The error `net/url` reports for a URL, if it rejects it. -/
  urlError : String → Option GoError
  /-- Value of the hard-coded Telegram bot credential (not reproduced here). -/
  tokenTelegram : String
  /-- Text of `fmt.Errorf(msg)`, where `msg` is used as a format without operands. -/
  errorfText : String → String
  decodeShipment : String → Except GoError MLResponse
  httpDo : σ → HttpRequest → HttpResult × σ
  queryPedidos : σ → String → String → PedidosReply × σ
  queryOracle : σ → String → String → OracleReply × σ
  execUpdate : σ → String → List String → Option GoError × σ

/-- Go struct `XMLIntegratorService`: whether each handle is non-nil, and the map `logs`
as an association list. -/
structure Service where
  oracleDB : Bool
  pgDB : Bool
  wsHub : Bool
  logs : List (String × List LogEntry)

/-- Result of running a piece of the service: its Go result, the exchanges it performed
in order, and the state of the outside world afterwards. -/
structure Run (σ : Type) (α : Type) where
  val : α
  trace : List Exchange
  st : σ

/-- Perform one HTTP exchange. -/
def doHTTP (w : World σ) (s : σ) (req : HttpRequest) : Run σ HttpResult :=
  ⟨(w.httpDo s req).1, [Exchange.http req (w.httpDo s req).1], (w.httpDo s req).2⟩

/-- Go `strings.Replace(s, old, new, -1)` for a non-empty `old`; `skip` is the number of
characters of a replaced occurrence that are still to be passed over. -/
def replaceAllChars (old new : List Char) : Nat → List Char → List Char
  | _, [] => []
  | skip + 1, _ :: s => replaceAllChars old new skip s
  | 0, c :: s =>
    if startsWith old (c :: s) then new ++ replaceAllChars old new (old.length - 1) s
    else c :: replaceAllChars old new 0 s

/-- Go `strings.Replace(s, old, new, -1)` for a non-empty `old`. -/
def stringsReplaceAll (s old new : String) : String :=
  ⟨replaceAllChars old.data new.data 0 s.data⟩

/-- Go method `getMLToken` of the XML service; `none` when the Go code panics, which it
does at `tokenML[:30]` for a token shorter than 30 bytes. -/
def getMLToken (w : World σ) (s : σ) (nomEmpresa : String) :
    Run σ (Option (Except GoError String)) :=
  let empresaLower := stringsReplaceAll (w.toLower nomEmpresa) "principal" "amz"
  let tkConta := ("tk" ++ empresaLower)
  let urlToken := ("https://imgs-amz.s3.us-east-1.amazonaws.com/tk/" ++ tkConta ++ ".html")
  match w.urlError urlToken with
  | some e => ⟨some (.error ("erro ao buscar token: " ++ e)), [], s⟩
  | none =>
    let r := doHTTP w s (httpGet urlToken)
    match r.val with
    | .netErr e => ⟨some (.error ("erro ao buscar token: " ++ e)), r.trace, r.st⟩
    | .resp _ (.error e) => ⟨some (.error ("erro ao ler resposta: " ++ e)), r.trace, r.st⟩
    | .resp _ (.ok contentStr) =>
      let tokenIndex := stringsIndex contentStr "y>" + 2
      if tokenIndex < 2 then ⟨some (.error "formato de token inválido"), r.trace, r.st⟩
      else
        let tokenMid := sliceFrom contentStr tokenIndex.toNat
        let tokenIndexEnd := stringsIndex tokenMid "</"
        if tokenIndexEnd = -1 then ⟨some (.error "formato de token inválido"), r.trace, r.st⟩
        else
          let tokenML := "APP_USR-" ++ sliceTo tokenMid tokenIndexEnd.toNat
          if tokenML.utf8ByteSize < 30 then ⟨none, r.trace, r.st⟩
          else ⟨some (.ok tokenML), r.trace, r.st⟩

/-- Go method `sendTelegramMessage` of the XML service; failures are only logged. -/
def sendTelegramMessage (w : World σ) (s : σ) (message : String) : Run σ Unit :=
  let url := ("https://api.telegram.org/bot" ++ w.tokenTelegram ++ "/sendMessage")
  let r := doHTTP w s ⟨"POST", url, [("Content-Type", "application/json")],
    some (.obj [("chat_id", .str "-4282027613"), ("text", .str message)])⟩
  ⟨(), r.trace, r.st⟩

/-- The SQL text of `getPedidosFromPostgres`. -/
def sqlPedidos : String := "\n\t\tSELECT \n\t\t\tnum_pedido,\n\t\t\tnum_prenota,\n\t\t\tnum_envio,\n\t\t\tCOALESCE(num_notafiscal, \x27\x27) as num_notafiscal,\n\t\t\tCOALESCE(nom_tipoenvio, \x27Mercado Envios\x27) as nom_tipo_envio,\n\t\t\tflg_statuspedido,\n\t\t\tnom_empresa\n\t\tFROM integrator.fato_statusvenda \n\t\tWHERE num_pedido = $1\n\t"

/-- The SQL text of `getXMLDataFromOracle`. -/
def sqlOracle : String := "\n\t\tSELECT \t\n\t\t\tCONTROLE,\n\t\t\tEMISSAO,\n\t\t\to.COD_ORC_MAPA,\n\t\t\to.PEDIDO_EXTERNO,\n\t\t\tn.XML_NOTA,\n\t\t\to.STATUS\n\t\tFROM nbs.orc_mapa o\n\t\tLEFT JOIN nbs.vendas v \n\t\tON v.cod_orc_mapa = o.cod_orc_mapa\n\t\tLEFT JOIN nbs.nfe_movimento n\n\t\tON v.cod_empresa = n.id_empresa\n\t\tAND v.controle = n.numr_nfe\n\t\tAND v.serie = n.serie_nbs\n\t\tWHERE o.cod_orc_mapa = :1\n\t"

/-- The SQL text of `updatePostgresStatus`. -/
def sqlUpdateStatus : String := "\n\t\tUPDATE integrator.fato_statusvenda \n\t\tSET\n\t\t\tdat_notafiscal = NOW(),\n\t\t\tnum_xml = $1,\n\t\t\tnum_notafiscal = $2,\n\t\t\tflg_statuspedido = $3\n\t\tWHERE num_prenota = $4\n\t"

/-- Go method `getPedidosFromPostgres`; rows that fail to scan are skipped.  The result is
`none` when the Go code panics, which it does at `s.pgDB.Query` for a nil handle. -/
def getPedidosFromPostgres (w : World σ) (svc : Service) (s : σ) (numPedido : String) :
    Run σ (Option (Except GoError (List PedidoInfo))) :=
  if !svc.pgDB then ⟨none, [], s⟩
  else
    let q := w.queryPedidos s sqlPedidos numPedido
    let tr := [Exchange.pedidos sqlPedidos numPedido q.1]
    match q.1 with
    | .failed e => ⟨some (.error ("erro ao consultar PostgreSQL: " ++ e)), tr, q.2⟩
    | .rows scanned iterErr =>
      match iterErr with
      | some e => ⟨some (.error ("erro ao processar linhas: " ++ e)), tr, q.2⟩
      | none =>
        ⟨some (.ok (scanned.filterMap (fun r =>
            match r with
            | .ok p => some p
            | .error _ => none))), tr, q.2⟩

/-- Go method `getXMLDataFromOracle`; `.ok none` is the Go result `(nil, nil)`. -/
def getXMLDataFromOracle (w : World σ) (svc : Service) (s : σ) (codOrcMapa : String) :
    Run σ (Except GoError (Option OracleXMLData)) :=
  if !svc.oracleDB then ⟨.error "Oracle não disponível", [], s⟩
  else
    let q := w.queryOracle s sqlOracle codOrcMapa
    let tr := [Exchange.oracle sqlOracle codOrcMapa q.1]
    match q.1 with
    | .noRows => ⟨.ok none, tr, q.2⟩
    | .failed e => ⟨.error ("erro ao buscar XML: " ++ e), tr, q.2⟩
    | .row d => ⟨.ok (some d), tr, q.2⟩

/-- Go method `updatePostgresStatus`. -/
def updatePostgresStatus (w : World σ) (svc : Service) (s : σ)
    (numPrenota numNotaFiscal xmlData status : String) : Run σ (Option GoError) :=
  if !svc.pgDB then ⟨some "PostgreSQL não disponível", [], s⟩
  else
    let args := [xmlData, numNotaFiscal, status, numPrenota]
    let r := w.execUpdate s sqlUpdateStatus args
    let tr := [Exchange.exec sqlUpdateStatus args r.1]
    match r.1 with
    | some e => ⟨some ("erro ao atualizar status: " ++ e), tr, r.2⟩
    | none => ⟨none, tr, r.2⟩

/-- The request built by `getMLShipmentStatus` (headers in a fixed order). -/
def shipmentRequest (numEnvio token : String) : HttpRequest :=
  ⟨"GET", ("https://api.mercadolibre.com/shipments/" ++ numEnvio), [("Authorization", ("Bearer " ++ token)), ("x-format-new", "true")],
    none⟩

/-- Go method `getMLShipmentStatus`. -/
def getMLShipmentStatus (w : World σ) (s : σ) (numEnvio token : String) :
    Run σ (Except GoError MLResponse) :=
  match w.urlError ("https://api.mercadolibre.com/shipments/" ++ numEnvio) with
  | some e => ⟨.error ("erro ao criar request: " ++ e), [], s⟩
  | none =>
    let r := doHTTP w s (shipmentRequest numEnvio token)
    match r.val with
    | .netErr e => ⟨.error ("erro ao fazer request: " ++ e), r.trace, r.st⟩
    | .resp status body =>
      if status ≠ 200 then ⟨.error ("status code: " ++ toString status), r.trace, r.st⟩
      else
        match body.bind w.decodeShipment with
        | .error e => ⟨.error ("erro ao decodificar resposta: " ++ e), r.trace, r.st⟩
        | .ok mlResponse => ⟨.ok mlResponse, r.trace, r.st⟩

/-- The request built by `sendXMLToML` (headers in a fixed order); its body is the XML
text itself. -/
def uploadRequest (numEnvio xmlData token : String) : HttpRequest :=
  ⟨"POST", ("https://api.mercadolibre.com/shipments/" ++ numEnvio ++ "/invoice_data?siteId=MLB"),
    [("Authorization", ("Bearer " ++ token)), ("Content-Type", "application/xml"),
     ("Accept", "application/xml")], some (.str xmlData)⟩

/-- Go method `sendXMLToML`: only the status code 406 is not an error. -/
def sendXMLToML (w : World σ) (s : σ) (numEnvio xmlData token : String) :
    Run σ (Option GoError) :=
  match w.urlError ("https://api.mercadolibre.com/shipments/" ++ numEnvio ++ "/invoice_data?siteId=MLB") with
  | some e => ⟨some ("erro ao criar request: " ++ e), [], s⟩
  | none =>
    let r := doHTTP w s (uploadRequest numEnvio xmlData token)
    match r.val with
    | .netErr e => ⟨some ("erro ao fazer request: " ++ e), r.trace, r.st⟩
    | .resp status body =>
      if status = 406 then ⟨none, r.trace, r.st⟩
      else ⟨some ("erro ao enviar XML - Status: " ++ toString status ++ ", Body: " ++ bodyText body), r.trace, r.st⟩

/-- The variables `results`, `logs`, `successCount` and `errorCount` of
`ProcessXMLIntegration`, with the exchanges performed so far and the state of the
outside world. -/
structure Acc (σ : Type) where
  results : List ResultEntry
  logs : List LogEntry
  successCount : Nat
  errorCount : Nat
  trace : List Exchange
  st : σ

/-- The part of the loop body of `ProcessXMLIntegration` that follows the shipment status
check (the branch on the status and the append to `results`); `a.logs` already holds the
entry with the obtained status.  The result of the status-3 update is not inspected. -/
def dispatchStatus (w : World σ) (svc : Service) (token : String) (pedido : PedidoInfo)
    (xmlData : OracleXMLData) (mlStatus : MLResponse) (a : Acc σ) : Acc σ :=
  let entry : ResultEntry :=
    ⟨pedido.NumPedido, pedido.NumPrenota, pedido.NumEnvio, xmlData.Controle, mlStatus.Status,
      mlStatus.Substatus⟩
  if mlStatus.Status = "ready_to_ship" ∧ mlStatus.Substatus = "invoice_pending" then
    let logs := a.logs ++ [⟨"info", "Envio XML", ("Enviando XML para ML - Pedido: " ++ pedido.NumPedido)⟩]
    let sx := sendXMLToML w a.st pedido.NumEnvio xmlData.XMLNota token
    match sx.val with
    | some e =>
      ⟨a.results ++ [entry], logs ++ [⟨"error", "Envio XML", ("Falha ao enviar XML: " ++ e)⟩], a.successCount,
        a.errorCount + 1, a.trace ++ sx.trace, sx.st⟩
    | none =>
      let u := updatePostgresStatus w svc sx.st pedido.NumPrenota xmlData.Controle
        xmlData.XMLNota "3"
      ⟨a.results ++ [entry], logs ++ [⟨"success", "Envio XML", "XML enviado com sucesso para o Mercado Livre"⟩], a.successCount + 1,
        a.errorCount, a.trace ++ sx.trace ++ u.trace, u.st⟩
  else if mlStatus.Status = "pending" ∧ mlStatus.Substatus = "buffered" then
    ⟨a.results ++ [entry], a.logs, a.successCount, a.errorCount, a.trace, a.st⟩
  else if pedido.NumNotaFiscal ≠ "" then
    let u := updatePostgresStatus w svc a.st pedido.NumPrenota xmlData.Controle
      xmlData.XMLNota "3"
    ⟨a.results ++ [entry], a.logs, a.successCount + 1, a.errorCount, a.trace ++ u.trace, u.st⟩
  else
    ⟨a.results ++ [entry], a.logs, a.successCount, a.errorCount, a.trace, a.st⟩

/-- One iteration of the loop `for _, pedido := range pedidos` of
`ProcessXMLIntegration`. -/
def processPedido (w : World σ) (svc : Service) (token : String) (acc : Acc σ)
    (pedido : PedidoInfo) : Acc σ :=
  let logs := acc.logs ++
    [⟨"info", "Processamento", ("Processando pedido: " ++ pedido.NumPedido)⟩,
     ⟨"info", "Oracle", ("Buscando dados XML no Oracle para prenota: " ++ pedido.NumPrenota)⟩]
  let x := getXMLDataFromOracle w svc acc.st pedido.NumPrenota
  let tr := acc.trace ++ x.trace
  match x.val with
  | .error e =>
    let tg := sendTelegramMessage w x.st ("❌ Erro ao buscar XML para pedido " ++ pedido.NumPedido ++ ": " ++ e)
    ⟨acc.results,
      logs ++ [⟨"error", "Oracle", ("Erro ao buscar XML para prenota " ++ pedido.NumPrenota ++ ": " ++ e)⟩, ⟨"error", "Validação", "Motivo: Erro de conexão com Oracle ou dados não encontrados na tabela nbs.orc_mapa"⟩],
      acc.successCount, acc.errorCount + 1, tr ++ tg.trace, tg.st⟩
  | .ok none =>
    let tg := sendTelegramMessage w x.st ("⚠️ Pedido " ++ pedido.NumPedido ++ " ainda não possui XML")
    ⟨acc.results,
      logs ++ [⟨"warning", "Oracle", ("XML não encontrado para prenota " ++ pedido.NumPrenota)⟩, ⟨"error", "Validação", "Motivo: Pedido ainda não possui XML no Oracle ou dados não encontrados na tabela nbs.nfe_movimento"⟩],
      acc.successCount, acc.errorCount + 1, tr ++ tg.trace, tg.st⟩
  | .ok (some xmlData) =>
    if xmlData.XMLNota = "" then
      let tg := sendTelegramMessage w x.st ("⚠️ Pedido " ++ pedido.NumPedido ++ " possui XML vazio")
      ⟨acc.results,
        logs ++ [⟨"warning", "Validação XML", ("XML encontrado mas está vazio para prenota " ++ pedido.NumPrenota)⟩, ⟨"error", "Validação", "Motivo: XML não encontrado ou está vazio na tabela nbs.nfe_movimento"⟩],
        acc.successCount, acc.errorCount + 1, tr ++ tg.trace, tg.st⟩
    else
      let logs := logs ++
        [⟨"success", "Oracle", ("XML encontrado - Controle: " ++ xmlData.Controle ++ ", Status: " ++ xmlData.Status)⟩,
         ⟨"info", "PostgreSQL", ("Atualizando status PostgreSQL para prenota: " ++ pedido.NumPrenota)⟩]
      let u := updatePostgresStatus w svc x.st pedido.NumPrenota xmlData.Controle
        xmlData.XMLNota "2"
      let tr := tr ++ u.trace
      match u.val with
      | some e =>
        ⟨acc.results, logs ++ [⟨"error", "PostgreSQL", ("Erro ao atualizar status: " ++ e)⟩], acc.successCount,
          acc.errorCount, tr, u.st⟩
      | none =>
        let logs := logs ++
          [⟨"success", "PostgreSQL", "Status PostgreSQL atualizado com sucesso"⟩, ⟨"info", "Mercado Livre", ("Verificando status do envio ML: " ++ pedido.NumEnvio)⟩]
        let m := getMLShipmentStatus w u.st pedido.NumEnvio token
        let tr := tr ++ m.trace
        match m.val with
        | .error e =>
          ⟨acc.results, logs ++ [⟨"error", "Mercado Livre", ("Erro ao verificar status ML: " ++ e)⟩], acc.successCount,
            acc.errorCount, tr, m.st⟩
        | .ok mlStatus =>
          dispatchStatus w svc token pedido xmlData mlStatus
            ⟨acc.results,
              logs ++ [⟨"success", "Mercado Livre", ("Status ML obtido - Status: " ++ mlStatus.Status ++ ", Substatus: " ++ mlStatus.Substatus)⟩],
              acc.successCount, acc.errorCount, tr, m.st⟩

/-- The loop `for _, pedido := range pedidos` of `ProcessXMLIntegration`. -/
def pedidoLoop (w : World σ) (svc : Service) (token : String) (pedidos : List PedidoInfo)
    (init : Acc σ) : Acc σ :=
  pedidos.foldl (processPedido w svc token) init

/-- One line of `details` in the final message of `ProcessXMLIntegration`. -/
def detailLine (r : ResultEntry) : String :=
  if r.status = "ready_to_ship" then ("✅ Pedido " ++ r.pedido ++ " (NF: " ++ r.nota_fiscal ++ ") - XML enviado")
  else if r.status = "pending" ∧ r.substatus = "buffered" then ("⏰ Pedido " ++ r.pedido ++ " (NF: " ++ r.nota_fiscal ++ ") - Entrega agendada")
  else if r.status = "shipped" then ("🚚 Pedido " ++ r.pedido ++ " (NF: " ++ r.nota_fiscal ++ ") - Envio Flex")
  else ("❌ Pedido " ++ r.pedido ++ " (NF: " ++ r.nota_fiscal ++ ") - Erro no processamento")

/-- Go map assignment `logs[processID] = entries`. -/
def setLogs (logs : List (String × List LogEntry)) (processID : String)
    (entries : List LogEntry) : List (String × List LogEntry) :=
  (processID, entries) :: logs.filter (fun kv => kv.1 ≠ processID)

/-- The log entries `processLogs` of the run that finds no ledger record. -/
def noRecordLogs (numPedido : String) : List LogEntry :=
  [ ⟨"info", "Início", ("Iniciando processamento XML para pedido: " ++ numPedido)⟩,
    ⟨"warning", "Busca Pedidos", ("Nenhum pedido encontrado para: " ++ numPedido ++ " - Verifique se o pedido existe na tabela integrator.fato_statusvenda")⟩,
    ⟨"error", "Validação", "Motivo: Pedido não encontrado na base de dados PostgreSQL ou não está com status 1 ou 2"⟩,
    ⟨"info", "Conclusão", "Processamento concluído - Total: 0 | Sucessos: 0 | Erros: 1"⟩ ]

/-- Go method `ProcessXMLIntegration`: the reply and the service afterwards, or `none`
when the Go code panics. -/
def ProcessXMLIntegration (w : World σ) (svc : Service) (s : σ) (numPedido : String) :
    Run σ (Option (Except GoError Response × Service)) :=
  let p := getPedidosFromPostgres w svc s numPedido
  match p.val with
  | none => ⟨none, p.trace, p.st⟩
  | some (.error e) =>
    let errorMsg := ("❌ Erro ao buscar pedidos: " ++ e)
    let tg := sendTelegramMessage w p.st errorMsg
    ⟨some (.error (w.errorfText errorMsg), svc), p.trace ++ tg.trace, tg.st⟩
  | some (.ok []) =>
    let processLogs := noRecordLogs numPedido
    let sent :=
      if svc.wsHub then
        processLogs.map (fun l =>
          Exchange.broadcast ⟨"log", l.Level, l.Step, l.Message, numPedido⟩)
      else []
    ⟨some (.ok ⟨0, 0, 1, [], processLogs⟩,
        { svc with logs := setLogs svc.logs numPedido processLogs }),
      p.trace ++ sent, p.st⟩
  | some (.ok (first :: rest)) =>
    let nomEmpresa := first.NomEmpresa
    let t := getMLToken w p.st nomEmpresa
    match t.val with
    | none => ⟨none, p.trace ++ t.trace, t.st⟩
    | some (.error e) =>
      let errorMsg := ("❌ Erro ao obter token ML para empresa " ++ nomEmpresa ++ ": " ++ e)
      let tg := sendTelegramMessage w t.st errorMsg
      ⟨some (.error (w.errorfText errorMsg), svc), p.trace ++ t.trace ++ tg.trace, tg.st⟩
    | some (.ok token) =>
      let a := pedidoLoop w svc token (first :: rest)
        ⟨[], [⟨"info", "Início", ("Iniciando processamento XML para pedido: " ++ numPedido)⟩], 0, 0, p.trace ++ t.trace, t.st⟩
      let totalProcessed := (first :: rest).length
      let finalMsg := ("📊 " ++ w.toUpper nomEmpresa ++ " (MeLi) - Processamento XML Concluído\n\n📈 Resumo:\n• Total processado: " ++ toString totalProcessed ++ "\n• Sucessos: " ++ toString a.successCount ++ "\n• Erros: " ++ toString a.errorCount ++ "\n\n📋 Detalhes:\n" ++ String.intercalate "\n" (a.results.map detailLine))
      let tg := sendTelegramMessage w a.st finalMsg
      let logs := a.logs ++
        [⟨"info", "Conclusão", ("Processamento concluído - Total: " ++ toString totalProcessed ++ " | Sucessos: " ++ toString a.successCount ++ " | Erros: " ++ toString a.errorCount)⟩]
      ⟨some (.ok ⟨totalProcessed, a.successCount, a.errorCount, a.results, logs⟩, svc),
        a.trace ++ tg.trace, tg.st⟩

/-- Go method `GetLogs`. -/
def GetLogs (svc : Service) (processID : String) : List LogEntry :=
  match svc.logs.lookup processID with
  | some logs => logs
  | none => []

/-- The ledger updates of a trace, in order: the record (`num_prenota`) and the status each
one writes. -/
def ledgerUpdates (tr : List Exchange) : List (String × String) :=
  tr.filterMap (fun e =>
    match e with
    | .exec _ [_, _, status, numPrenota] _ => some (numPrenota, status)
    | _ => none)

/-- The shipments for which a trace calls the invoice-upload endpoint, in order. -/
def uploadCalls (tr : List Exchange) : List String :=
  tr.filterMap (fun e =>
    match e with
    | .http req _ =>
      if req.method = "POST" ∧
          startsWith "https://api.mercadolibre.com/shipments/".data req.url.data then
        some req.url
      else none
    | _ => none)

/-- The entry that opens the processing of a record in the log of a run. -/
def startedEntry (pedido : PedidoInfo) : LogEntry :=
  ⟨"info", "Processamento", ("Processando pedido: " ++ pedido.NumPedido)⟩

/-! ### A sample world for Invoice Sync

One order `2000012345678` of the account `PSA` with two ledger records: the first has the
shipment `43210987654`, whose status the scenario chooses; the second has the shipment
`43210987655`, which is `pending`/`buffered`. -/

/-- Switches of the sample world. -/
structure Scenario where
  /-- Shipment status and substatus of the first record. -/
  status : String
  substatus : String
  /-- Status code the invoice-upload endpoint answers. -/
  uploadStatus : Nat
  /-- Invoice number the ledger holds for the first record. -/
  notaFiscal : String

/-- The ledger records of the sample order. -/
def samplePedidos (sc : Scenario) : List PedidoInfo :=
  [ ⟨"2000012345678", "7001", "43210987654", sc.notaFiscal, "Mercado Envios", 1, "PSA"⟩,
    ⟨"2000012345678", "7002", "43210987655", "", "Mercado Envios", 1, "PSA"⟩ ]

/-- The token the sample credential document yields. -/
def sampleToken : String := "APP_USR-1234567890123456789012-5678"

/-- HTTP side of the sample world. -/
def sampleHTTP (sc : Scenario) (req : HttpRequest) : HttpResult :=
  if req.url = "https://imgs-amz.s3.us-east-1.amazonaws.com/tk/tkpsa.html" then
    .resp 200 (.ok "<html><body>1234567890123456789012-5678</body></html>")
  else if req.url = "https://api.mercadolibre.com/shipments/43210987654" then
    .resp 200 (.ok "first")
  else if req.url = "https://api.mercadolibre.com/shipments/43210987655" then
    .resp 200 (.ok "second")
  else if req.url =
      "https://api.mercadolibre.com/shipments/43210987654/invoice_data?siteId=MLB" then
    .resp sc.uploadStatus (.ok "upload")
  else if req.url = "https://api.telegram.org/botT/sendMessage" then .resp 200 (.ok "sent")
  else .resp 404 (.ok "not found")

/-- The invoice data the sample ERP database holds. -/
def sampleOracle (codOrcMapa : String) : OracleReply :=
  if codOrcMapa = "7001" then
    .row ⟨"55001", "2024-05-02", "7001", "2000012345678", "<nfe>55001</nfe>", "F"⟩
  else if codOrcMapa = "7002" then
    .row ⟨"55002", "2024-05-02", "7002", "2000012345678", "<nfe>55002</nfe>", "F"⟩
  else .noRows

/-- The sample world. -/
def sampleWorld (sc : Scenario) : World Unit :=
  { toLower := asciiLower
    toUpper := asciiUpper
    urlError := fun url => if hasBadEscape url.data then some "invalid URL escape" else none
    tokenTelegram := "T"
    errorfText := fun msg => msg
    decodeShipment := fun b =>
      if b = "first" then .ok ⟨sc.status, sc.substatus, ""⟩
      else if b = "second" then .ok ⟨"pending", "buffered", "2024-05-10T00:00:00Z"⟩
      else .error "invalid character"
    httpDo := fun _ req => (sampleHTTP sc req, ())
    queryPedidos := fun _ _ numPedido =>
      (if numPedido = "2000012345678" then .rows ((samplePedidos sc).map .ok) none
       else .rows [] none, ())
    queryOracle := fun _ _ codOrcMapa => (sampleOracle codOrcMapa, ())
    execUpdate := fun _ _ _ => (none, ()) }

/-- The sample service: every handle present, no stored logs. -/
def sampleService : Service := ⟨true, true, true, []⟩

/-- The first record awaits its invoice and the upload is answered 406. -/
def uploadAccepted : Scenario := ⟨"ready_to_ship", "invoice_pending", 406, ""⟩

/-- The first record awaits its invoice and the upload is answered 500. -/
def uploadRejected : Scenario := ⟨"ready_to_ship", "invoice_pending", 500, ""⟩

/-- The first record is already shipped and the ledger holds its invoice number. -/
def shippedWithInvoice : Scenario := ⟨"shipped", "", 500, "55001"⟩

/-- The first record is already shipped and the ledger holds no invoice number. -/
def shippedWithoutInvoice : Scenario := ⟨"shipped", "", 500, ""⟩

/-- The first record is scheduled (`pending`/`buffered`), like the second. -/
def scheduled : Scenario := ⟨"pending", "buffered", 500, ""⟩

/-- The log messages a trace pushes to the hub, in order. -/
def broadcasts (tr : List Exchange) : List LogMessage :=
  tr.filterMap (fun e =>
    match e with
    | .broadcast msg => some msg
    | _ => none)

/-- The URLs of the marketplace requests of a trace, in order. -/
def marketplaceCalls (tr : List Exchange) : List String :=
  tr.filterMap (fun e =>
    match e with
    | .http req _ =>
      if startsWith "https://api.mercadolibre.com/".data req.url.data then some req.url
      else none
    | _ => none)

/-- The values a trace hands to the invoice lookup of the ERP database, in order. -/
def invoiceLookups (tr : List Exchange) : List String :=
  tr.filterMap (fun e =>
    match e with
    | .oracle _ codOrcMapa _ => some codOrcMapa
    | _ => none)

/-- The sample world in which the ERP database holds no invoice data for the first record
of the order (and both shipments are `pending`/`buffered`). -/
def noInvoiceWorld : World Unit :=
  { sampleWorld scheduled with
    queryOracle := fun _ _ codOrcMapa =>
      (if codOrcMapa = "7002" then sampleOracle codOrcMapa else .noRows, ()) }

/-- The sample world in which the ledger holds a single record of the order, at status 0,
whose shipment awaits its invoice; the upload is answered 406. -/
def statusZeroWorld : World Unit :=
  { sampleWorld uploadAccepted with
    queryPedidos := fun _ _ numPedido =>
      (if numPedido = "2000012345678" then
        .rows [.ok ⟨"2000012345678", "7001", "43210987654", "", "Mercado Envios", 0, "PSA"⟩]
          none
       else .rows [] none, ()) }

end XMLIntegrator

/-! ## Log hub

The hub of `websocket/hub.go` and the clients that `HandleWebSocket` creates. -/

namespace Hub

/-- A client as the hub deals with it: the messages queued in its channel `send`, the
capacity of that channel, whether the channel is closed, and whether the client is a key
of the map `h.clients`. -/
structure Client where
  queue : List String
  cap : Nat
  closed : Bool
  registered : Bool
deriving DecidableEq

/-- The clients created so far, in the order of their creation; the position of a client
stands for its pointer. -/
abbrev State := List Client

/-- Go function `NewHub`: no client. -/
def NewHub : State := []

/-- Go `close(client.send)`; `none` is the panic of closing a closed channel. -/
def closeSend (c : Client) : Option Client :=
  if c.closed then none else some { c with closed := true }

/-- The send case `client.send <- message` of a `select` with a `default`: `some (some c)`
when the message is queued at once, `some none` when the send would have to wait (the
buffer is full), `none` for the panic of sending on a closed channel. -/
def trySend (c : Client) (message : String) : Option (Option Client) :=
  if c.closed then none
  else if c.queue.length < c.cap then some (some { c with queue := c.queue ++ [message] })
  else some none

/-- `HandleWebSocket` followed by `case client := <-h.register` of `Run`: a new client
with an open channel of capacity 256 becomes a key of `h.clients`. -/
def register (st : State) : State := st ++ [⟨[], 256, false, true⟩]

/-- The body of `case client := <-h.unregister` of `Run` for the client `c`. -/
def unregisterClient (c : Client) : Option Client :=
  if c.registered then closeSend { c with registered := false } else some c

/-- The body of the loop of `case message := <-h.broadcast` of `Run` for one key `c` of
`h.clients`; a client that is not a key is not visited. -/
def broadcastTo (message : String) (c : Client) : Option Client :=
  if c.registered then
    match trySend c message with
    | none => none
    | some (some sent) => some sent
    | some none => (closeSend c).map (fun d => { d with registered := false })
  else some c

/-- The loop `for client := range h.clients` of the broadcast case.  The clients are
visited independently of each other, so the order of the visit does not matter. -/
def broadcastAll (message : String) : State → Option State
  | [] => some []
  | c :: rest =>
    match broadcastTo message c, broadcastAll message rest with
    | some d, some rest2 => some (d :: rest2)
    | _, _ => none

/-- What happens to the hub and its clients: `Run` takes a client from `register`, a
client from `unregister` or a message from `broadcast`, or the `writePump` of a client
takes one message out of the channel of that client. -/
inductive Step where
  | register
  | unregister (i : Nat)
  | broadcast (message : String)
  | receive (i : Nat)

/-- One step; `none` when the Go code panics. -/
def step (st : State) : Step → Option State
  | .register => some (register st)
  | .unregister i =>
    match st[i]? with
    | none => some st
    | some c => (unregisterClient c).map (fun d => st.set i d)
  | .broadcast message => broadcastAll message st
  | .receive i =>
    match st[i]? with
    | none => some st
    | some c => some (st.set i { c with queue := c.queue.tail })

/-- A sequence of steps from a state; `none` when one of them panics. -/
def runFrom (st : State) : List Step → Option State
  | [] => some st
  | a :: rest =>
    match step st a with
    | none => none
    | some st2 => runFrom st2 rest

/-- What a broadcast of `message` is said to do to a client: a registered client with
fewer than 256 queued messages gets the message at the end of its queue, a registered
client with a full queue is removed from the registry and its channel is closed, any
other client is left alone. -/
def afterBroadcast (message : String) (c : Client) : Client :=
  if c.registered then
    if c.queue.length < 256 then { c with queue := c.queue ++ [message] }
    else { c with closed := true, registered := false }
  else c

/-- Whether every client has a channel of capacity 256 that is closed exactly when the
client is not in the registry. -/
def wellFormed (st : State) : Bool :=
  st.all (fun c => decide (c.cap = 256) && decide (c.closed = !c.registered))

/-- A sample history: a client registers, 256 messages are broadcast while it takes none
out of its channel, and a second client registers. -/
def sampleSteps : List Step :=
  Step.register :: (List.replicate 256 (Step.broadcast "m") ++ [Step.register])

end Hub

/-! ## Auxiliary lemmas -/

set_option maxRecDepth 8000

theorem startsWith_append_false (p a b : List Char)
    (h : startsWith (p.take a.length) a = false) : startsWith p (a ++ b) = false := by
  induction a generalizing p with
  | nil => cases p <;> simp [startsWith] at h
  | cons x a ih =>
    cases p with
    | nil => simp [startsWith] at h
    | cons y p =>
      simp only [List.length_cons, List.take_succ_cons, startsWith, Bool.and_eq_false_imp,
        decide_eq_true_eq] at h
      simp only [List.cons_append, startsWith, Bool.and_eq_false_imp, decide_eq_true_eq]
      intro hxy
      exact ih p (h hxy)

theorem writeOps_append (a b : List Event) : writeOps (a ++ b) = writeOps a ++ writeOps b := by
  simp [writeOps]

theorem writeEvents_append (a b : List Event) :
    writeEvents (a ++ b) = writeEvents a ++ writeEvents b := by
  simp [writeEvents]

theorem writeOps_writeEvents (tr : List Event) :
    (writeEvents tr).filterMap Event.writeOp = writeOps tr := by
  induction tr with
  | nil => rfl
  | cons e tr ih =>
    simp only [writeEvents, writeOps] at ih ⊢
    cases h : e.writeOp <;> simp [List.filter_cons, List.filterMap_cons, h, ih]

theorem writeOp_get (url : String) (hdrs : List (String × String)) (body : Option JSONValue)
    (res : HttpResult) : (Event.http ⟨"GET", url, hdrs, body⟩ res).writeOp = none := by
  simp [Event.writeOp]

theorem writeOp_tokenURL (conta : String) (hdrs : List (String × String))
    (body : Option JSONValue) (res : HttpResult) :
    (Event.http ⟨"POST", "http://10.13.1.19:8080/nbsapi-gateway/token?usuario=" ++ conta ++
      "&senha=nbsapi&idioma=PT&pacote=HYSTALO", hdrs, body⟩ res).writeOp = none := by
  have h : startsWith erpBase.data ("http://10.13.1.19:8080/nbsapi-gateway/token?usuario=" ++ conta ++
      "&senha=nbsapi&idioma=PT&pacote=HYSTALO").data = false := by
    rw [String.data_append, String.data_append, List.append_assoc]
    exact startsWith_append_false _ _ _ (by decide)
  simp only [Event.writeOp, h]
  simp

theorem writeOp_telegram (tok : String) (hdrs : List (String × String))
    (body : Option JSONValue) (res : HttpResult) :
    (Event.http ⟨"POST", "https://api.telegram.org/bot" ++ tok ++ "/sendMessage", hdrs, body⟩
      res).writeOp = none := by
  have h : startsWith erpBase.data
      ("https://api.telegram.org/bot" ++ tok ++ "/sendMessage").data = false := by
    rw [String.data_append, String.data_append, List.append_assoc]
    exact startsWith_append_false _ _ _ (by decide)
  simp only [Event.writeOp, h]
  simp

theorem writeOp_cliente (hdrs : List (String × String)) (body : Option JSONValue)
    (res : HttpResult) :
    (Event.http ⟨"POST", urlCliente, hdrs, body⟩ res).writeOp = some .registerCustomer := by
  simp [Event.writeOp]; decide

theorem writeOp_endereco (hdrs : List (String × String)) (body : Option JSONValue)
    (res : HttpResult) :
    (Event.http ⟨"POST", urlEndereco, hdrs, body⟩ res).writeOp = some .registerAddress := by
  simp [Event.writeOp]; decide

/-! ### Exchanges that are not write operations -/

theorem getMLToken_writeEvents (env : Env σ) (s : σ) (conta : String) :
    writeEvents (getMLToken env s conta).trace = [] := by
  generalize h : getMLToken env s conta = r
  simp only [getMLToken] at h
  repeat' split at h
  all_goals subst h
  all_goals simp [doHTTP, writeEvents, httpGet, Event.writeOp]

theorem getMLOrder_writeEvents (env : Env σ) (s : σ) (numPedido tokenML : String) :
    writeEvents (getMLOrder env s numPedido tokenML).trace = [] := by
  generalize h : getMLOrder env s numPedido tokenML = r
  simp only [getMLOrder] at h
  repeat' split at h
  all_goals subst h
  all_goals simp [doHTTP, writeEvents, mlOrderRequest, Event.writeOp]

theorem getEmpresaFornecedor_writeEvents (env : Env σ) (s : σ) (mlbItem conta : String) :
    writeEvents (getEmpresaFornecedor env s mlbItem conta).trace = [] := by
  generalize h : getEmpresaFornecedor env s mlbItem conta = r
  simp only [getEmpresaFornecedor] at h
  repeat' split at h
  all_goals subst h
  all_goals simp [doHTTP, doQuery, writeEvents, httpGet, Event.writeOp]

theorem getNBSToken_writeEvents (env : Env σ) (s : σ) (codEmpresa : String) :
    writeEvents (getNBSToken env s codEmpresa).trace = [] := by
  generalize h : getNBSToken env s codEmpresa = r
  simp only [getNBSToken] at h
  repeat' split at h
  all_goals subst h
  all_goals simp only [doHTTP, writeEvents, List.filter_nil, List.filter_cons, writeOp_tokenURL,
    Option.isSome_none, Bool.false_eq_true, if_false]

theorem getMLClientData_writeEvents (env : Env σ) (s : σ) (numPedido tokenML : String) :
    writeEvents (getMLClientData env s numPedido tokenML).trace = [] := by
  generalize h : getMLClientData env s numPedido tokenML = r
  simp only [getMLClientData] at h
  repeat' split at h
  all_goals subst h
  all_goals simp [doHTTP, writeEvents, mlBearerRequest, Event.writeOp]

theorem getSKUFromDePara_writeEvents (env : Env σ) (s : σ) (mlbItem codEmpresa : String) :
    writeEvents (getSKUFromDePara env s mlbItem codEmpresa).trace = [] := by
  generalize h : getSKUFromDePara env s mlbItem codEmpresa = r
  simp only [getSKUFromDePara] at h
  repeat' split at h
  all_goals subst h
  all_goals simp [doQuery, writeEvents, Event.writeOp]

theorem sendTelegramMessage_writeEvents (env : Env σ) (s : σ) (message : String) :
    writeEvents (sendTelegramMessage env s message).trace = [] := by
  simp only [sendTelegramMessage, doHTTP, writeEvents, List.filter_nil, List.filter_cons,
    writeOp_telegram, Option.isSome_none, Bool.false_eq_true, if_false]

/-! ### The write operations, one by one -/

theorem urlEndereco_ne_urlCliente : ¬ urlEndereco = urlCliente := by decide

theorem urlPedidoEnvio_ne_urlCliente : ¬ urlPedidoEnvio = urlCliente := by decide

theorem urlPedidoEnvio_ne_urlEndereco : ¬ urlPedidoEnvio = urlEndereco := by decide

theorem writeOp_pedido (hdrs : List (String × String)) (body : Option JSONValue)
    (res : HttpResult) :
    (Event.http ⟨"POST", urlPedidoEnvio, hdrs, body⟩ res).writeOp = some .submitOrder := by
  simp [Event.writeOp]; decide

theorem opFailed_status (env : Env σ) (req : HttpRequest) (status : Nat)
    (body : Except GoError String) (h : ¬ status = 200) :
    opFailed env (Event.http req (.resp status body)) = true := by
  cases body <;> simp [opFailed, h]

theorem opFailed_netErr (env : Env σ) (req : HttpRequest) (e : GoError) :
    opFailed env (Event.http req (.netErr e)) = true := by
  simp [opFailed]

theorem opFailed_readErr (env : Env σ) (req : HttpRequest) (status : Nat) (e : GoError) :
    opFailed env (Event.http req (.resp status (.error e))) = true := by
  simp [opFailed]

theorem opFailed_cliente (env : Env σ) (m : String) (hd : List (String × String))
    (b : Option JSONValue) (text : String) :
    opFailed env (Event.http ⟨m, urlCliente, hd, b⟩ (.resp 200 (.ok text))) =
      (match env.decodeCliente text with
        | .ok r => !r.Sucesso
        | .error _ => true) := by
  cases h : env.decodeCliente text <;> simp [opFailed, h]

theorem opFailed_endereco (env : Env σ) (m : String) (hd : List (String × String))
    (b : Option JSONValue) (text : String) :
    opFailed env (Event.http ⟨m, urlEndereco, hd, b⟩ (.resp 200 (.ok text))) =
      (match env.decodeEndereco text with
        | .ok r => !r.Sucesso
        | .error _ => true) := by
  cases h : env.decodeEndereco text <;> simp [opFailed, urlEndereco_ne_urlCliente, h]

theorem opFailed_pedido (env : Env σ) (m : String) (hd : List (String × String))
    (b : Option JSONValue) (text : String) :
    opFailed env (Event.http ⟨m, urlPedidoEnvio, hd, b⟩ (.resp 200 (.ok text))) =
      (match env.decodePedido text with
        | .ok r => decide (codigoPedidoString env r.CodigoPedido = "")
        | .error _ => true) := by
  cases h : env.decodePedido text <;>
    simp [opFailed, urlPedidoEnvio_ne_urlCliente, urlPedidoEnvio_ne_urlEndereco, h]

theorem registerClient_cases (env : Env σ) (s : σ) (numPedido tokenML tokenNBS : String) :
    (writeEvents (registerClient env s numPedido tokenML tokenNBS).trace = [] ∧
      ∃ e, (registerClient env s numPedido tokenML tokenNBS).val = .error e) ∨
    ∃ body res,
      writeEvents (registerClient env s numPedido tokenML tokenNBS).trace =
        [Event.http ⟨"POST", urlCliente, nbsHeaders tokenNBS, body⟩ res] ∧
      ((opFailed env (Event.http ⟨"POST", urlCliente, nbsHeaders tokenNBS, body⟩ res) = true ∧
          ∃ e, (registerClient env s numPedido tokenML tokenNBS).val = .error e) ∨
       (opFailed env (Event.http ⟨"POST", urlCliente, nbsHeaders tokenNBS, body⟩ res) = false ∧
          (registerClient env s numPedido tokenML tokenNBS).val = .ok "")) := by
  generalize h : registerClient env s numPedido tokenML tokenNBS = r
  simp only [registerClient] at h
  split at h
  · subst h
    left
    simp [getMLClientData_writeEvents]
  · rename_i clienteData hcd
    right
    refine ⟨some (.obj clienteData), (doHTTP env (getMLClientData env s numPedido tokenML).st
      ⟨"POST", urlCliente, nbsHeaders tokenNBS,
        some (.obj clienteData)⟩).val, ?_, ?_⟩
    · repeat' split at h
      all_goals subst h
      all_goals simp only [writeEvents_append, getMLClientData_writeEvents, List.nil_append]
      all_goals simp only [doHTTP, writeEvents, List.filter_cons, writeOp_cliente,
        Option.isSome_some, if_true, List.filter_nil]
    · repeat' split at h
      all_goals subst h
      all_goals simp_all [opFailed_netErr, opFailed_readErr, opFailed_cliente, opFailed_status]

theorem registerAddress_cases (env : Env σ) (s : σ) (numPedido tokenML tokenNBS : String) :
    (writeEvents (registerAddress env s numPedido tokenML tokenNBS).trace = [] ∧
      ∃ e, (registerAddress env s numPedido tokenML tokenNBS).val = .error e) ∨
    ∃ body res,
      writeEvents (registerAddress env s numPedido tokenML tokenNBS).trace =
        [Event.http ⟨"POST", urlEndereco, nbsHeaders tokenNBS, body⟩ res] ∧
      ((opFailed env (Event.http ⟨"POST", urlEndereco, nbsHeaders tokenNBS, body⟩ res) = true ∧
          ∃ e, (registerAddress env s numPedido tokenML tokenNBS).val = .error e) ∨
       (opFailed env (Event.http ⟨"POST", urlEndereco, nbsHeaders tokenNBS, body⟩ res) = false ∧
          (registerAddress env s numPedido tokenML tokenNBS).val = .ok "")) := by
  generalize h : registerAddress env s numPedido tokenML tokenNBS = r
  simp only [registerAddress] at h
  split at h
  · subst h
    left
    simp [getMLClientData_writeEvents]
  · rename_i clienteData hcd
    right
    refine ⟨some (.obj (enderecoDataMap (codigoClienteOf clienteData))), (doHTTP env (getMLClientData env s numPedido tokenML).st
      ⟨"POST", urlEndereco, nbsHeaders tokenNBS,
        some (.obj (enderecoDataMap (codigoClienteOf clienteData)))⟩).val, ?_, ?_⟩
    · repeat' split at h
      all_goals subst h
      all_goals simp only [writeEvents_append, getMLClientData_writeEvents, List.nil_append]
      all_goals simp only [doHTTP, writeEvents, List.filter_cons, writeOp_endereco,
        Option.isSome_some, if_true, List.filter_nil]
    · repeat' split at h
      all_goals subst h
      all_goals simp_all [opFailed_netErr, opFailed_readErr, opFailed_endereco, opFailed_status]

/-! ### The item loop -/

theorem itemLoop_fold_val (env : Env σ) (codEmpresa codFornecedor : String)
    (items : List OrderItem) :
    ∀ acc : Ran σ (List GoMap),
      (items.foldl (itemLoopStep env codEmpresa codFornecedor) acc).val =
        acc.val ++ (resolvedItems env codEmpresa acc.st items).map
          (fun p => orderItemMap p.2 codFornecedor p.1) := by
  induction items with
  | nil => intro acc; simp [resolvedItems]
  | cons item rest ih =>
    intro acc
    rw [List.foldl_cons, ih]
    cases h : (getSKUFromDePara env acc.st (sprintfV env item.ItemID) codEmpresa).val <;>
      simp [itemLoopStep, resolvedItems, h]

theorem itemLoop_fold_writeEvents (env : Env σ) (codEmpresa codFornecedor : String)
    (items : List OrderItem) :
    ∀ acc : Ran σ (List GoMap),
      writeEvents (items.foldl (itemLoopStep env codEmpresa codFornecedor) acc).trace =
        writeEvents acc.trace := by
  induction items with
  | nil => intro acc; rfl
  | cons item rest ih =>
    intro acc
    rw [List.foldl_cons, ih]
    cases h : (getSKUFromDePara env acc.st (sprintfV env item.ItemID) codEmpresa).val <;>
      simp [itemLoopStep, h, writeEvents_append, getSKUFromDePara_writeEvents]

theorem getSKUFromDePara_noHTTP (env : Env σ) (s : σ) (mlbItem codEmpresa : String) :
    ∀ e ∈ (getSKUFromDePara env s mlbItem codEmpresa).trace, e.isHTTP = false := by
  generalize h : getSKUFromDePara env s mlbItem codEmpresa = r
  simp only [getSKUFromDePara] at h
  repeat' split at h
  all_goals subst h
  all_goals simp [doQuery, Event.isHTTP]

theorem itemLoop_fold_noHTTP (env : Env σ) (codEmpresa codFornecedor : String)
    (items : List OrderItem) :
    ∀ acc : Ran σ (List GoMap), (∀ e ∈ acc.trace, e.isHTTP = false) →
      ∀ e ∈ (items.foldl (itemLoopStep env codEmpresa codFornecedor) acc).trace,
        e.isHTTP = false := by
  induction items with
  | nil => intro acc hacc; simpa using hacc
  | cons item rest ih =>
    intro acc hacc
    rw [List.foldl_cons]
    apply ih
    intro e he
    have hsku := getSKUFromDePara_noHTTP env acc.st (sprintfV env item.ItemID) codEmpresa
    cases h : (getSKUFromDePara env acc.st (sprintfV env item.ItemID) codEmpresa).val <;>
      simp only [itemLoopStep, h, List.mem_append] at he <;>
      rcases he with he | he
    · exact hacc e he
    · exact hsku e he
    · exact hacc e he
    · exact hsku e he

theorem itemLoop_val (env : Env σ) (s : σ) (codEmpresa codFornecedor : String)
    (items : List OrderItem) :
    (itemLoop env s codEmpresa codFornecedor items).val =
      (resolvedItems env codEmpresa s items).map (fun p => orderItemMap p.2 codFornecedor p.1) := by
  simp [itemLoop, itemLoop_fold_val]

theorem itemLoop_writeEvents (env : Env σ) (s : σ) (codEmpresa codFornecedor : String)
    (items : List OrderItem) :
    writeEvents (itemLoop env s codEmpresa codFornecedor items).trace = [] := by
  rw [itemLoop, itemLoop_fold_writeEvents]
  rfl

theorem itemLoop_noHTTP (env : Env σ) (s : σ) (codEmpresa codFornecedor : String)
    (items : List OrderItem) :
    ∀ e ∈ (itemLoop env s codEmpresa codFornecedor items).trace, e.isHTTP = false := by
  apply itemLoop_fold_noHTTP
  simp

/-- What a run of `processItemsAndSendOrder` does, by cases on the resolved items and on
the reply to the submission. -/
theorem processItemsAndSendOrder_cases (env : Env σ) (s : σ) (order : MLOrder)
    (codEmpresa codFornecedor codCliente tokenNBS : String) :
    ((itemLoop env s codEmpresa codFornecedor order.OrderItems).val = [] ∧
      (processItemsAndSendOrder env s order codEmpresa codFornecedor codCliente tokenNBS).val =
        .error errNoValidItems ∧
      (processItemsAndSendOrder env s order codEmpresa codFornecedor codCliente tokenNBS).trace =
        (itemLoop env s codEmpresa codFornecedor order.OrderItems).trace) ∨
    ((itemLoop env s codEmpresa codFornecedor order.OrderItems).val ≠ [] ∧
      ∃ res,
        (processItemsAndSendOrder env s order codEmpresa codFornecedor codCliente tokenNBS).trace =
          (itemLoop env s codEmpresa codFornecedor order.OrderItems).trace ++
            [Event.http ⟨"POST", urlPedidoEnvio, nbsHeaders tokenNBS,
              some (.obj (dataPedidoMap order codEmpresa codCliente
                (itemLoop env s codEmpresa codFornecedor order.OrderItems).val))⟩ res] ∧
        ((opFailed env (Event.http ⟨"POST", urlPedidoEnvio, nbsHeaders tokenNBS,
              some (.obj (dataPedidoMap order codEmpresa codCliente
                (itemLoop env s codEmpresa codFornecedor order.OrderItems).val))⟩ res) = true ∧
            ∃ e, (processItemsAndSendOrder env s order codEmpresa codFornecedor codCliente
              tokenNBS).val = .error e) ∨
         (∃ text r, res = .resp 200 (.ok text) ∧ env.decodePedido text = .ok r ∧
            codigoPedidoString env r.CodigoPedido ≠ "" ∧
            (processItemsAndSendOrder env s order codEmpresa codFornecedor codCliente
              tokenNBS).val = .ok (codigoPedidoString env r.CodigoPedido)))) := by
  generalize h : processItemsAndSendOrder env s order codEmpresa codFornecedor codCliente
    tokenNBS = r
  simp only [processItemsAndSendOrder] at h
  split at h
  · rename_i hlen
    subst h
    left
    exact ⟨List.length_eq_zero.mp hlen, rfl, rfl⟩
  · rename_i hlen
    right
    refine ⟨fun hnil => hlen (by rw [hnil]; rfl), (doHTTP env
      (itemLoop env s codEmpresa codFornecedor order.OrderItems).st
      ⟨"POST", urlPedidoEnvio, nbsHeaders tokenNBS,
        some (.obj (dataPedidoMap order codEmpresa codCliente
          (itemLoop env s codEmpresa codFornecedor order.OrderItems).val))⟩).val, ?_, ?_⟩
    · repeat' split at h
      all_goals subst h
      all_goals simp [doHTTP]
    · repeat' split at h
      all_goals subst h
      all_goals simp_all [opFailed_netErr, opFailed_readErr, opFailed_pedido, opFailed_status]

/-! ### Writers as seen from their result -/

theorem registerClient_ok {env : Env σ} {s : σ} {numPedido tokenML tokenNBS x : String}
    (h : (registerClient env s numPedido tokenML tokenNBS).val = .ok x) :
    ∃ body res,
      writeEvents (registerClient env s numPedido tokenML tokenNBS).trace =
        [Event.http ⟨"POST", urlCliente, nbsHeaders tokenNBS, body⟩ res] ∧
      opFailed env (Event.http ⟨"POST", urlCliente, nbsHeaders tokenNBS, body⟩ res) = false := by
  rcases registerClient_cases env s numPedido tokenML tokenNBS with
    ⟨_, e, he⟩ | ⟨body, res, hw, ⟨_, e, he⟩ | ⟨hf, _⟩⟩
  · rw [h] at he; cases he
  · rw [h] at he; cases he
  · exact ⟨body, res, hw, hf⟩

theorem registerClient_err {env : Env σ} {s : σ} {numPedido tokenML tokenNBS : String}
    {e : GoError} (_h : (registerClient env s numPedido tokenML tokenNBS).val = .error e) :
    writeEvents (registerClient env s numPedido tokenML tokenNBS).trace = [] ∨
    ∃ body res,
      writeEvents (registerClient env s numPedido tokenML tokenNBS).trace =
        [Event.http ⟨"POST", urlCliente, nbsHeaders tokenNBS, body⟩ res] := by
  rcases registerClient_cases env s numPedido tokenML tokenNBS with
    ⟨hw, _⟩ | ⟨body, res, hw, _⟩
  · exact Or.inl hw
  · exact Or.inr ⟨body, res, hw⟩

theorem registerAddress_ok {env : Env σ} {s : σ} {numPedido tokenML tokenNBS x : String}
    (h : (registerAddress env s numPedido tokenML tokenNBS).val = .ok x) :
    ∃ body res,
      writeEvents (registerAddress env s numPedido tokenML tokenNBS).trace =
        [Event.http ⟨"POST", urlEndereco, nbsHeaders tokenNBS, body⟩ res] ∧
      opFailed env (Event.http ⟨"POST", urlEndereco, nbsHeaders tokenNBS, body⟩ res) = false := by
  rcases registerAddress_cases env s numPedido tokenML tokenNBS with
    ⟨_, e, he⟩ | ⟨body, res, hw, ⟨_, e, he⟩ | ⟨hf, _⟩⟩
  · rw [h] at he; cases he
  · rw [h] at he; cases he
  · exact ⟨body, res, hw, hf⟩

theorem registerAddress_err {env : Env σ} {s : σ} {numPedido tokenML tokenNBS : String}
    {e : GoError} (_h : (registerAddress env s numPedido tokenML tokenNBS).val = .error e) :
    writeEvents (registerAddress env s numPedido tokenML tokenNBS).trace = [] ∨
    ∃ body res,
      writeEvents (registerAddress env s numPedido tokenML tokenNBS).trace =
        [Event.http ⟨"POST", urlEndereco, nbsHeaders tokenNBS, body⟩ res] := by
  rcases registerAddress_cases env s numPedido tokenML tokenNBS with
    ⟨hw, _⟩ | ⟨body, res, hw, _⟩
  · exact Or.inl hw
  · exact Or.inr ⟨body, res, hw⟩

theorem insertInitialStatus_writeEvents (env : Env σ) (s : σ)
    (numPedido conta tokenUser idShipping : String) :
    writeEvents (insertInitialStatus env s numPedido conta tokenUser idShipping).trace =
      [Event.exec DB.pg sqlInsertInitial [env.toUpper conta, tokenUser, numPedido, idShipping]
        (insertInitialStatus env s numPedido conta tokenUser idShipping).val] := by
  simp [insertInitialStatus, doExec, writeEvents, Event.writeOp]

theorem updateFinalStatus_writeEvents (env : Env σ) (s : σ)
    (numPedido numeroPedido tokenUser : String) :
    writeEvents (updateFinalStatus env s numPedido numeroPedido tokenUser).trace =
      [Event.exec DB.pg sqlUpdateFinal [numeroPedido, tokenUser, numPedido]
        (updateFinalStatus env s numPedido numeroPedido tokenUser).val] := by
  have hne : ¬ sqlUpdateFinal = sqlInsertInitial := by decide
  simp [updateFinalStatus, doExec, writeEvents, Event.writeOp, hne]

theorem writeOp_insert (args : List String) (err : Option GoError) :
    (Event.exec DB.pg sqlInsertInitial args err).writeOp = some .insertInitial := by
  simp [Event.writeOp]

theorem writeOp_update (args : List String) (err : Option GoError) :
    (Event.exec DB.pg sqlUpdateFinal args err).writeOp = some .updateFinal := by
  have hne : ¬ sqlUpdateFinal = sqlInsertInitial := by decide
  simp [Event.writeOp, hne]

theorem resolvedItems_ne_nil_of_itemLoop {env : Env σ} {s : σ} {ce cf : String}
    {items : List OrderItem} (h : (itemLoop env s ce cf items).val ≠ []) :
    ∃ s1 ce1 items1, resolvedItems env ce1 s1 items1 ≠ [] := by
  refine ⟨s, ce, items, ?_⟩
  intro hnil
  apply h
  rw [itemLoop_val, hnil]
  rfl

theorem processItemsAndSendOrder_ok {env : Env σ} {s : σ} {order : MLOrder}
    {codEmpresa codFornecedor codCliente tokenNBS d : String}
    (h : (processItemsAndSendOrder env s order codEmpresa codFornecedor codCliente
      tokenNBS).val = .ok d) :
    (∃ s1 ce items, resolvedItems env ce s1 items ≠ []) ∧
    ∃ body text r,
      writeEvents (processItemsAndSendOrder env s order codEmpresa codFornecedor codCliente
        tokenNBS).trace =
        [Event.http ⟨"POST", urlPedidoEnvio, nbsHeaders tokenNBS, body⟩ (.resp 200 (.ok text))] ∧
      env.decodePedido text = .ok r ∧ codigoPedidoString env r.CodigoPedido ≠ "" ∧
      d = codigoPedidoString env r.CodigoPedido := by
  rcases processItemsAndSendOrder_cases env s order codEmpresa codFornecedor codCliente
    tokenNBS with ⟨_, he, _⟩ | ⟨hne, res, htr, ⟨_, e, he⟩ | ⟨text, r, hres, hdec, hd, hv⟩⟩
  · rw [h] at he; cases he
  · rw [h] at he; cases he
  · refine ⟨resolvedItems_ne_nil_of_itemLoop hne, (some (.obj (dataPedidoMap order codEmpresa codCliente
      (itemLoop env s codEmpresa codFornecedor order.OrderItems).val))),
      text, r, ?_, hdec, hd, ?_⟩
    · rw [htr, writeEvents_append, itemLoop_writeEvents, hres]
      simp [writeEvents, writeOp_pedido]
    · rw [h] at hv
      cases hv
      rfl

theorem processItemsAndSendOrder_err {env : Env σ} {s : σ} {order : MLOrder}
    {codEmpresa codFornecedor codCliente tokenNBS : String} {e : GoError}
    (_h : (processItemsAndSendOrder env s order codEmpresa codFornecedor codCliente
      tokenNBS).val = .error e) :
    writeEvents (processItemsAndSendOrder env s order codEmpresa codFornecedor codCliente
      tokenNBS).trace = [] ∨
    ((∃ s1 ce items, resolvedItems env ce s1 items ≠ []) ∧
     ∃ body res,
      writeEvents (processItemsAndSendOrder env s order codEmpresa codFornecedor codCliente
        tokenNBS).trace = [Event.http ⟨"POST", urlPedidoEnvio, nbsHeaders tokenNBS, body⟩ res]) := by
  rcases processItemsAndSendOrder_cases env s order codEmpresa codFornecedor codCliente
    tokenNBS with ⟨_, _, htr⟩ | ⟨hne, res, htr, _⟩
  · left
    rw [htr, itemLoop_writeEvents]
  · right
    refine ⟨resolvedItems_ne_nil_of_itemLoop hne, (some (.obj (dataPedidoMap order codEmpresa codCliente
      (itemLoop env s codEmpresa codFornecedor order.OrderItems).val))),
      res, ?_⟩
    rw [htr, writeEvents_append, itemLoop_writeEvents]
    simp [writeEvents, writeOp_pedido]

/-! ### The write sequence of `processOrder` -/

theorem processOrder_shape (env : Env σ) (s : σ) (numPedido conta tokenML tokenUser : String) :
    WritesShape env numPedido tokenUser
      (writeEvents (processOrder env s numPedido conta tokenML tokenUser).trace)
      (outcomeOf (processOrder env s numPedido conta tokenML tokenUser).val) := by
  generalize hR : processOrder env s numPedido conta tokenML tokenUser = R
  simp only [processOrder, failure] at hR
  split at hR
  · subst hR
    simp [WritesShape, outcomeOf, getMLOrder_writeEvents]
  rename_i order ho
  split at hR
  · subst hR
    simp [WritesShape, outcomeOf, getMLOrder_writeEvents]
  rename_i first rest hitems
  split at hR
  · subst hR
    simp [WritesShape, outcomeOf, writeEvents_append, getMLOrder_writeEvents,
      getEmpresaFornecedor_writeEvents]
  rename_i ce cf hef
  split at hR
  · subst hR
    simp [WritesShape, outcomeOf, writeEvents_append, getMLOrder_writeEvents,
      getEmpresaFornecedor_writeEvents, getNBSToken_writeEvents]
  rename_i tokenNBS ht
  split at hR
  · subst hR
    simp [WritesShape, outcomeOf, writeEvents_append, getMLOrder_writeEvents,
      getEmpresaFornecedor_writeEvents, getNBSToken_writeEvents, getMLClientData_writeEvents]
  rename_i clienteData hcd
  split at hR
  · rename_i e hrc
    subst hR
    rcases registerClient_err hrc with hw | ⟨b, r, hw⟩
    · simp [WritesShape, outcomeOf, writeEvents_append, getMLOrder_writeEvents,
        getEmpresaFornecedor_writeEvents, getNBSToken_writeEvents, getMLClientData_writeEvents, hw]
    · simp [WritesShape, outcomeOf, writeEvents_append, getMLOrder_writeEvents,
        getEmpresaFornecedor_writeEvents, getNBSToken_writeEvents, getMLClientData_writeEvents, hw,
        writeOp_cliente]
  rename_i x hrc
  obtain ⟨bc, rc, hwc, hfc⟩ := registerClient_ok hrc
  split at hR
  · rename_i e hra
    subst hR
    rcases registerAddress_err hra with hw | ⟨b, r, hw⟩
    · simp [WritesShape, outcomeOf, writeEvents_append, getMLOrder_writeEvents,
      getEmpresaFornecedor_writeEvents, getNBSToken_writeEvents, getMLClientData_writeEvents,
      sendTelegramMessage_writeEvents, insertInitialStatus_writeEvents,
      updateFinalStatus_writeEvents, writeOp_cliente, writeOp_endereco, writeOp_insert,
      writeOp_pedido, writeOp_update, hwc, hw]
    · simp [WritesShape, outcomeOf, writeEvents_append, getMLOrder_writeEvents,
      getEmpresaFornecedor_writeEvents, getNBSToken_writeEvents, getMLClientData_writeEvents,
      sendTelegramMessage_writeEvents, insertInitialStatus_writeEvents,
      updateFinalStatus_writeEvents, writeOp_cliente, writeOp_endereco, writeOp_insert,
      writeOp_pedido, writeOp_update, hwc, hw, hfc]
  rename_i y hra
  obtain ⟨ba, ra, hwa, hfa⟩ := registerAddress_ok hra
  split at hR
  · rename_i e hins
    subst hR
    simp only [writeEvents_append, getMLOrder_writeEvents, getEmpresaFornecedor_writeEvents,
      getNBSToken_writeEvents, getMLClientData_writeEvents, sendTelegramMessage_writeEvents,
      insertInitialStatus_writeEvents, updateFinalStatus_writeEvents, hwc, hwa,
      List.nil_append, List.append_nil, List.cons_append, List.append_assoc]
    refine Or.inr ⟨_, writeOp_cliente _ _ _, Or.inr ⟨hfc, _, writeOp_endereco _ _ _,
      Or.inr ⟨hfa, _, writeOp_insert _ _, Or.inl ⟨rfl, ?_⟩⟩⟩⟩
    simp [outcomeOf]
  rename_i hins
  have hfi : ∀ args, opFailed env (Event.exec DB.pg sqlInsertInitial args none) = false := by
    intro args; simp [opFailed]
  split at hR
  · subst hR
    simp only [writeEvents_append, getMLOrder_writeEvents, getEmpresaFornecedor_writeEvents,
      getNBSToken_writeEvents, getMLClientData_writeEvents, sendTelegramMessage_writeEvents,
      insertInitialStatus_writeEvents, updateFinalStatus_writeEvents, hwc, hwa,
      List.nil_append, List.append_nil, List.cons_append, List.append_assoc]
    refine Or.inr ⟨_, writeOp_cliente _ _ _, Or.inr ⟨hfc, _, writeOp_endereco _ _ _,
      Or.inr ⟨hfa, _, writeOp_insert _ _, Or.inl ⟨rfl, ?_⟩⟩⟩⟩
    simp [outcomeOf]
  rename_i clienteData2 hcd2
  split at hR
  · rename_i e hps
    subst hR
    rcases processItemsAndSendOrder_err hps with hw | ⟨hres, b, r, hw⟩
    · simp only [writeEvents_append, getMLOrder_writeEvents, getEmpresaFornecedor_writeEvents,
      getNBSToken_writeEvents, getMLClientData_writeEvents, sendTelegramMessage_writeEvents,
      insertInitialStatus_writeEvents, updateFinalStatus_writeEvents, hwc, hwa, hw, hins,
        List.nil_append, List.append_nil, List.cons_append, List.append_assoc]
      refine Or.inr ⟨_, writeOp_cliente _ _ _, Or.inr ⟨hfc, _, writeOp_endereco _ _ _,
        Or.inr ⟨hfa, _, writeOp_insert _ _, Or.inl ⟨rfl, ?_⟩⟩⟩⟩
      simp [outcomeOf]
    · simp only [writeEvents_append, getMLOrder_writeEvents, getEmpresaFornecedor_writeEvents,
      getNBSToken_writeEvents, getMLClientData_writeEvents, sendTelegramMessage_writeEvents,
      insertInitialStatus_writeEvents, updateFinalStatus_writeEvents, hwc, hwa, hw, hins,
        List.nil_append, List.append_nil, List.cons_append, List.append_assoc]
      refine Or.inr ⟨_, writeOp_cliente _ _ _, Or.inr ⟨hfc, _, writeOp_endereco _ _ _,
        Or.inr ⟨hfa, _, writeOp_insert _ _, Or.inr ⟨hfi _, hres, _, writeOp_pedido _ _ _,
          Or.inl ⟨rfl, ?_⟩⟩⟩⟩⟩
      simp [outcomeOf]
  rename_i d hps
  obtain ⟨hres, bo, text, r, hwo, hdec, hd, hdd⟩ := processItemsAndSendOrder_ok hps
  subst hdd
  have hfo : opFailed env (Event.http ⟨"POST", urlPedidoEnvio, nbsHeaders tokenNBS, bo⟩
      (.resp 200 (.ok text))) = false := by
    rw [opFailed_pedido, hdec]
    simpa using hd
  split at hR
  · rename_i e hup
    subst hR
    simp only [writeEvents_append, getMLOrder_writeEvents, getEmpresaFornecedor_writeEvents,
      getNBSToken_writeEvents, getMLClientData_writeEvents, sendTelegramMessage_writeEvents,
      insertInitialStatus_writeEvents, updateFinalStatus_writeEvents, hwc, hwa, hwo, hins, hup,
      List.nil_append, List.append_nil, List.cons_append, List.append_assoc]
    refine Or.inr ⟨_, writeOp_cliente _ _ _, Or.inr ⟨hfc, _, writeOp_endereco _ _ _,
      Or.inr ⟨hfa, _, writeOp_insert _ _, Or.inr ⟨hfi _, hres, _, writeOp_pedido _ _ _,
        Or.inr ⟨hfo, _, _, _, _, some e, rfl, hdec, hd, rfl, ?_⟩⟩⟩⟩⟩
    simp [outcomeOf]
  rename_i hup
  subst hR
  simp only [writeEvents_append, getMLOrder_writeEvents, getEmpresaFornecedor_writeEvents,
      getNBSToken_writeEvents, getMLClientData_writeEvents, sendTelegramMessage_writeEvents,
      insertInitialStatus_writeEvents, updateFinalStatus_writeEvents, hwc, hwa, hwo, hins, hup,
    List.nil_append, List.append_nil, List.cons_append, List.append_assoc]
  refine Or.inr ⟨_, writeOp_cliente _ _ _, Or.inr ⟨hfc, _, writeOp_endereco _ _ _,
    Or.inr ⟨hfa, _, writeOp_insert _ _, Or.inr ⟨hfi _, hres, _, writeOp_pedido _ _ _,
      Or.inr ⟨hfo, _, _, _, _, none, rfl, hdec, hd, rfl, ?_⟩⟩⟩⟩⟩
  simp [outcomeOf]

/-! ### The customer data always carries the document number -/

theorem codigoCliente_clienteDataOf (env : Env σ) (b : BillingInfo) :
    (clienteDataOf env b).getString "codigoCliente" = some b.DocNumber := by
  simp [clienteDataOf, clienteDataMap, GoMap.getString, GoMap.get]

theorem getMLClientData_ok {env : Env σ} {s : σ} {numPedido tokenML : String} {m : GoMap}
    (h : (getMLClientData env s numPedido tokenML).val = .ok m) :
    ∃ b, m = clienteDataOf env b := by
  generalize hr : getMLClientData env s numPedido tokenML = r at h
  simp only [getMLClientData] at hr
  repeat' split at hr
  all_goals subst hr
  all_goals simp only [reduceCtorEq, Except.ok.injEq] at h
  all_goals exact ⟨_, h.symm⟩

theorem codigoClienteOf_getMLClientData {env : Env σ} {s : σ} {numPedido tokenML : String}
    {m : GoMap} (h : (getMLClientData env s numPedido tokenML).val = .ok m) :
    m.getString "codigoCliente" = some (codigoClienteOf m) := by
  obtain ⟨b, rfl⟩ := getMLClientData_ok h
  simp [codigoClienteOf, codigoCliente_clienteDataOf]

/-! ### Outcome and log of a run -/

theorem mem_itemLogs (env : Env σ) (items : List OrderItem) :
    ∀ (i : Nat) (x : IntegrationLogEntry), x ∈ itemLogs env i items → x.Level = "info" := by
  induction items with
  | nil => intro i x h; simp [itemLogs] at h
  | cons it rest ih =>
    intro i x h
    simp only [itemLogs, List.mem_cons] at h
    rcases h with h | h
    · rw [h]
    · exact ih _ _ h

theorem itemLogs_noError (env : Env σ) (i : Nat) (items : List OrderItem) :
    ∀ x ∈ itemLogs env i items, ¬ x.Level = "error" := by
  intro x hx
  rw [mem_itemLogs env items i x hx]
  decide

/-- Every return of `processOrder` is one of two kinds: a failure whose log ends with its
only error entry, or the success with one result and no error entry. -/
theorem processOrder_outcome (env : Env σ) (s : σ) (numPedido conta tokenML tokenUser : String)
    (r : IntegrationResponse) (l : List IntegrationLogEntry)
    (h : (processOrder env s numPedido conta tokenML tokenUser).val = some (r, l)) :
    r.Logs = l ∧
    ((r.TotalProcessed = 0 ∧ r.SuccessCount = 0 ∧ r.ErrorCount = 1 ∧ r.Results = [] ∧
        ∃ pre e, l = pre ++ [e] ∧ e.Level = "error" ∧ ∀ x ∈ pre, x.Level ≠ "error") ∨
     (r.TotalProcessed = 1 ∧ r.SuccessCount = 1 ∧ r.ErrorCount = 0 ∧ (∃ m, r.Results = [m]) ∧
        ∀ x ∈ l, x.Level ≠ "error")) := by
  unfold processOrder at h
  simp only [failure] at h
  repeat' split at h
  all_goals (simp only [Option.some.injEq, Prod.mk.injEq, reduceCtorEq] at h)
  all_goals (
    obtain ⟨rfl, rfl⟩ := h
    refine ⟨rfl, ?_⟩
    first
    | (left
       refine ⟨rfl, rfl, rfl, rfl, _, _, rfl, rfl, ?_⟩
       simp [List.forall_mem_append, List.forall_mem_cons, itemLogs_noError, or_imp, forall_and]
       try exact itemLogs_noError _ _ _)
    | (right
       refine ⟨rfl, rfl, rfl, ⟨_, rfl⟩, ?_⟩
       simp [List.forall_mem_append, List.forall_mem_cons, itemLogs_noError, or_imp, forall_and]
       try exact itemLogs_noError _ _ _))

/-- Every return of `ProcessIntegration`: the early exit for an order already in the
ledger, a failure whose log ends with its only error entry, or the success. -/
theorem ProcessIntegration_outcome (env : Env σ) (s : σ) (req : IntegrationRequest)
    (r : IntegrationResponse) (h : (ProcessIntegration env s req).val = some r) :
    (r.SuccessCount = 0 ∧ r.ErrorCount = 1 ∧ r.Results = [] ∧
      ((∃ cols, (doQuery env s DB.pg sqlValidate [req.NumPedido]).val = .firstRow cols) ∨
       (∃ pre e, r.Logs = pre ++ [e] ∧ e.Level = "error" ∧ ∀ x ∈ pre, x.Level ≠ "error"))) ∨
    (r.SuccessCount = 1 ∧ r.ErrorCount = 0 ∧ (∃ m, r.Results = [m]) ∧
      ∀ x ∈ r.Logs, x.Level ≠ "error") := by
  simp only [ProcessIntegration] at h
  split at h
  · simp only [Option.some.injEq] at h
    subst h
    left
    refine ⟨rfl, rfl, rfl, Or.inr ⟨_, _, rfl, rfl, ?_⟩⟩
    simp
  · rename_i cols hq
    simp only [Option.some.injEq] at h
    subst h
    left
    exact ⟨rfl, rfl, rfl, Or.inl ⟨cols, hq⟩⟩
  · split at h
    · simp only [Option.some.injEq] at h
      subst h
      left
      refine ⟨rfl, rfl, rfl, Or.inr ⟨_, _, rfl, rfl, ?_⟩⟩
      simp
    · split at h
      · simp at h
      · rename_i tokenML tokenUser ht result processLogs hp
        obtain ⟨hl, hcases⟩ := processOrder_outcome env _ _ _ _ _ result processLogs hp
        have hr : r.SuccessCount = result.SuccessCount ∧ r.ErrorCount = result.ErrorCount ∧
            r.Results = result.Results ∧ ∃ pre, (∀ x ∈ pre, x.Level ≠ "error") ∧
              r.Logs = pre ++ processLogs := by
          split at h <;> simp only [Option.some.injEq] at h <;> subst h <;>
            exact ⟨rfl, rfl, rfl, _, by simp, rfl⟩
        obtain ⟨h1, h2, h3, pre0, hpre0, h4⟩ := hr
        rcases hcases with ⟨_, hs, he, hres, pre, e, hle, hlev, hpre⟩ | ⟨_, hs, he, hres, hno⟩
        · left
          refine ⟨by rw [h1, hs], by rw [h2, he], by rw [h3, hres],
            Or.inr ⟨pre0 ++ pre, e, ?_, hlev, ?_⟩⟩
          · rw [h4, hle, List.append_assoc]
          · intro x hx
            rcases List.mem_append.mp hx with hx | hx
            · exact hpre0 x hx
            · exact hpre x hx
        · right
          refine ⟨by rw [h1, hs], by rw [h2, he], by rw [h3]; exact hres, ?_⟩
          intro x hx
          rw [h4] at hx
          rcases List.mem_append.mp hx with hx | hx
          · exact hpre0 x hx
          · exact hno x hx

theorem itemLogs_filter_sagaSteps (env : Env σ) (items : List OrderItem) :
    ∀ i, (itemLogs env i items).filter (fun e => decide (e ∈ sagaSteps)) = [] := by
  induction items with
  | nil => intro i; rfl
  | cons it rest ih =>
    intro i
    simp only [itemLogs, List.filter_cons, ih]
    simp [sagaSteps]

theorem append_ne_of_head (lit x other : String) (c d : Char) (l m : List Char)
    (h1 : lit.data = c :: l) (h2 : other.data = d :: m) (hcd : c ≠ d) : lit ++ x ≠ other := by
  intro h
  have := congrArg String.data h
  rw [String.data_append, h1, h2] at this
  simp at this
  exact hcd this.1

theorem enderecoLog_ne (z : String) : ¬ ("Endere√ßo identificado: " ++ z) = "Cadastrando endere√ßo no NBS..." :=
  append_ne_of_head _ _ _ 'E' 'C' _ _ rfl rfl (by decide)

theorem mem_writeEvents {e : Event} {tr : List Event} (h : e ∈ tr) (hw : e.writeOp.isSome) :
    e ∈ writeEvents tr := by
  simp [writeEvents, List.mem_filter, h, hw]

theorem mem_of_mem_writeEvents {e : Event} {tr : List Event} (h : e ∈ writeEvents tr) :
    e ∈ tr := by
  simp only [writeEvents, List.mem_filter] at h
  exact h.1

theorem opFailed_of_refused_cliente (env : Env σ) (req : HttpRequest) (res : HttpResult)
    (hurl : req.url = urlCliente) (h : registrationRefused env.decodeCliente res) :
    opFailed env (Event.http req res) = true := by
  obtain ⟨m, url, hd, b⟩ := req
  simp only at hurl
  subst hurl
  cases res with
  | netErr e => exact opFailed_netErr env _ e
  | resp status body =>
    by_cases hs : status = 200
    · subst hs
      cases body with
      | error e => exact opFailed_readErr env _ _ e
      | ok text =>
        simp only [registrationRefused] at h
        rcases h with h | ⟨t, r, ht, hdec, hr⟩
        · omega
        · cases ht
          rw [opFailed_cliente, hdec]
          simp [hr]
    · exact opFailed_status env _ status body hs

theorem opFailed_of_refused_endereco (env : Env σ) (req : HttpRequest) (res : HttpResult)
    (hurl : req.url = urlEndereco) (h : registrationRefused env.decodeEndereco res) :
    opFailed env (Event.http req res) = true := by
  obtain ⟨m, url, hd, b⟩ := req
  simp only at hurl
  subst hurl
  cases res with
  | netErr e => exact opFailed_netErr env _ e
  | resp status body =>
    by_cases hs : status = 200
    · subst hs
      cases body with
      | error e => exact opFailed_readErr env _ _ e
      | ok text =>
        simp only [registrationRefused] at h
        rcases h with h | ⟨t, r, ht, hdec, hr⟩
        · omega
        · cases ht
          rw [opFailed_endereco, hdec]
          simp [hr]
    · exact opFailed_status env _ status body hs

theorem url_of_registerCustomer {req : HttpRequest} {res : HttpResult}
    (h : (Event.http req res).writeOp = some .registerCustomer) : req.url = urlCliente := by
  simp only [Event.writeOp] at h
  split at h
  · cases h
  · split at h
    · cases h
    · split at h
      · rename_i h1; exact h1.2
      · split at h
        · cases h
        · split at h <;> cases h

theorem url_of_registerAddress {req : HttpRequest} {res : HttpResult}
    (h : (Event.http req res).writeOp = some .registerAddress) : req.url = urlEndereco := by
  simp only [Event.writeOp] at h
  split at h
  · cases h
  · split at h
    · cases h
    · split at h
      · cases h
      · split at h
        · rename_i h1; exact h1.2
        · split at h <;> cases h

theorem shape_customer_failed {env : Env σ} {numPedido tokenUser : String} {evs : List Event}
    {out : Option Bool} (hsh : WritesShape env numPedido tokenUser evs out) {e : Event}
    (he : e ∈ evs) (hop : e.writeOp = some .registerCustomer) (hf : opFailed env e = true) :
    evs = [e] ∧ out = some false := by
  have hne : ∀ x : Event, x.writeOp = some .registerCustomer → opFailed env x = false →
      e ≠ x := fun x _ hx hex => by rw [hex, hx] at hf; cases hf
  have hop2 : ∀ (x : Event) (w : WriteOp), x.writeOp = some w → w ≠ .registerCustomer →
      e ≠ x := fun x w hx hw hex => by rw [hex, hx] at hop; exact hw (Option.some.inj hop)
  rcases hsh with ⟨hev, _⟩ | ⟨c, hc, ⟨hev, hout⟩ | ⟨hfc, a, ha, ⟨hev, _⟩ | ⟨hfa, i, hi, ⟨hev, _⟩ |
    ⟨hfi, _, o, ho, ⟨hev, _⟩ | ⟨hfo, hd, body, text, r, err, rfl, hdec, hdoc, hev, _⟩⟩⟩⟩⟩
  · rw [hev] at he; cases he
  · rw [hev] at he ⊢
    simp only [List.mem_singleton] at he
    exact ⟨by rw [he], hout⟩
  all_goals (
    rw [hev] at he
    simp only [List.mem_cons, List.mem_singleton, List.not_mem_nil, or_false] at he
    exfalso)
  · rcases he with h | h
    · exact hne c hc hfc h
    · exact hop2 a _ ha (by decide) h
  · rcases he with h | h | h
    · exact hne c hc hfc h
    · exact hop2 a _ ha (by decide) h
    · exact hop2 i _ hi (by decide) h
  · rcases he with h | h | h | h
    · exact hne c hc hfc h
    · exact hop2 a _ ha (by decide) h
    · exact hop2 i _ hi (by decide) h
    · exact hop2 o _ ho (by decide) h
  · rcases he with h | h | h | h | h
    · exact hne c hc hfc h
    · exact hop2 a _ ha (by decide) h
    · exact hop2 i _ hi (by decide) h
    · exact hop2 _ _ ho (by decide) h
    · exact hop2 _ _ (writeOp_update _ _) (by decide) h

theorem shape_address_failed {env : Env σ} {numPedido tokenUser : String} {evs : List Event}
    {out : Option Bool} (hsh : WritesShape env numPedido tokenUser evs out) {e : Event}
    (he : e ∈ evs) (hop : e.writeOp = some .registerAddress) (hf : opFailed env e = true) :
    (∃ c, c.writeOp = some .registerCustomer ∧ evs = [c, e]) ∧ out = some false := by
  have hne : ∀ x : Event, x.writeOp = some .registerAddress → opFailed env x = false →
      e ≠ x := fun x _ hx hex => by rw [hex, hx] at hf; cases hf
  have hop2 : ∀ (x : Event) (w : WriteOp), x.writeOp = some w → w ≠ .registerAddress →
      e ≠ x := fun x w hx hw hex => by rw [hex, hx] at hop; exact hw (Option.some.inj hop)
  rcases hsh with ⟨hev, _⟩ | ⟨c, hc, ⟨hev, hout⟩ | ⟨hfc, a, ha, ⟨hev, hout⟩ | ⟨hfa, i, hi,
    ⟨hev, _⟩ | ⟨hfi, _, o, ho, ⟨hev, _⟩ |
      ⟨hfo, hd, body, text, r, err, rfl, hdec, hdoc, hev, _⟩⟩⟩⟩⟩
  · rw [hev] at he; cases he
  · rw [hev] at he
    simp only [List.mem_singleton] at he
    exact absurd he (hop2 c _ hc (by decide))
  · rw [hev] at he ⊢
    simp only [List.mem_cons, List.mem_singleton, List.not_mem_nil, or_false] at he
    rcases he with h | h
    · exact absurd h (hop2 c _ hc (by decide))
    · exact ⟨⟨c, hc, by rw [h]⟩, hout⟩
  all_goals (
    rw [hev] at he
    simp only [List.mem_cons, List.mem_singleton, List.not_mem_nil, or_false] at he
    exfalso)
  · rcases he with h | h | h
    · exact hop2 c _ hc (by decide) h
    · exact hne a ha hfa h
    · exact hop2 i _ hi (by decide) h
  · rcases he with h | h | h | h
    · exact hop2 c _ hc (by decide) h
    · exact hne a ha hfa h
    · exact hop2 i _ hi (by decide) h
    · exact hop2 o _ ho (by decide) h
  · rcases he with h | h | h | h | h
    · exact hop2 c _ hc (by decide) h
    · exact hne a ha hfa h
    · exact hop2 i _ hi (by decide) h
    · exact hop2 _ _ ho (by decide) h
    · exact hop2 _ _ (writeOp_update _ _) (by decide) h

theorem failure_of_outcome {env : Env σ} {s : σ} {numPedido conta tokenML tokenUser : String}
    (h : outcomeOf (processOrder env s numPedido conta tokenML tokenUser).val = some false) :
    ∃ r l, (processOrder env s numPedido conta tokenML tokenUser).val = some (r, l) ∧
      r.SuccessCount = 0 ∧ r.ErrorCount = 1 := by
  cases hv : (processOrder env s numPedido conta tokenML tokenUser).val with
  | none => rw [hv] at h; simp [outcomeOf] at h
  | some p =>
    obtain ⟨r, l⟩ := p
    rw [hv] at h
    simp only [outcomeOf, Option.map_some', Option.some.injEq, decide_eq_false_iff_not] at h
    rcases (processOrder_outcome env s numPedido conta tokenML tokenUser r l hv).2 with
      ⟨_, hs, he, _⟩ | ⟨_, hs, _⟩
    · exact ⟨r, l, rfl, hs, he⟩
    · exact absurd hs h

set_option maxRecDepth 8000 in

theorem startsWith_append_true (p a b : List Char) (h : startsWith p a = true) :
    startsWith p (a ++ b) = true := by
  induction p generalizing a with
  | nil => simp [startsWith]
  | cons x p ih =>
    cases a with
    | nil => simp [startsWith] at h
    | cons y a =>
      simp only [startsWith, Bool.and_eq_true, decide_eq_true_eq] at h
      simp only [List.cons_append, startsWith, Bool.and_eq_true, decide_eq_true_eq]
      exact ⟨h.1, ih a h.2⟩

theorem skuResolved_append (a b : List Event) :
    skuResolved (a ++ b) = (skuResolved a || skuResolved b) := by
  simp [skuResolved, List.any_append]

theorem skuQuery_prefix (schema : String) :
    startsWith "SELECT sku FROM ".data ("SELECT sku FROM " ++ schema ++ ".stg_Depara WHERE mlb = @p1").data = true := by
  rw [String.data_append, String.data_append, List.append_assoc]
  exact startsWith_append_true _ _ _ (by decide)

theorem skuResolved_getSKUFromDePara_ok {env : Env σ} {s : σ} {mlbItem codEmpresa sku : String}
    (h : (getSKUFromDePara env s mlbItem codEmpresa).val = .ok sku) :
    skuResolved (getSKUFromDePara env s mlbItem codEmpresa).trace = true := by
  generalize hr : getSKUFromDePara env s mlbItem codEmpresa = r at h
  simp only [getSKUFromDePara, doQuery] at hr
  split at hr
  all_goals subst hr
  all_goals simp only [reduceCtorEq] at h
  rename_i sku2 hq
  simp only [skuResolved, List.any_cons, List.any_nil, Bool.or_false, hq, Event.resolvesSKU]
  exact skuQuery_prefix _

theorem skuResolved_getSKUFromDePara_error {env : Env σ} {s : σ}
    {mlbItem codEmpresa : String} {e : GoError}
    (h : (getSKUFromDePara env s mlbItem codEmpresa).val = .error e) :
    skuResolved (getSKUFromDePara env s mlbItem codEmpresa).trace = false := by
  generalize hr : getSKUFromDePara env s mlbItem codEmpresa = r at h
  simp only [getSKUFromDePara, doQuery] at hr
  split at hr
  all_goals subst hr
  all_goals simp only [reduceCtorEq] at h
  · rename_i e2 hq
    simp [skuResolved, Event.resolvesSKU, hq]
  · rename_i cols hne hq
    simp only [skuResolved, List.any_cons, List.any_nil, Bool.or_false, hq]
    unfold Event.resolvesSKU
    split
    · rename_i heq
      simp only [Event.query.injEq, QueryReply.firstRow.injEq] at heq
      exact absurd heq.2.2.2 (hne _)
    · rfl
  · rename_i hq
    simp [skuResolved, Event.resolvesSKU, hq]

theorem skuResolved_itemLoop_fold (env : Env σ) (codEmpresa codFornecedor : String)
    (items : List OrderItem) :
    ∀ acc : Ran σ (List GoMap),
      skuResolved (items.foldl (itemLoopStep env codEmpresa codFornecedor) acc).trace =
        (skuResolved acc.trace || !(resolvedItems env codEmpresa acc.st items).isEmpty) := by
  induction items with
  | nil => intro acc; simp [resolvedItems]
  | cons item rest ih =>
    intro acc
    rw [List.foldl_cons, ih]
    cases hv : (getSKUFromDePara env acc.st (sprintfV env item.ItemID) codEmpresa).val with
    | error e =>
      simp [itemLoopStep, hv, resolvedItems, skuResolved_append,
        skuResolved_getSKUFromDePara_error hv]
    | ok sku =>
      simp [itemLoopStep, hv, resolvedItems, skuResolved_append,
        skuResolved_getSKUFromDePara_ok hv]

theorem skuResolved_itemLoop (env : Env σ) (s : σ) (codEmpresa codFornecedor : String)
    (items : List OrderItem) :
    skuResolved (itemLoop env s codEmpresa codFornecedor items).trace = false ↔
      resolvedItems env codEmpresa s items = [] := by
  rw [itemLoop, skuResolved_itemLoop_fold]
  simp [skuResolved]

theorem writeOps_of_writeEvents_nil {tr : List Event} (h : writeEvents tr = []) :
    writeOps tr = [] := by
  rw [← writeOps_writeEvents, h]
  rfl

theorem processItemsAndSendOrder_unresolved {env : Env σ} {s : σ} {order : MLOrder}
    {codEmpresa codFornecedor codCliente tokenNBS : String}
    (h : skuResolved (processItemsAndSendOrder env s order codEmpresa codFornecedor codCliente
      tokenNBS).trace = false) :
    writeOps (processItemsAndSendOrder env s order codEmpresa codFornecedor codCliente
      tokenNBS).trace = [] := by
  rcases processItemsAndSendOrder_cases env s order codEmpresa codFornecedor codCliente
    tokenNBS with ⟨_, _, htr⟩ | ⟨hne, res, htr, _⟩
  · rw [htr]
    exact writeOps_of_writeEvents_nil (itemLoop_writeEvents _ _ _ _ _)
  · exfalso
    apply hne
    rw [htr, skuResolved_append, Bool.or_eq_false_iff] at h
    rw [itemLoop_val, (skuResolved_itemLoop _ _ _ _ _).mp h.1]
    rfl

theorem registerClient_noSubmit (env : Env σ) (s : σ) (numPedido tokenML tokenNBS : String) :
    WriteOp.submitOrder ∉ writeOps (registerClient env s numPedido tokenML tokenNBS).trace := by
  rw [← writeOps_writeEvents]
  rcases registerClient_cases env s numPedido tokenML tokenNBS with ⟨h, _⟩ | ⟨b, r, h, _⟩
  · rw [h]; simp
  · rw [h]; simp [writeOp_cliente]

theorem registerAddress_noSubmit (env : Env σ) (s : σ) (numPedido tokenML tokenNBS : String) :
    WriteOp.submitOrder ∉ writeOps (registerAddress env s numPedido tokenML tokenNBS).trace := by
  rw [← writeOps_writeEvents]
  rcases registerAddress_cases env s numPedido tokenML tokenNBS with ⟨h, _⟩ | ⟨b, r, h, _⟩
  · rw [h]; simp
  · rw [h]; simp [writeOp_endereco]

theorem insertInitialStatus_noSubmit (env : Env σ) (s : σ)
    (numPedido conta tokenUser idShipping : String) :
    WriteOp.submitOrder ∉
      writeOps (insertInitialStatus env s numPedido conta tokenUser idShipping).trace := by
  rw [← writeOps_writeEvents, insertInitialStatus_writeEvents]
  simp [writeOp_insert]

theorem updateFinalStatus_noSubmit (env : Env σ) (s : σ)
    (numPedido numeroPedido tokenUser : String) :
    WriteOp.submitOrder ∉
      writeOps (updateFinalStatus env s numPedido numeroPedido tokenUser).trace := by
  rw [← writeOps_writeEvents, updateFinalStatus_writeEvents]
  simp [writeOp_update]

theorem processOrder_noSubmit (env : Env σ) (s : σ)
    (numPedido conta tokenML tokenUser : String)
    (hsku : skuResolved (processOrder env s numPedido conta tokenML tokenUser).trace = false) :
    WriteOp.submitOrder ∉ writeOps (processOrder env s numPedido conta tokenML tokenUser).trace := by
  generalize hR : processOrder env s numPedido conta tokenML tokenUser = R at hsku
  simp only [processOrder, failure] at hR
  repeat' split at hR
  all_goals subst hR
  all_goals simp only [skuResolved_append, Bool.or_eq_false_iff] at hsku
  all_goals simp only [writeOps_append, List.mem_append, not_or,
    writeOps_of_writeEvents_nil (getMLOrder_writeEvents _ _ _ _),
    writeOps_of_writeEvents_nil (getEmpresaFornecedor_writeEvents _ _ _ _),
    writeOps_of_writeEvents_nil (getNBSToken_writeEvents _ _ _),
    writeOps_of_writeEvents_nil (getMLClientData_writeEvents _ _ _ _),
    writeOps_of_writeEvents_nil (sendTelegramMessage_writeEvents _ _ _),
    List.not_mem_nil, not_false_eq_true, true_and, and_true]
  all_goals first
    | exact registerClient_noSubmit _ _ _ _ _
    | exact ⟨registerClient_noSubmit _ _ _ _ _, registerAddress_noSubmit _ _ _ _ _⟩
    | exact ⟨⟨registerClient_noSubmit _ _ _ _ _, registerAddress_noSubmit _ _ _ _ _⟩,
        insertInitialStatus_noSubmit _ _ _ _ _ _⟩
    | (refine ⟨⟨⟨registerClient_noSubmit _ _ _ _ _, registerAddress_noSubmit _ _ _ _ _⟩,
        insertInitialStatus_noSubmit _ _ _ _ _ _⟩, ?_⟩
       rw [processItemsAndSendOrder_unresolved hsku.2]
       exact List.not_mem_nil _)
    | (refine ⟨⟨⟨⟨registerClient_noSubmit _ _ _ _ _, registerAddress_noSubmit _ _ _ _ _⟩,
        insertInitialStatus_noSubmit _ _ _ _ _ _⟩, ?_⟩, updateFinalStatus_noSubmit _ _ _ _ _⟩
       rw [processItemsAndSendOrder_unresolved hsku.1.2]
       exact List.not_mem_nil _)
    | (refine ⟨⟨⟨⟨registerClient_noSubmit _ _ _ _ _, registerAddress_noSubmit _ _ _ _ _⟩,
        insertInitialStatus_noSubmit _ _ _ _ _ _⟩, ?_⟩, updateFinalStatus_noSubmit _ _ _ _ _⟩
       rw [processItemsAndSendOrder_unresolved hsku.1.1.2]
       exact List.not_mem_nil _)

theorem noSubmit_of_shape {env : Env σ} {numPedido tokenUser : String} {evs : List Event}
    {out : Option Bool} (hsh : WritesShape env numPedido tokenUser evs out)
    (H : ∀ o ∈ evs, o.writeOp ≠ some .submitOrder) :
    evs.filterMap Event.writeOp <+: [.registerCustomer, .registerAddress, .insertInitial] ∧
    out ≠ some true := by
  rcases hsh with ⟨hev, hout⟩ | ⟨c, hc, ⟨hev, hout⟩ | ⟨hfc, a, ha, ⟨hev, hout⟩ |
    ⟨hfa, i, hi, ⟨hev, hout⟩ | ⟨hfi, _, o, ho, ⟨hev, _⟩ |
      ⟨_, hd, body, text, r, err, _, _, _, hev, _⟩⟩⟩⟩⟩
  · rw [hev]; exact ⟨by decide, hout⟩
  · rw [hev, hout]
    simp only [List.filterMap_cons, List.filterMap_nil, hc]
    exact ⟨by decide, by decide⟩
  · rw [hev, hout]
    simp only [List.filterMap_cons, List.filterMap_nil, hc, ha]
    exact ⟨by decide, by decide⟩
  · rw [hev, hout]
    simp only [List.filterMap_cons, List.filterMap_nil, hc, ha, hi]
    exact ⟨by decide, by decide⟩
  · exact absurd ho (H o (by rw [hev]; simp))
  · exact absurd ho (H o (by rw [hev]; simp))

set_option maxRecDepth 8000 in

theorem resolvedItems_sublist (env : Env σ) (ce : String) (items : List OrderItem) :
    ∀ s, ((resolvedItems env ce s items).map Prod.fst).Sublist items := by
  induction items with
  | nil => intro s; simp [resolvedItems]
  | cons item rest ih =>
    intro s
    cases h : (getSKUFromDePara env s (sprintfV env item.ItemID) ce).val with
    | error e =>
      simp only [resolvedItems, h]
      exact (ih _).cons _
    | ok sku =>
      simp only [resolvedItems, h, List.map_cons]
      exact (ih _).cons₂ _

set_option maxRecDepth 8000 in

set_option maxRecDepth 8000 in

/-! ### Decimal rendering of document numbers -/

theorem toDigitsCore_ne_nil (fuel n : Nat) (acc : List Char) (h : acc ≠ [] ∨ 0 < fuel) :
    Nat.toDigitsCore 10 fuel n acc ≠ [] := by
  induction fuel generalizing n acc with
  | zero =>
    rcases h with h | h
    · simpa [Nat.toDigitsCore] using h
    · exact absurd h (Nat.lt_irrefl 0)
  | succ f ih =>
    simp only [Nat.toDigitsCore]
    split
    · simp
    · exact ih _ _ (Or.inl (by simp))

theorem toString_data_ne_nil (n : Nat) : (toString n).data ≠ [] := by
  show (Nat.repr n).data ≠ []
  simp only [Nat.repr, Nat.toDigits, List.asString]
  exact toDigitsCore_ne_nil _ _ _ (Or.inr (Nat.succ_pos n))

theorem toString_nat_ne_empty (n : Nat) : ¬ toString n = "" := by
  intro h
  exact toString_data_ne_nil n (by rw [h])

theorem fmtFixed_zero_nat (n : Nat) : fmtFixed 0 ⟨false, n, 0⟩ = toString n := by
  have hr : roundScaled 0 ⟨false, n, 0⟩ = n := by simp [roundScaled, Nat.mod_one]
  have hl : 1 - (toString n).data.length = 0 := by
    have := toString_data_ne_nil n
    have : 0 < (toString n).data.length := List.length_pos.mpr this
    omega
  simp only [fmtFixed, hr, Nat.zero_add, hl, List.replicate_zero, List.nil_append,
    Nat.sub_zero, List.take_length, if_true, Bool.false_eq_true, if_false]
  simp

theorem startsWith_split (p : List Char) :
    ∀ s : List Char, startsWith p s = true ↔ ∃ t, s = p ++ t := by
  induction p with
  | nil => intro s; simp [startsWith]
  | cons a p ih =>
    intro s
    cases s with
    | nil => simp [startsWith]
    | cons b s =>
      simp only [startsWith, Bool.and_eq_true, decide_eq_true_eq, ih, List.cons_append,
        List.cons.injEq]
      constructor
      · rintro ⟨rfl, t, rfl⟩
        exact ⟨t, rfl, rfl⟩
      · rintro ⟨t, rfl, rfl⟩
        exact ⟨rfl, t, rfl⟩

theorem indexChars_isSome_iff (sub : List Char) :
    ∀ s : List Char, (indexChars sub s).isSome = true ↔ ∃ u v, s = u ++ sub ++ v := by
  intro s
  induction s with
  | nil =>
    cases sub with
    | nil => simp [indexChars]
    | cons c sub => simp [indexChars]
  | cons c s ih =>
    by_cases hs : startsWith sub (c :: s) = true
    · simp only [indexChars, hs, if_true, Option.isSome_some, true_iff]
      obtain ⟨t, ht⟩ := (startsWith_split sub (c :: s)).mp hs
      exact ⟨[], t, by simpa using ht⟩
    · simp only [indexChars, hs, Bool.false_eq_true, if_false, Option.isSome_map', ih]
      constructor
      · rintro ⟨u, v, rfl⟩
        exact ⟨c :: u, v, by simp⟩
      · rintro ⟨u, v, h⟩
        cases u with
        | nil =>
          exfalso
          apply hs
          exact (startsWith_split sub (c :: s)).mpr ⟨v, by simpa using h⟩
        | cons d u =>
          simp only [List.cons_append, List.cons.injEq] at h
          exact ⟨u, v, by simpa using h.2⟩

theorem stringsContains_iff (s sub : String) :
    stringsContains s sub = true ↔ ∃ u v : String, s = u ++ sub ++ v := by
  simp only [stringsContains, indexChars_isSome_iff]
  constructor
  · rintro ⟨u, v, h⟩
    refine ⟨⟨u⟩, ⟨v⟩, ?_⟩
    apply String.ext
    simpa [String.data_append] using h
  · rintro ⟨u, v, rfl⟩
    exact ⟨u.data, v.data, by simp [String.data_append]⟩

theorem validadorPeca_first (item : MLItem) (pre post : List MLAttribute) (a : MLAttribute)
    (h : item.Attributes = pre ++ a :: post) (hpre : ∀ b ∈ pre, b.Name ≠ "MPN")
    (ha : a.Name = "MPN") : validadorPeca item = a.ValueName := by
  have hf : item.Attributes.find? (fun b => decide (b.Name = "MPN")) = some a := by
    rw [h]
    clear h
    induction pre with
    | nil => simp [List.find?, ha]
    | cons b pre ih =>
      have hb : ¬ b.Name = "MPN" := hpre b (List.mem_cons_self _ _)
      simp only [List.cons_append, List.find?, hb, decide_False]
      exact ih (fun c hc => hpre c (List.mem_cons_of_mem _ hc))
  simp only [validadorPeca, hf]

theorem validadorPeca_absent (item : MLItem) (h : ∀ b ∈ item.Attributes, b.Name ≠ "MPN") :
    validadorPeca item = "" := by
  have hf : item.Attributes.find? (fun b => decide (b.Name = "MPN")) = none := by
    rw [List.find?_eq_none]
    intro b hb
    simpa using h b hb
  simp only [validadorPeca, hf]

/-! ### Marker-based token extraction -/

theorem cutAtFirst_eq_index (sub : List Char) (s : List Char) :
    cutAtFirst sub s =
      (indexChars sub s).map (fun i => (s.take i, s.drop (i + sub.length))) := by
  induction s with
  | nil =>
    simp only [cutAtFirst, indexChars]
    split <;> simp
  | cons c s ih =>
    simp only [cutAtFirst, indexChars]
    split
    · simp
    · rw [ih]
      cases indexChars sub s with
      | none => simp
      | some i => simp [Nat.add_right_comm i 1 sub.length]

/-- The first cut splits the text around an occurrence of the marker. -/
theorem cutAtFirst_split (sub : List Char) :
    ∀ (s pre post : List Char), cutAtFirst sub s = some (pre, post) → s = pre ++ sub ++ post
  | [], pre, post, h => by
    simp only [cutAtFirst] at h
    split at h
    · rename_i he
      simp only [Option.some.injEq, Prod.mk.injEq] at h
      obtain ⟨rfl, rfl⟩ := h
      simpa using he
    · simp at h
  | c :: s, pre, post, h => by
    simp only [cutAtFirst] at h
    split at h
    · rename_i hs
      simp only [Option.some.injEq, Prod.mk.injEq] at h
      obtain ⟨rfl, rfl⟩ := h
      have key : ∀ (p t : List Char), startsWith p t = true → t = p ++ t.drop p.length := by
        intro p
        induction p with
        | nil => intro t _; simp
        | cons a p ihp =>
          intro t ht
          cases t with
          | nil => simp [startsWith] at ht
          | cons b t =>
            simp only [startsWith, Bool.and_eq_true, decide_eq_true_eq] at ht
            obtain ⟨rfl, ht⟩ := ht
            simp only [List.length_cons, List.drop_succ_cons, List.cons_append, List.cons.injEq,
              true_and]
            exact ihp t ht
      simpa using key sub (c :: s) hs
    · cases hc : cutAtFirst sub s with
      | none => simp [hc] at h
      | some p =>
        simp only [hc, Option.map_some', Option.some.injEq, Prod.mk.injEq] at h
        obtain ⟨rfl, rfl⟩ := h
        have := cutAtFirst_split sub s p.1 p.2 (by rw [hc])
        simp only [List.cons_append, List.cons.injEq, true_and]
        exact this

theorem startsWith_self_append (p t : List Char) : startsWith p (p ++ t) = true := by
  induction p with
  | nil => simp [startsWith]
  | cons a p ih => simp [startsWith, ih]

/-- Without a cut the marker does not occur in the text. -/
theorem cutAtFirst_none (sub : List Char) :
    ∀ (s pre post : List Char), cutAtFirst sub s = none → s ≠ pre ++ sub ++ post
  | [], pre, post, h => by
    simp only [cutAtFirst] at h
    split at h
    · simp at h
    · rename_i he
      intro hs
      have : sub = [] := by
        have h2 := congrArg List.length hs
        simp only [List.length_nil, List.length_append] at h2
        exact List.length_eq_zero.mp (by omega)
      exact he (by simp [this])
  | c :: s, pre, post, h => by
    simp only [cutAtFirst] at h
    split at h
    · simp at h
    · rename_i hs
      simp only [Option.map_eq_none'] at h
      intro heq
      cases pre with
      | nil =>
        simp only [List.nil_append] at heq
        rw [heq, startsWith_self_append] at hs
        exact hs rfl
      | cons a pre =>
        simp only [List.cons_append, List.cons.injEq] at heq
        exact cutAtFirst_none sub s pre post h heq.2

/-- The cut is at the first occurrence: the marker does not occur further to the left. -/
theorem cutAtFirst_first (sub : List Char) :
    ∀ (s pre post pre2 post2 : List Char), cutAtFirst sub s = some (pre, post) →
      s = pre2 ++ sub ++ post2 → pre.length ≤ pre2.length
  | [], pre, post, pre2, post2, h, _ => by
    simp only [cutAtFirst] at h
    split at h
    · simp only [Option.some.injEq, Prod.mk.injEq] at h
      simp [← h.1]
    · simp at h
  | c :: s, pre, post, pre2, post2, h, heq => by
    simp only [cutAtFirst] at h
    split at h
    · simp only [Option.some.injEq, Prod.mk.injEq] at h
      simp [← h.1]
    · rename_i hs
      cases hc : cutAtFirst sub s with
      | none => simp [hc] at h
      | some p =>
        simp only [hc, Option.map_some', Option.some.injEq, Prod.mk.injEq] at h
        obtain ⟨rfl, rfl⟩ := h
        cases pre2 with
        | nil =>
          simp only [List.nil_append] at heq
          rw [heq, startsWith_self_append] at hs
          exact absurd rfl hs
        | cons a pre2 =>
          simp only [List.cons_append, List.cons.injEq] at heq
          have := cutAtFirst_first sub s p.1 p.2 pre2 post2 (by rw [hc]) heq.2
          simp only [List.length_cons]
          omega

theorem getMLToken_marker (env : Env σ) (s : σ) (conta : String) (status : Nat)
    (content : String) (hford : conta ≠ "ford")
    (hurl : env.urlError ("https://imgs-amz.s3.us-east-1.amazonaws.com/tk/" ++ stringsReplaceOnce ("tk" ++ conta) "principal" "amz" ++ ".html") = none)
    (hresp : (env.httpDo s
      (httpGet ("https://imgs-amz.s3.us-east-1.amazonaws.com/tk/" ++ stringsReplaceOnce ("tk" ++ conta) "principal" "amz" ++ ".html"))).1 =
        .resp status (.ok content)) :
    (markerToken content = none ∧ ∃ e, (getMLToken env s conta).val = .error e) ∨
    (∃ tok, markerToken content = some tok ∧
      (getMLToken env s conta).val = .ok (tok, lastDashSegment tok)) := by
  simp only [getMLToken, hford, if_false, hurl, doHTTP, hresp, markerToken, cutAtFirst_eq_index,
    stringsIndex]
  cases h1 : indexChars "y>".data content.data with
  | none =>
    left
    simp
  | some i =>
    have hi : ¬ ((i : Int) + 2 < 2) := by omega
    have hn : ((i : Int) + 2).toNat = i + 2 := by omega
    simp only [Option.map_some', hi, if_false, hn, sliceFrom]
    have hl : "y>".data.length = 2 := rfl
    rw [hl]
    cases h2 : indexChars "</".data (List.drop (i + 2) content.data) with
    | none =>
      left
      simp
    | some j =>
      right
      have hj : ¬ ((j : Int) = -1) := by omega
      simp [hj, sliceTo]

theorem getMLToken_trace (env : Env σ) (s : σ) (conta : String) :
    ∀ ev ∈ (getMLToken env s conta).trace, ∃ url res, ev = Event.http (httpGet url) res ∧
      startsWith "https://imgs-amz.s3.us-east-1.amazonaws.com/tk/".data url.data = true := by
  have hu : ∀ (x ext : String), startsWith "https://imgs-amz.s3.us-east-1.amazonaws.com/tk/".data
      ("https://imgs-amz.s3.us-east-1.amazonaws.com/tk/" ++ x ++ ext).data = true := by
    intro x ext
    rw [String.data_append, String.data_append, List.append_assoc]
    exact startsWith_append_true _ _ _ (by decide)
  generalize h : getMLToken env s conta = r
  simp only [getMLToken] at h
  repeat' split at h
  all_goals subst h
  all_goals simp only [doHTTP, List.mem_nil_iff, List.mem_singleton, false_imp_iff,
    implies_true, forall_eq]
  all_goals exact ⟨_, _, rfl, hu _ _⟩

/-! ### Counting Notifier messages -/

theorem notifierCount_append (a b : List Event) :
    notifierCount (a ++ b) = notifierCount a + notifierCount b := by
  simp [notifierCount]

theorem notifierCount_nil : notifierCount [] = 0 := rfl

theorem isNotifier_get (url : String) (res : HttpResult) :
    (Event.http (httpGet url) res).isNotifier = false := by
  simp [Event.isNotifier, httpGet]

theorem isNotifier_bearer (url tokenML : String) (res : HttpResult) :
    (Event.http (mlBearerRequest url tokenML) res).isNotifier = false := by
  simp [Event.isNotifier, mlBearerRequest]

theorem isNotifier_orderRequest (url : String) (res : HttpResult) :
    (Event.http (mlOrderRequest url) res).isNotifier = false := by
  simp [Event.isNotifier, mlOrderRequest]

theorem isNotifier_tokenURL (conta : String) (hdrs : List (String × String))
    (body : Option JSONValue) (res : HttpResult) :
    (Event.http ⟨"POST", "http://10.13.1.19:8080/nbsapi-gateway/token?usuario=" ++ conta ++
      "&senha=nbsapi&idioma=PT&pacote=HYSTALO", hdrs, body⟩ res).isNotifier = false := by
  have h : startsWith "https://api.telegram.org/bot".data
      ("http://10.13.1.19:8080/nbsapi-gateway/token?usuario=" ++ conta ++
      "&senha=nbsapi&idioma=PT&pacote=HYSTALO").data = false := by
    rw [String.data_append, String.data_append, List.append_assoc]
    exact startsWith_append_false _ _ _ (by decide)
  simp only [Event.isNotifier, h]
  simp

theorem isNotifier_telegram (tok : String) (hdrs : List (String × String))
    (body : Option JSONValue) (res : HttpResult) :
    (Event.http ⟨"POST", "https://api.telegram.org/bot" ++ tok ++ "/sendMessage", hdrs, body⟩
      res).isNotifier = true := by
  have h : startsWith "https://api.telegram.org/bot".data
      ("https://api.telegram.org/bot" ++ tok ++ "/sendMessage").data = true := by
    rw [String.data_append, String.data_append, List.append_assoc]
    exact startsWith_append_true _ _ _ (by decide)
  simp only [Event.isNotifier, h]
  simp

theorem isNotifier_erp (url : String) (hdrs : List (String × String))
    (body : Option JSONValue) (res : HttpResult)
    (h : url = urlCliente ∨ url = urlEndereco ∨ url = urlPedidoEnvio) :
    (Event.http ⟨"POST", url, hdrs, body⟩ res).isNotifier = false := by
  rcases h with rfl | rfl | rfl <;> simp only [Event.isNotifier] <;> decide

theorem isNotifier_query (db : DB) (sql : String) (args : List String) (res : QueryReply) :
    (Event.query db sql args res).isNotifier = false := rfl

theorem isNotifier_exec (db : DB) (sql : String) (args : List String) (err : Option GoError) :
    (Event.exec db sql args err).isNotifier = false := rfl

theorem notifierCount_of_noHTTP (tr : List Event) (h : ∀ e ∈ tr, e.isHTTP = false) :
    notifierCount tr = 0 := by
  simp only [notifierCount, List.countP_eq_zero]
  intro e he
  have := h e he
  cases e <;> simp_all [Event.isHTTP, Event.isNotifier]

theorem getMLToken_notifier (env : Env σ) (s : σ) (conta : String) :
    notifierCount (getMLToken env s conta).trace = 0 := by
  generalize h : getMLToken env s conta = r
  simp only [getMLToken] at h
  repeat' split at h
  all_goals subst h
  all_goals simp [doHTTP, notifierCount, isNotifier_get]

theorem getMLOrder_notifier (env : Env σ) (s : σ) (numPedido tokenML : String) :
    notifierCount (getMLOrder env s numPedido tokenML).trace = 0 := by
  generalize h : getMLOrder env s numPedido tokenML = r
  simp only [getMLOrder] at h
  repeat' split at h
  all_goals subst h
  all_goals simp [doHTTP, notifierCount, isNotifier_orderRequest]

theorem getEmpresaFornecedor_notifier (env : Env σ) (s : σ) (mlbItem conta : String) :
    notifierCount (getEmpresaFornecedor env s mlbItem conta).trace = 0 := by
  generalize h : getEmpresaFornecedor env s mlbItem conta = r
  simp only [getEmpresaFornecedor] at h
  repeat' split at h
  all_goals subst h
  all_goals simp [doHTTP, doQuery, notifierCount, isNotifier_get, isNotifier_query]

theorem getNBSToken_notifier (env : Env σ) (s : σ) (codEmpresa : String) :
    notifierCount (getNBSToken env s codEmpresa).trace = 0 := by
  generalize h : getNBSToken env s codEmpresa = r
  simp only [getNBSToken] at h
  repeat' split at h
  all_goals subst h
  all_goals simp only [doHTTP, notifierCount, List.countP_nil, List.countP_cons,
    isNotifier_tokenURL, Bool.false_eq_true, if_false, Nat.add_zero]

theorem getMLClientData_notifier (env : Env σ) (s : σ) (numPedido tokenML : String) :
    notifierCount (getMLClientData env s numPedido tokenML).trace = 0 := by
  generalize h : getMLClientData env s numPedido tokenML = r
  simp only [getMLClientData] at h
  repeat' split at h
  all_goals subst h
  all_goals simp [doHTTP, notifierCount, isNotifier_bearer]

theorem registerClient_notifier (env : Env σ) (s : σ) (numPedido tokenML tokenNBS : String) :
    notifierCount (registerClient env s numPedido tokenML tokenNBS).trace = 0 := by
  generalize h : registerClient env s numPedido tokenML tokenNBS = r
  simp only [registerClient] at h
  repeat' split at h
  all_goals subst h
  all_goals simp only [notifierCount_append, getMLClientData_notifier, doHTTP, Nat.zero_add]
  all_goals simp [notifierCount, isNotifier_erp]

theorem registerAddress_notifier (env : Env σ) (s : σ) (numPedido tokenML tokenNBS : String) :
    notifierCount (registerAddress env s numPedido tokenML tokenNBS).trace = 0 := by
  generalize h : registerAddress env s numPedido tokenML tokenNBS = r
  simp only [registerAddress] at h
  repeat' split at h
  all_goals subst h
  all_goals simp only [notifierCount_append, getMLClientData_notifier, doHTTP, Nat.zero_add]
  all_goals simp [notifierCount, isNotifier_erp]

theorem processItemsAndSendOrder_notifier (env : Env σ) (s : σ) (order : MLOrder)
    (ce cf cc tk : String) :
    notifierCount (processItemsAndSendOrder env s order ce cf cc tk).trace = 0 := by
  have hl := notifierCount_of_noHTTP _ (itemLoop_noHTTP env s ce cf order.OrderItems)
  generalize h : processItemsAndSendOrder env s order ce cf cc tk = r
  simp only [processItemsAndSendOrder] at h
  repeat' split at h
  all_goals subst h
  all_goals simp only [notifierCount_append, hl, doHTTP, Nat.zero_add]
  all_goals simp [notifierCount, isNotifier_erp]

theorem sendTelegramMessage_notifier (env : Env σ) (s : σ) (message : String) :
    notifierCount (sendTelegramMessage env s message).trace = 1 := by
  simp only [sendTelegramMessage, doHTTP, notifierCount, List.countP_cons, List.countP_nil,
    isNotifier_telegram, if_true, Nat.zero_add]

theorem insertInitialStatus_notifier (env : Env σ) (s : σ) (a b c d : String) :
    notifierCount (insertInitialStatus env s a b c d).trace = 0 := by
  simp [insertInitialStatus, doExec, notifierCount, isNotifier_exec]

theorem updateFinalStatus_notifier (env : Env σ) (s : σ) (a b c : String) :
    notifierCount (updateFinalStatus env s a b c).trace = 0 := by
  simp [updateFinalStatus, doExec, notifierCount, isNotifier_exec]

theorem finalSuccessMessage_notifier (env : Env σ) (s : σ) (req : IntegrationRequest)
    (results : List GoMap) :
    notifierCount (finalSuccessMessage env s req results).trace = 0 := by
  generalize h : finalSuccessMessage env s req results = r
  simp only [finalSuccessMessage] at h
  repeat' split at h
  all_goals subst h
  all_goals simp [notifierCount_append, getMLToken_notifier, getMLClientData_notifier,
    getMLOrder_notifier]

theorem processOrder_notifier (env : Env σ) (s : σ) (numPedido conta tokenML tokenUser : String)
    (r : IntegrationResponse) (l : List IntegrationLogEntry)
    (h : (processOrder env s numPedido conta tokenML tokenUser).val = some (r, l)) :
    (r.SuccessCount = 0 ∧
      notifierCount (processOrder env s numPedido conta tokenML tokenUser).trace = 0) ∨
    (r.SuccessCount = 1 ∧
      notifierCount (processOrder env s numPedido conta tokenML tokenUser).trace = 1) := by
  generalize hR : processOrder env s numPedido conta tokenML tokenUser = R at h
  simp only [processOrder, failure] at hR
  repeat' split at hR
  all_goals subst hR
  all_goals (simp only [Option.some.injEq, Prod.mk.injEq, reduceCtorEq] at h)
  all_goals (
    obtain ⟨rfl, rfl⟩ := h
    simp [notifierCount_append, notifierCount_nil, getMLOrder_notifier,
      getEmpresaFornecedor_notifier, getNBSToken_notifier, getMLClientData_notifier,
      registerClient_notifier, registerAddress_notifier, processItemsAndSendOrder_notifier,
      sendTelegramMessage_notifier, insertInitialStatus_notifier, updateFinalStatus_notifier])

/-! ### Invoice Sync: every record of a batch is started -/

theorem dispatchStatus_logs (w : XMLIntegrator.World σ) (svc : XMLIntegrator.Service)
    (token : String) (pedido : XMLIntegrator.PedidoInfo) (xmlData : XMLIntegrator.OracleXMLData)
    (mlStatus : XMLIntegrator.MLResponse) (a : XMLIntegrator.Acc σ) :
    (XMLIntegrator.dispatchStatus w svc token pedido xmlData mlStatus a).logs.filter
        (fun l => l.Step = "Processamento") =
      a.logs.filter (fun l => l.Step = "Processamento") := by
  generalize h : XMLIntegrator.dispatchStatus w svc token pedido xmlData mlStatus a = r
  simp only [XMLIntegrator.dispatchStatus] at h
  repeat' split at h
  all_goals subst h
  all_goals simp [List.filter_append, List.filter_cons]

theorem processPedido_started (w : XMLIntegrator.World σ) (svc : XMLIntegrator.Service)
    (token : String) (acc : XMLIntegrator.Acc σ) (pedido : XMLIntegrator.PedidoInfo) :
    (XMLIntegrator.processPedido w svc token acc pedido).logs.filter
        (fun l => l.Step = "Processamento") =
      acc.logs.filter (fun l => l.Step = "Processamento") ++
        [XMLIntegrator.startedEntry pedido] := by
  generalize h : XMLIntegrator.processPedido w svc token acc pedido = r
  simp only [XMLIntegrator.processPedido] at h
  repeat' split at h
  all_goals subst h
  all_goals simp [dispatchStatus_logs, List.filter_append, List.filter_cons,
    XMLIntegrator.startedEntry]

theorem pedidoLoop_started (w : XMLIntegrator.World σ) (svc : XMLIntegrator.Service)
    (token : String) (pedidos : List XMLIntegrator.PedidoInfo) :
    ∀ init : XMLIntegrator.Acc σ,
      (XMLIntegrator.pedidoLoop w svc token pedidos init).logs.filter
          (fun l => l.Step = "Processamento") =
        init.logs.filter (fun l => l.Step = "Processamento") ++
          pedidos.map XMLIntegrator.startedEntry := by
  induction pedidos with
  | nil => intro init; simp [XMLIntegrator.pedidoLoop]
  | cons p rest ih =>
    intro init
    have := ih (XMLIntegrator.processPedido w svc token init p)
    simp only [XMLIntegrator.pedidoLoop, List.foldl_cons] at this ⊢
    rw [this, processPedido_started]
    simp

/-! ### Invoice Sync: the ledger update -/

theorem updatePostgresStatus_trace (w : XMLIntegrator.World σ) (svc : XMLIntegrator.Service)
    (s : σ) (numPrenota numNotaFiscal xmlData status : String) (hpg : svc.pgDB = true) :
    (XMLIntegrator.updatePostgresStatus w svc s numPrenota numNotaFiscal xmlData status).trace =
      [.exec XMLIntegrator.sqlUpdateStatus [xmlData, numNotaFiscal, status, numPrenota]
        (w.execUpdate s XMLIntegrator.sqlUpdateStatus
          [xmlData, numNotaFiscal, status, numPrenota]).1] := by
  simp only [XMLIntegrator.updatePostgresStatus, hpg, Bool.not_true, Bool.false_eq_true,
    if_false]
  cases (w.execUpdate s XMLIntegrator.sqlUpdateStatus
    [xmlData, numNotaFiscal, status, numPrenota]).1 <;> rfl

theorem updatePostgresStatus_ok (w : XMLIntegrator.World σ) (svc : XMLIntegrator.Service)
    (s s2 : σ) (numPrenota numNotaFiscal xmlData status : String) (hpg : svc.pgDB = true)
    (hu : w.execUpdate s XMLIntegrator.sqlUpdateStatus
      [xmlData, numNotaFiscal, status, numPrenota] = (none, s2)) :
    XMLIntegrator.updatePostgresStatus w svc s numPrenota numNotaFiscal xmlData status =
      ⟨none, [.exec XMLIntegrator.sqlUpdateStatus [xmlData, numNotaFiscal, status, numPrenota]
        none], s2⟩ := by
  simp [XMLIntegrator.updatePostgresStatus, hpg, hu]

/-! ### The two forms of `additional_info` -/

theorem addInfoItem_pair (m : GoMap) (p : String × String) :
    addInfoItem m (.obj [("name", .str p.1), ("value", .str p.2)]) = m ++ [(p.1, .str p.2)] := by
  simp [addInfoItem, GoMap.getString, GoMap.get, GoMap.set]

theorem foldl_addInfoItem_pairs (pairs : List (String × String)) :
    ∀ acc : GoMap,
      (pairs.map (fun p => JSONValue.obj [("name", .str p.1), ("value", .str p.2)])).foldl
        addInfoItem acc = acc ++ pairs.map (fun p => (p.1, JSONValue.str p.2)) := by
  induction pairs with
  | nil => intro acc; simp
  | cons p rest ih =>
    intro acc
    rw [List.map_cons, List.foldl_cons, addInfoItem_pair, ih]
    simp

/-! ### The payload of the order submission -/

theorem submittedPayloads_append (a b : List Event) :
    submittedPayloads (a ++ b) = submittedPayloads a ++ submittedPayloads b := by
  simp [submittedPayloads]

theorem submittedPayloads_of_noHTTP (tr : List Event) (h : ∀ e ∈ tr, e.isHTTP = false) :
    submittedPayloads tr = [] := by
  simp only [submittedPayloads, List.filterMap_eq_nil_iff]
  intro e he
  have := h e he
  cases e <;> simp_all [Event.isHTTP]

theorem dataPedidoMap_fields (order : MLOrder) (ce cc : String) (items : List GoMap) :
    (dataPedidoMap order ce cc items).get "COD_CLIENTE" = some (.str cc) ∧
    (dataPedidoMap order ce cc items).get "COD_PEDIDO_WEB" = some (jsonInt 1005502702) ∧
    payloadCardNumber (dataPedidoMap order ce cc items) = some (.str "9999999999999999") := by
  simp [dataPedidoMap, GoMap.get, payloadCardNumber]

/-! ### Invoice Sync: what the Notifier message does not touch -/

theorem telegram_not_marketplace (tok : String) :
    startsWith "https://api.mercadolibre.com/".data
      ("https://api.telegram.org/bot" ++ tok ++ "/sendMessage").data = false := by
  rw [String.data_append, String.data_append, List.append_assoc]
  exact startsWith_append_false _ _ _ (by decide)

theorem marketplaceCalls_telegram (tok : String) (hdrs : List (String × String))
    (body : Option JSONValue) (res : HttpResult) :
    XMLIntegrator.marketplaceCalls [XMLIntegrator.Exchange.http
      ⟨"POST", "https://api.telegram.org/bot" ++ tok ++ "/sendMessage", hdrs, body⟩ res] =
      [] := by
  have h := telegram_not_marketplace tok
  unfold XMLIntegrator.marketplaceCalls
  rw [List.filterMap_cons]
  dsimp only
  rw [h]
  rfl

theorem xml_sendTelegramMessage_quiet (w : XMLIntegrator.World σ) (s : σ) (message : String) :
    XMLIntegrator.ledgerUpdates (XMLIntegrator.sendTelegramMessage w s message).trace = [] ∧
    XMLIntegrator.marketplaceCalls (XMLIntegrator.sendTelegramMessage w s message).trace = [] ∧
    XMLIntegrator.broadcasts (XMLIntegrator.sendTelegramMessage w s message).trace = [] := by
  refine ⟨?_, ?_, ?_⟩
  · simp [XMLIntegrator.sendTelegramMessage, XMLIntegrator.doHTTP, XMLIntegrator.ledgerUpdates]
  · simp only [XMLIntegrator.sendTelegramMessage, XMLIntegrator.doHTTP,
      marketplaceCalls_telegram]
  · simp [XMLIntegrator.sendTelegramMessage, XMLIntegrator.doHTTP, XMLIntegrator.broadcasts]

theorem xml_ledgerUpdates_append (a b : List XMLIntegrator.Exchange) :
    XMLIntegrator.ledgerUpdates (a ++ b) =
      XMLIntegrator.ledgerUpdates a ++ XMLIntegrator.ledgerUpdates b := by
  simp [XMLIntegrator.ledgerUpdates]

theorem xml_marketplaceCalls_append (a b : List XMLIntegrator.Exchange) :
    XMLIntegrator.marketplaceCalls (a ++ b) =
      XMLIntegrator.marketplaceCalls a ++ XMLIntegrator.marketplaceCalls b := by
  simp [XMLIntegrator.marketplaceCalls]

theorem xml_broadcasts_append (a b : List XMLIntegrator.Exchange) :
    XMLIntegrator.broadcasts (a ++ b) =
      XMLIntegrator.broadcasts a ++ XMLIntegrator.broadcasts b := by
  simp [XMLIntegrator.broadcasts]

/-! ### Invoice Sync: what is pushed to the hub -/

theorem xml_getXMLDataFromOracle_broadcasts (w : XMLIntegrator.World σ)
    (svc : XMLIntegrator.Service) (s : σ) (cod : String) :
    XMLIntegrator.broadcasts (XMLIntegrator.getXMLDataFromOracle w svc s cod).trace = [] := by
  generalize h : XMLIntegrator.getXMLDataFromOracle w svc s cod = r
  simp only [XMLIntegrator.getXMLDataFromOracle] at h
  repeat' split at h
  all_goals subst h
  all_goals simp [XMLIntegrator.broadcasts]

theorem xml_updatePostgresStatus_broadcasts (w : XMLIntegrator.World σ)
    (svc : XMLIntegrator.Service) (s : σ) (a b c d : String) :
    XMLIntegrator.broadcasts (XMLIntegrator.updatePostgresStatus w svc s a b c d).trace = [] := by
  generalize h : XMLIntegrator.updatePostgresStatus w svc s a b c d = r
  simp only [XMLIntegrator.updatePostgresStatus] at h
  repeat' split at h
  all_goals subst h
  all_goals simp [XMLIntegrator.broadcasts]

theorem xml_getMLShipmentStatus_broadcasts (w : XMLIntegrator.World σ) (s : σ)
    (numEnvio token : String) :
    XMLIntegrator.broadcasts (XMLIntegrator.getMLShipmentStatus w s numEnvio token).trace = [] := by
  generalize h : XMLIntegrator.getMLShipmentStatus w s numEnvio token = r
  simp only [XMLIntegrator.getMLShipmentStatus] at h
  repeat' split at h
  all_goals subst h
  all_goals simp [XMLIntegrator.broadcasts, XMLIntegrator.doHTTP]

theorem xml_sendXMLToML_broadcasts (w : XMLIntegrator.World σ) (s : σ)
    (numEnvio xmlData token : String) :
    XMLIntegrator.broadcasts (XMLIntegrator.sendXMLToML w s numEnvio xmlData token).trace = [] := by
  generalize h : XMLIntegrator.sendXMLToML w s numEnvio xmlData token = r
  simp only [XMLIntegrator.sendXMLToML] at h
  repeat' split at h
  all_goals subst h
  all_goals simp [XMLIntegrator.broadcasts, XMLIntegrator.doHTTP]

theorem xml_getMLToken_broadcasts (w : XMLIntegrator.World σ) (s : σ) (nomEmpresa : String) :
    XMLIntegrator.broadcasts (XMLIntegrator.getMLToken w s nomEmpresa).trace = [] := by
  generalize h : XMLIntegrator.getMLToken w s nomEmpresa = r
  simp only [XMLIntegrator.getMLToken] at h
  repeat' split at h
  all_goals subst h
  all_goals simp [XMLIntegrator.broadcasts, XMLIntegrator.doHTTP]

theorem xml_getPedidos_broadcasts (w : XMLIntegrator.World σ) (svc : XMLIntegrator.Service)
    (s : σ) (numPedido : String) :
    XMLIntegrator.broadcasts (XMLIntegrator.getPedidosFromPostgres w svc s numPedido).trace =
      [] := by
  generalize h : XMLIntegrator.getPedidosFromPostgres w svc s numPedido = r
  simp only [XMLIntegrator.getPedidosFromPostgres] at h
  repeat' split at h
  all_goals subst h
  all_goals simp [XMLIntegrator.broadcasts]

theorem xml_dispatchStatus_broadcasts (w : XMLIntegrator.World σ) (svc : XMLIntegrator.Service)
    (token : String) (pedido : XMLIntegrator.PedidoInfo) (xmlData : XMLIntegrator.OracleXMLData)
    (mlStatus : XMLIntegrator.MLResponse) (a : XMLIntegrator.Acc σ) :
    XMLIntegrator.broadcasts
        (XMLIntegrator.dispatchStatus w svc token pedido xmlData mlStatus a).trace =
      XMLIntegrator.broadcasts a.trace := by
  generalize h : XMLIntegrator.dispatchStatus w svc token pedido xmlData mlStatus a = r
  simp only [XMLIntegrator.dispatchStatus] at h
  repeat' split at h
  all_goals subst h
  all_goals simp only [xml_broadcasts_append, xml_sendXMLToML_broadcasts,
    xml_updatePostgresStatus_broadcasts, List.append_nil]

theorem xml_processPedido_broadcasts (w : XMLIntegrator.World σ) (svc : XMLIntegrator.Service)
    (token : String) (acc : XMLIntegrator.Acc σ) (pedido : XMLIntegrator.PedidoInfo) :
    XMLIntegrator.broadcasts (XMLIntegrator.processPedido w svc token acc pedido).trace =
      XMLIntegrator.broadcasts acc.trace := by
  generalize h : XMLIntegrator.processPedido w svc token acc pedido = r
  simp only [XMLIntegrator.processPedido] at h
  repeat' split at h
  all_goals subst h
  all_goals simp only [xml_dispatchStatus_broadcasts, xml_broadcasts_append,
    xml_getXMLDataFromOracle_broadcasts, xml_updatePostgresStatus_broadcasts,
    xml_getMLShipmentStatus_broadcasts, (xml_sendTelegramMessage_quiet _ _ _).2.2,
    List.append_nil]

theorem xml_pedidoLoop_broadcasts (w : XMLIntegrator.World σ) (svc : XMLIntegrator.Service)
    (token : String) (pedidos : List XMLIntegrator.PedidoInfo) :
    ∀ init : XMLIntegrator.Acc σ,
      XMLIntegrator.broadcasts (XMLIntegrator.pedidoLoop w svc token pedidos init).trace =
        XMLIntegrator.broadcasts init.trace := by
  induction pedidos with
  | nil => intro init; rfl
  | cons p rest ih =>
    intro init
    have := ih (XMLIntegrator.processPedido w svc token init p)
    simp only [XMLIntegrator.pedidoLoop, List.foldl_cons] at this ⊢
    rw [this, xml_processPedido_broadcasts]

/-! ### The log hub -/

theorem hub_broadcastTo_wf (message : String) (c : Hub.Client) (hcap : c.cap = 256)
    (hcl : c.closed = !c.registered) :
    Hub.broadcastTo message c = some (Hub.afterBroadcast message c) := by
  cases hr : c.registered
  · simp [Hub.broadcastTo, Hub.afterBroadcast, hr]
  · have hc : c.closed = false := by simpa [hr] using hcl
    by_cases hq : c.queue.length < 256
    · simp [Hub.broadcastTo, Hub.afterBroadcast, Hub.trySend, hr, hc, hcap, hq]
    · simp [Hub.broadcastTo, Hub.afterBroadcast, Hub.trySend, Hub.closeSend, hr, hc, hcap, hq]

theorem hub_wellFormed_iff (st : Hub.State) :
    Hub.wellFormed st = true ↔ ∀ c ∈ st, c.cap = 256 ∧ c.closed = !c.registered := by
  simp [Hub.wellFormed, List.all_eq_true]

theorem hub_broadcastAll_wf (message : String) (st : Hub.State)
    (h : Hub.wellFormed st = true) :
    Hub.broadcastAll message st = some (st.map (Hub.afterBroadcast message)) := by
  induction st with
  | nil => rfl
  | cons c rest ih =>
    rw [hub_wellFormed_iff] at h
    have hc := h c (List.mem_cons_self _ _)
    have hrest : Hub.wellFormed rest = true := by
      rw [hub_wellFormed_iff]
      intro d hd
      exact h d (List.mem_cons_of_mem _ hd)
    simp [Hub.broadcastAll, hub_broadcastTo_wf message c hc.1 hc.2, ih hrest]

theorem hub_afterBroadcast_wf (message : String) (c : Hub.Client) (hcap : c.cap = 256)
    (hcl : c.closed = !c.registered) :
    (Hub.afterBroadcast message c).cap = 256 ∧
    (Hub.afterBroadcast message c).closed = !(Hub.afterBroadcast message c).registered := by
  unfold Hub.afterBroadcast
  split
  · split
    · exact ⟨hcap, hcl⟩
    · exact ⟨hcap, rfl⟩
  · exact ⟨hcap, hcl⟩

theorem hub_set_wf (st : Hub.State) (i : Nat) (d : Hub.Client)
    (h : Hub.wellFormed st = true) (hd : d.cap = 256 ∧ d.closed = !d.registered) :
    Hub.wellFormed (st.set i d) = true := by
  rw [hub_wellFormed_iff] at h ⊢
  intro c hc
  rcases List.mem_or_eq_of_mem_set hc with hc | hc
  · exact h c hc
  · rw [hc]; exact hd

theorem hub_step_wf (st : Hub.State) (a : Hub.Step) (h : Hub.wellFormed st = true) :
    ∃ st2, Hub.step st a = some st2 ∧ Hub.wellFormed st2 = true := by
  cases a with
  | register =>
    refine ⟨_, rfl, ?_⟩
    rw [hub_wellFormed_iff] at h ⊢
    intro c hc
    simp only [Hub.register, List.mem_append, List.mem_singleton] at hc
    rcases hc with hc | hc
    · exact h c hc
    · rw [hc]; exact ⟨rfl, rfl⟩
  | unregister i =>
    simp only [Hub.step]
    cases hi : st[i]? with
    | none => exact ⟨st, rfl, h⟩
    | some c =>
      have hc := (hub_wellFormed_iff st).mp h c (List.getElem?_mem hi)
      cases hr : c.registered
      · refine ⟨st.set i c, by simp [Hub.unregisterClient, hr], hub_set_wf st i c h hc⟩
      · have hcl : c.closed = false := by simpa [hr] using hc.2
        refine ⟨st.set i { c with closed := true, registered := false },
          by simp [Hub.unregisterClient, Hub.closeSend, hr, hcl], ?_⟩
        exact hub_set_wf st i _ h ⟨hc.1, rfl⟩
  | broadcast message =>
    refine ⟨_, hub_broadcastAll_wf message st h, ?_⟩
    rw [hub_wellFormed_iff] at h ⊢
    intro c hc
    obtain ⟨d, hd, rfl⟩ := List.mem_map.mp hc
    exact hub_afterBroadcast_wf message d (h d hd).1 (h d hd).2
  | receive i =>
    simp only [Hub.step]
    cases hi : st[i]? with
    | none => exact ⟨st, rfl, h⟩
    | some c =>
      have hc := (hub_wellFormed_iff st).mp h c (List.getElem?_mem hi)
      exact ⟨_, rfl, hub_set_wf st i _ h ⟨hc.1, hc.2⟩⟩

theorem hub_runFrom_wf (steps : List Hub.Step) :
    ∀ st : Hub.State, Hub.wellFormed st = true →
      ∃ st2, Hub.runFrom st steps = some st2 ∧ Hub.wellFormed st2 = true := by
  induction steps with
  | nil => intro st h; exact ⟨st, rfl, h⟩
  | cons a rest ih =>
    intro st h
    obtain ⟨st1, h1, hw1⟩ := hub_step_wf st a h
    obtain ⟨st2, h2, hw2⟩ := ih st1 hw1
    exact ⟨st2, by simp [Hub.runFrom, h1, h2], hw2⟩

theorem hub_set_same (st : Hub.State) :
    ∀ (i : Nat) (c : Hub.Client), st[i]? = some c → st.set i c = st := by
  induction st with
  | nil => intro i c h; simp at h
  | cons d rest ih =>
    intro i c h
    cases i with
    | zero =>
      simp only [List.getElem?_cons_zero, Option.some.injEq] at h
      simp [h]
    | succ j =>
      simp only [List.getElem?_cons_succ] at h
      simp [ih j c h]

theorem hub_unregister_again (st : Hub.State) (i : Nat) (c : Hub.Client)
    (hi : st[i]? = some c) (hr : c.registered = false) :
    Hub.step st (.unregister i) = some st := by
  simp [Hub.step, hi, Hub.unregisterClient, hr, hub_set_same st i c hi]

/-! ### A ledger row, once written, stays -/

theorem insertAccepted_append (a b : List Event) :
    insertAccepted (a ++ b) = (insertAccepted a || insertAccepted b) := by
  simp [insertAccepted, List.any_append]

theorem keepsRow_getMLToken {env : Env σ} {np : String} {has : σ → Bool}
    (hL : LedgerKeepsRow env np has) (s : σ) (conta : String) (hP : has s = true) :
    has (getMLToken env s conta).st = true := by
  generalize h : getMLToken env s conta = r
  simp only [getMLToken] at h
  repeat' split at h
  all_goals subst h
  all_goals simp only [doHTTP, doQuery, doExec]
  all_goals repeat (first | exact hP | apply hL.http_keeps | apply hL.query_keeps | apply hL.update_keeps)

theorem insertAccepted_getMLToken (env : Env σ) (s : σ) (conta : String) :
    insertAccepted (getMLToken env s conta).trace = false := by
  generalize h : getMLToken env s conta = r
  simp only [getMLToken] at h
  repeat' split at h
  all_goals subst h
  all_goals simp only [insertAccepted_append, Bool.false_or, Bool.or_false]
  all_goals simp [insertAccepted, doHTTP, doQuery]

theorem keepsRow_getMLOrder {env : Env σ} {np : String} {has : σ → Bool}
    (hL : LedgerKeepsRow env np has) (s : σ) (numPedido tokenML : String) (hP : has s = true) :
    has (getMLOrder env s numPedido tokenML).st = true := by
  generalize h : getMLOrder env s numPedido tokenML = r
  simp only [getMLOrder] at h
  repeat' split at h
  all_goals subst h
  all_goals simp only [doHTTP, doQuery, doExec]
  all_goals repeat (first | exact hP | apply hL.http_keeps | apply hL.query_keeps | apply hL.update_keeps)

theorem insertAccepted_getMLOrder (env : Env σ) (s : σ) (numPedido tokenML : String) :
    insertAccepted (getMLOrder env s numPedido tokenML).trace = false := by
  generalize h : getMLOrder env s numPedido tokenML = r
  simp only [getMLOrder] at h
  repeat' split at h
  all_goals subst h
  all_goals simp only [insertAccepted_append, Bool.false_or, Bool.or_false]
  all_goals simp [insertAccepted, doHTTP, doQuery]

theorem keepsRow_getEmpresaFornecedor {env : Env σ} {np : String} {has : σ → Bool}
    (hL : LedgerKeepsRow env np has) (s : σ) (mlbItem conta : String) (hP : has s = true) :
    has (getEmpresaFornecedor env s mlbItem conta).st = true := by
  generalize h : getEmpresaFornecedor env s mlbItem conta = r
  simp only [getEmpresaFornecedor] at h
  repeat' split at h
  all_goals subst h
  all_goals simp only [doHTTP, doQuery, doExec]
  all_goals repeat (first | exact hP | apply hL.http_keeps | apply hL.query_keeps | apply hL.update_keeps)

theorem insertAccepted_getEmpresaFornecedor (env : Env σ) (s : σ) (mlbItem conta : String) :
    insertAccepted (getEmpresaFornecedor env s mlbItem conta).trace = false := by
  generalize h : getEmpresaFornecedor env s mlbItem conta = r
  simp only [getEmpresaFornecedor] at h
  repeat' split at h
  all_goals subst h
  all_goals simp only [insertAccepted_append, Bool.false_or, Bool.or_false]
  all_goals simp [insertAccepted, doHTTP, doQuery]

theorem keepsRow_getNBSToken {env : Env σ} {np : String} {has : σ → Bool}
    (hL : LedgerKeepsRow env np has) (s : σ) (codEmpresa : String) (hP : has s = true) :
    has (getNBSToken env s codEmpresa).st = true := by
  generalize h : getNBSToken env s codEmpresa = r
  simp only [getNBSToken] at h
  repeat' split at h
  all_goals subst h
  all_goals simp only [doHTTP, doQuery, doExec]
  all_goals repeat (first | exact hP | apply hL.http_keeps | apply hL.query_keeps | apply hL.update_keeps)

theorem insertAccepted_getNBSToken (env : Env σ) (s : σ) (codEmpresa : String) :
    insertAccepted (getNBSToken env s codEmpresa).trace = false := by
  generalize h : getNBSToken env s codEmpresa = r
  simp only [getNBSToken] at h
  repeat' split at h
  all_goals subst h
  all_goals simp only [insertAccepted_append, Bool.false_or, Bool.or_false]
  all_goals simp [insertAccepted, doHTTP, doQuery]

theorem keepsRow_getMLClientData {env : Env σ} {np : String} {has : σ → Bool}
    (hL : LedgerKeepsRow env np has) (s : σ) (numPedido tokenML : String) (hP : has s = true) :
    has (getMLClientData env s numPedido tokenML).st = true := by
  generalize h : getMLClientData env s numPedido tokenML = r
  simp only [getMLClientData] at h
  repeat' split at h
  all_goals subst h
  all_goals simp only [doHTTP, doQuery, doExec]
  all_goals repeat (first | exact hP | apply hL.http_keeps | apply hL.query_keeps | apply hL.update_keeps)

theorem insertAccepted_getMLClientData (env : Env σ) (s : σ) (numPedido tokenML : String) :
    insertAccepted (getMLClientData env s numPedido tokenML).trace = false := by
  generalize h : getMLClientData env s numPedido tokenML = r
  simp only [getMLClientData] at h
  repeat' split at h
  all_goals subst h
  all_goals simp only [insertAccepted_append, Bool.false_or, Bool.or_false]
  all_goals simp [insertAccepted, doHTTP, doQuery]

theorem keepsRow_registerClient {env : Env σ} {np : String} {has : σ → Bool}
    (hL : LedgerKeepsRow env np has) (s : σ) (numPedido tokenML tokenNBS : String) (hP : has s = true) :
    has (registerClient env s numPedido tokenML tokenNBS).st = true := by
  generalize h : registerClient env s numPedido tokenML tokenNBS = r
  simp only [registerClient] at h
  repeat' split at h
  all_goals subst h
  all_goals simp only [doHTTP, doQuery, doExec]
  all_goals repeat (first | exact hP | apply keepsRow_getMLClientData hL | apply hL.http_keeps | apply hL.query_keeps | apply hL.update_keeps)

theorem insertAccepted_registerClient (env : Env σ) (s : σ) (numPedido tokenML tokenNBS : String) :
    insertAccepted (registerClient env s numPedido tokenML tokenNBS).trace = false := by
  generalize h : registerClient env s numPedido tokenML tokenNBS = r
  simp only [registerClient] at h
  repeat' split at h
  all_goals subst h
  all_goals simp only [insertAccepted_append, insertAccepted_getMLClientData, Bool.false_or, Bool.or_false]
  all_goals simp [insertAccepted, doHTTP, doQuery]

theorem keepsRow_registerAddress {env : Env σ} {np : String} {has : σ → Bool}
    (hL : LedgerKeepsRow env np has) (s : σ) (numPedido tokenML tokenNBS : String) (hP : has s = true) :
    has (registerAddress env s numPedido tokenML tokenNBS).st = true := by
  generalize h : registerAddress env s numPedido tokenML tokenNBS = r
  simp only [registerAddress] at h
  repeat' split at h
  all_goals subst h
  all_goals simp only [doHTTP, doQuery, doExec]
  all_goals repeat (first | exact hP | apply keepsRow_getMLClientData hL | apply hL.http_keeps | apply hL.query_keeps | apply hL.update_keeps)

theorem insertAccepted_registerAddress (env : Env σ) (s : σ) (numPedido tokenML tokenNBS : String) :
    insertAccepted (registerAddress env s numPedido tokenML tokenNBS).trace = false := by
  generalize h : registerAddress env s numPedido tokenML tokenNBS = r
  simp only [registerAddress] at h
  repeat' split at h
  all_goals subst h
  all_goals simp only [insertAccepted_append, insertAccepted_getMLClientData, Bool.false_or, Bool.or_false]
  all_goals simp [insertAccepted, doHTTP, doQuery]

theorem keepsRow_getSKUFromDePara {env : Env σ} {np : String} {has : σ → Bool}
    (hL : LedgerKeepsRow env np has) (s : σ) (mlbItem codEmpresa : String) (hP : has s = true) :
    has (getSKUFromDePara env s mlbItem codEmpresa).st = true := by
  generalize h : getSKUFromDePara env s mlbItem codEmpresa = r
  simp only [getSKUFromDePara] at h
  repeat' split at h
  all_goals subst h
  all_goals simp only [doHTTP, doQuery, doExec]
  all_goals repeat (first | exact hP | apply hL.http_keeps | apply hL.query_keeps | apply hL.update_keeps)

theorem insertAccepted_getSKUFromDePara (env : Env σ) (s : σ) (mlbItem codEmpresa : String) :
    insertAccepted (getSKUFromDePara env s mlbItem codEmpresa).trace = false := by
  generalize h : getSKUFromDePara env s mlbItem codEmpresa = r
  simp only [getSKUFromDePara] at h
  repeat' split at h
  all_goals subst h
  all_goals simp only [insertAccepted_append, Bool.false_or, Bool.or_false]
  all_goals simp [insertAccepted, doHTTP, doQuery]

theorem keepsRow_itemLoop_fold {env : Env σ} {np : String} {has : σ → Bool}
    (hL : LedgerKeepsRow env np has) (ce cf : String) (items : List OrderItem) :
    ∀ acc : Ran σ (List GoMap), has acc.st = true →
      has (items.foldl (itemLoopStep env ce cf) acc).st = true := by
  induction items with
  | nil => intro acc h; exact h
  | cons item rest ih =>
    intro acc h
    rw [List.foldl_cons]
    apply ih
    have hk := keepsRow_getSKUFromDePara hL acc.st (sprintfV env item.ItemID) ce h
    cases hv : (getSKUFromDePara env acc.st (sprintfV env item.ItemID) ce).val <;>
      simpa [itemLoopStep, hv] using hk

theorem insertAccepted_itemLoop_fold (env : Env σ) (ce cf : String) (items : List OrderItem) :
    ∀ acc : Ran σ (List GoMap),
      insertAccepted (items.foldl (itemLoopStep env ce cf) acc).trace =
        insertAccepted acc.trace := by
  induction items with
  | nil => intro acc; rfl
  | cons item rest ih =>
    intro acc
    rw [List.foldl_cons, ih]
    cases hv : (getSKUFromDePara env acc.st (sprintfV env item.ItemID) ce).val <;>
      simp [itemLoopStep, hv, insertAccepted_append, insertAccepted_getSKUFromDePara]

theorem keepsRow_processItemsAndSendOrder {env : Env σ} {np : String} {has : σ → Bool}
    (hL : LedgerKeepsRow env np has) (s : σ) (order : MLOrder) (ce cf cc tk : String)
    (hP : has s = true) :
    has (processItemsAndSendOrder env s order ce cf cc tk).st = true := by
  have hl : has (itemLoop env s ce cf order.OrderItems).st = true :=
    keepsRow_itemLoop_fold hL ce cf order.OrderItems _ hP
  generalize h : processItemsAndSendOrder env s order ce cf cc tk = r
  simp only [processItemsAndSendOrder] at h
  repeat' split at h
  all_goals subst h
  all_goals simp only [doHTTP]
  all_goals repeat (first | exact hl | apply hL.http_keeps)

theorem insertAccepted_processItemsAndSendOrder (env : Env σ) (s : σ) (order : MLOrder)
    (ce cf cc tk : String) :
    insertAccepted (processItemsAndSendOrder env s order ce cf cc tk).trace = false := by
  have hl : insertAccepted (itemLoop env s ce cf order.OrderItems).trace = false := by
    rw [itemLoop, insertAccepted_itemLoop_fold]
    rfl
  generalize h : processItemsAndSendOrder env s order ce cf cc tk = r
  simp only [processItemsAndSendOrder] at h
  repeat' split at h
  all_goals subst h
  all_goals simp only [insertAccepted_append, hl, Bool.false_or, Bool.or_false]
  all_goals simp [doHTTP, insertAccepted]

theorem keepsRow_updateFinalStatus {env : Env σ} {np : String} {has : σ → Bool}
    (hL : LedgerKeepsRow env np has) (s : σ) (a b c : String) (hP : has s = true) :
    has (updateFinalStatus env s a b c).st = true := by
  simp only [updateFinalStatus, doExec]
  exact hL.update_keeps _ _ hP

theorem insertAccepted_updateFinalStatus (env : Env σ) (s : σ) (a b c : String) :
    insertAccepted (updateFinalStatus env s a b c).trace = false := by
  have hne : ¬ sqlUpdateFinal = sqlInsertInitial := by decide
  cases hv : (env.dbExec s DB.pg sqlUpdateFinal [b, c, a]).1 <;>
    simp [updateFinalStatus, doExec, insertAccepted, hv, hne]

theorem keepsRow_sendTelegramMessage {env : Env σ} {np : String} {has : σ → Bool}
    (hL : LedgerKeepsRow env np has) (s : σ) (message : String) (hP : has s = true) :
    has (sendTelegramMessage env s message).st = true := by
  simp only [sendTelegramMessage, doHTTP]
  exact hL.http_keeps _ _ hP

theorem insertAccepted_sendTelegramMessage (env : Env σ) (s : σ) (message : String) :
    insertAccepted (sendTelegramMessage env s message).trace = false := by
  simp [sendTelegramMessage, doHTTP, insertAccepted]

theorem keepsRow_finalSuccessMessage {env : Env σ} {np : String} {has : σ → Bool}
    (hL : LedgerKeepsRow env np has) (s : σ) (req : IntegrationRequest) (results : List GoMap)
    (hP : has s = true) :
    has (finalSuccessMessage env s req results).st = true := by
  generalize h : finalSuccessMessage env s req results = r
  simp only [finalSuccessMessage] at h
  repeat' split at h
  all_goals subst h
  all_goals repeat (first | exact hP | apply keepsRow_getMLToken hL |
    apply keepsRow_getMLClientData hL | apply keepsRow_getMLOrder hL)

theorem insertAccepted_finalSuccessMessage (env : Env σ) (s : σ) (req : IntegrationRequest)
    (results : List GoMap) :
    insertAccepted (finalSuccessMessage env s req results).trace = false := by
  generalize h : finalSuccessMessage env s req results = r
  simp only [finalSuccessMessage] at h
  repeat' split at h
  all_goals subst h
  all_goals simp only [insertAccepted_append, insertAccepted_getMLToken,
    insertAccepted_getMLClientData, insertAccepted_getMLOrder, Bool.false_or, Bool.or_false]

theorem insertInitialStatus_adds {env : Env σ} {np : String} {has : σ → Bool}
    (hL : LedgerKeepsRow env np has) (s : σ) (conta tokenUser idShipping : String)
    (h : (insertInitialStatus env s np conta tokenUser idShipping).val = none) :
    has (insertInitialStatus env s np conta tokenUser idShipping).st = true := by
  simp only [insertInitialStatus, doExec] at h ⊢
  exact hL.insert_adds _ _ _ _ h

theorem insertAccepted_insertInitialStatus (env : Env σ) (s : σ)
    (a b c d : String) (e : GoError) (h : (insertInitialStatus env s a b c d).val = some e) :
    insertAccepted (insertInitialStatus env s a b c d).trace = false := by
  simp only [insertInitialStatus, doExec] at h ⊢
  simp [insertAccepted, h]

theorem keepsRow_processOrder {env : Env σ} {has : σ → Bool} (s : σ)
    (numPedido conta tokenML tokenUser : String) (hL : LedgerKeepsRow env numPedido has)
    (hacc : insertAccepted (processOrder env s numPedido conta tokenML tokenUser).trace = true) :
    has (processOrder env s numPedido conta tokenML tokenUser).st = true := by
  generalize hR : processOrder env s numPedido conta tokenML tokenUser = R at hacc
  simp only [processOrder, failure] at hR
  repeat' split at hR
  all_goals subst hR
  all_goals simp only [insertAccepted_append, insertAccepted_getMLOrder,
    insertAccepted_getEmpresaFornecedor, insertAccepted_getNBSToken,
    insertAccepted_getMLClientData, insertAccepted_registerClient,
    insertAccepted_registerAddress, insertAccepted_processItemsAndSendOrder,
    insertAccepted_updateFinalStatus, insertAccepted_sendTelegramMessage,
    Bool.false_or, Bool.or_false, Bool.false_eq_true] at hacc
  all_goals first
    | (rename_i e hins
       rw [insertAccepted_insertInitialStatus _ _ _ _ _ _ e hins] at hacc
       exact absurd hacc (by decide))
    | (repeat (first
        | (apply insertInitialStatus_adds hL; assumption)
        | apply keepsRow_sendTelegramMessage hL
        | apply keepsRow_updateFinalStatus hL
        | apply keepsRow_processItemsAndSendOrder hL
        | apply keepsRow_getMLClientData hL))

theorem keepsRow_ProcessIntegration {env : Env σ} {has : σ → Bool} (s : σ)
    (req : IntegrationRequest) (hL : LedgerKeepsRow env req.NumPedido has)
    (hacc : insertAccepted (ProcessIntegration env s req).trace = true) :
    has (ProcessIntegration env s req).st = true := by
  have hq : insertAccepted (doQuery env s DB.pg sqlValidate [req.NumPedido]).trace = false := by
    simp [doQuery, insertAccepted]
  generalize hR : ProcessIntegration env s req = R at hacc
  simp only [ProcessIntegration] at hR
  repeat' split at hR
  all_goals subst hR
  all_goals simp only [insertAccepted_append, hq, insertAccepted_getMLToken,
    insertAccepted_finalSuccessMessage, insertAccepted_sendTelegramMessage,
    Bool.false_or, Bool.or_false, Bool.false_eq_true] at hacc
  all_goals first
    | (apply keepsRow_sendTelegramMessage hL
       first
        | (apply keepsRow_finalSuccessMessage hL
           exact keepsRow_processOrder _ _ _ _ _ hL hacc)
        | exact keepsRow_processOrder _ _ _ _ _ hL hacc)
    | exact keepsRow_processOrder _ _ _ _ _ hL hacc

theorem ledgerEnv_keepsRow (u : Bool) (doc : GoMap) (numPedido : String) :
    LedgerKeepsRow (ledgerEnv u doc) numPedido (fun s => s.contains numPedido) := by
  refine ⟨?_, ?_, ?_, ?_, ?_⟩
  · intro s a b d h
    simp only [ledgerEnv] at h ⊢
    by_cases hc : (u = true ∧ s.contains numPedido = true)
    · rw [if_pos ⟨trivial, trivial⟩, if_pos hc] at h
      exact absurd h (by simp)
    · rw [if_pos ⟨trivial, trivial⟩, if_neg hc]
      simp
  · intro s req h
    simpa [ledgerEnv] using h
  · intro s db sql args h
    cases db <;> simpa [ledgerEnv] using h
  · intro s args h
    have hne : ¬ (sqlUpdateFinal = sqlInsertInitial) := by decide
    simpa [ledgerEnv, hne] using h
  · intro s h
    have h2 : s.contains numPedido = true := h
    have h3 : numPedido ∈ s := by simpa using h2
    exact ⟨[some "Mercado Livre"], by simp [ledgerEnv, h3]⟩

/-! ## The claims -/

/-- C1: when the existence query finds a row for the order id, `ProcessIntegration`
returns total_processed 0, success_count 0, error_count 1 and no results, its last log
entry has level warning, and the ledger read is the only exchange it performs (no token
fetch, no marketplace, ERP or notifier call, no ledger write). -/
theorem C1_already_processed (env : Env σ) (s : σ) (req : IntegrationRequest)
    (cols : List (Option String))
    (h : (doQuery env s DB.pg sqlValidate [req.NumPedido]).val = .firstRow cols) :
    ∃ r, (ProcessIntegration env s req).val = some r ∧
      r.TotalProcessed = 0 ∧ r.SuccessCount = 0 ∧ r.ErrorCount = 1 ∧ r.Results = [] ∧
      r.Logs.getLast?.map (·.Level) = some "warning" ∧
      (ProcessIntegration env s req).trace =
        [Event.query DB.pg sqlValidate [req.NumPedido] (.firstRow cols)] := by
  simp only [ProcessIntegration, h]
  refine ⟨_, rfl, rfl, rfl, rfl, rfl, ?_, ?_⟩
  · simp
  · simp only [doQuery] at h ⊢
    rw [h]

/-- Witness of C1 in the sample world whose ledger already holds the order. -/
theorem C1_already_processed_witness :
    (doQuery (sampleEnv alreadyInLedger) () DB.pg sqlValidate [sampleRequest.NumPedido]).val =
      .firstRow [some "Mercado Livre"] ∧
    ∃ r, (ProcessIntegration (sampleEnv alreadyInLedger) () sampleRequest).val = some r ∧
      r.TotalProcessed = 0 ∧ r.SuccessCount = 0 ∧ r.ErrorCount = 1 ∧ r.Results = [] ∧
      r.Logs.getLast?.map (·.Level) = some "warning" ∧
      (ProcessIntegration (sampleEnv alreadyInLedger) () sampleRequest).trace =
        [Event.query DB.pg sqlValidate [sampleRequest.NumPedido]
          (.firstRow [some "Mercado Livre"])] :=
  ⟨rfl, C1_already_processed (sampleEnv alreadyInLedger) () sampleRequest
    [some "Mercado Livre"] rfl⟩

/-- C2: when the order id is not in the ledger and every step succeeds (token obtained,
order fetched with at least one line item, company and supplier determined, customer and
address registered, initial ledger insert accepted, order submitted with document number
`d`, final ledger update accepted), `ProcessIntegration` returns success_count 1,
error_count 0 and exactly one result carrying the requested order id, the document number
`d` and status `sucesso`; and the entries that open the nine saga steps occur in the log
exactly once each, in the order of the steps. -/
theorem C2_happy_path (env : Env σ) (s s1 s2 s3 s4 s5 s6 s7 s8 s9 s10 s11 s12 : σ)
    (t1 t2 t3 t4 t5 t6 t7 t8 t9 t10 t11 t12 : List Event)
    (req : IntegrationRequest) (tokenML tokenUser : String) (order : MLOrder)
    (first : OrderItem) (rest : List OrderItem)
    (codEmpresa codFornecedor tokenNBS : String) (clienteData clienteData2 : GoMap)
    (x y d : String)
    (hq : doQuery env s DB.pg sqlValidate [req.NumPedido] = ⟨.noRows, t1, s1⟩)
    (htok : getMLToken env s1 req.Conta = ⟨.ok (tokenML, tokenUser), t2, s2⟩)
    (hord : getMLOrder env s2 req.NumPedido tokenML = ⟨.ok order, t3, s3⟩)
    (hitems : order.OrderItems = first :: rest)
    (hmap : getEmpresaFornecedor env s3 (sprintfV env first.ItemID) req.Conta =
      ⟨.ok (codEmpresa, codFornecedor), t4, s4⟩)
    (hnbs : getNBSToken env s4 codEmpresa = ⟨.ok tokenNBS, t5, s5⟩)
    (hcd : getMLClientData env s5 req.NumPedido tokenML = ⟨.ok clienteData, t6, s6⟩)
    (hrc : registerClient env s6 req.NumPedido tokenML tokenNBS = ⟨.ok x, t7, s7⟩)
    (hra : registerAddress env s7 req.NumPedido tokenML tokenNBS = ⟨.ok y, t8, s8⟩)
    (hins : insertInitialStatus env s8 req.NumPedido (env.toUpper req.Conta) tokenUser
      (sprintfV env order.ShippingID) = ⟨none, t9, s9⟩)
    (hcd2 : getMLClientData env s9 req.NumPedido tokenML = ⟨.ok clienteData2, t10, s10⟩)
    (hps : processItemsAndSendOrder env s10 order codEmpresa codFornecedor
      (codigoClienteOf clienteData2) tokenNBS = ⟨.ok d, t11, s11⟩)
    (hup : updateFinalStatus env s11 req.NumPedido d tokenUser = ⟨none, t12, s12⟩) :
    ∃ r, (ProcessIntegration env s req).val = some r ∧
      r.SuccessCount = 1 ∧ r.ErrorCount = 0 ∧
      r.Results = [[("pedido", .str req.NumPedido), ("numero_pedido", .str d),
        ("prenota", .str d), ("status", .str "sucesso")]] ∧
      r.Logs.filter (fun e => decide (e ∈ sagaSteps)) = sagaSteps := by
  simp only [ProcessIntegration, processOrder, hq, htok, hord, hitems, hmap, hnbs, hcd, hrc,
    hra, hins, hcd2, hps, hup, gt_iff_lt, Int.lt_iff_add_one_le, zero_add, le_refl, if_true]
  refine ⟨_, rfl, rfl, rfl, rfl, ?_⟩
  simp only [List.filter_append, itemLogs_filter_sagaSteps]
  simp [sagaSteps, List.filter_cons, enderecoLog_ne]

/-- Witness of C2: the sample order `2000012345678` of account `psa` in the world where
every step succeeds; the ERP answers with document number 998877. -/
theorem C2_happy_path_witness :
    ∃ r, (ProcessIntegration (sampleEnv happy) () sampleRequest).val = some r ∧
      r.SuccessCount = 1 ∧ r.ErrorCount = 0 ∧
      r.Results = [[("pedido", .str "2000012345678"), ("numero_pedido", .str "998877"),
        ("prenota", .str "998877"), ("status", .str "sucesso")]] ∧
      r.Logs.filter (fun e => decide (e ∈ sagaSteps)) = sagaSteps :=
  C2_happy_path (sampleEnv happy) () () () () () () () () () () () () ()
    _ _ _ _ _ _ _ _ _ _ _ _ sampleRequest "APP_USR-1234-5678" "5678" sampleOrder
    ⟨.str "MLB111", "Filtro", ⟨false, 199, -1⟩, 2⟩ [] "17" "7" "nbs-1" _ _ "" "" "998877"
    rfl rfl rfl rfl rfl rfl rfl rfl rfl rfl rfl rfl rfl

/-- C3: whenever `ProcessIntegration` returns a result, (success_count, error_count) is
(1, 0) or (0, 1), and the results list is non-empty exactly when success_count is 1. -/
theorem C3_terminal_outcome (env : Env σ) (s : σ) (req : IntegrationRequest)
    (r : IntegrationResponse) (h : (ProcessIntegration env s req).val = some r) :
    ((r.SuccessCount = 1 ∧ r.ErrorCount = 0) ∨ (r.SuccessCount = 0 ∧ r.ErrorCount = 1)) ∧
    (r.Results ≠ [] ↔ r.SuccessCount = 1) := by
  rcases ProcessIntegration_outcome env s req r h with
    ⟨hs, he, hres, _⟩ | ⟨hs, he, ⟨m, hres⟩, _⟩
  · exact ⟨Or.inr ⟨hs, he⟩, by simp [hs, hres]⟩
  · exact ⟨Or.inl ⟨hs, he⟩, by simp [hs, hres]⟩

/-- Witness of C3: the run of the sample order in the world where every step succeeds. -/
theorem C3_terminal_outcome_witness :
    ∃ r, (ProcessIntegration (sampleEnv happy) () sampleRequest).val = some r ∧
      ((r.SuccessCount = 1 ∧ r.ErrorCount = 0) ∨ (r.SuccessCount = 0 ∧ r.ErrorCount = 1)) ∧
      (r.Results ≠ [] ↔ r.SuccessCount = 1) :=
  ⟨_, rfl, C3_terminal_outcome (sampleEnv happy) () sampleRequest _ rfl⟩

/-- C4: a run of `ProcessIntegration` that ends with error_count 1 for any reason other
than the order being already in the ledger has exactly one log entry of level error, and
it is the last entry; a run that ends with success_count 1 has no entry of level error. -/
theorem C4_single_error_entry (env : Env σ) (s : σ) (req : IntegrationRequest)
    (r : IntegrationResponse) (h : (ProcessIntegration env s req).val = some r) :
    (r.ErrorCount = 1 →
      (∀ cols, (doQuery env s DB.pg sqlValidate [req.NumPedido]).val ≠ .firstRow cols) →
      (r.Logs.filter isErrorEntry).length = 1 ∧
        r.Logs.getLast?.map (·.Level) = some "error") ∧
    (r.SuccessCount = 1 → r.Logs.filter isErrorEntry = []) := by
  rcases ProcessIntegration_outcome env s req r h with
    ⟨hs, he, _, hq | ⟨pre, e, hl, hlev, hpre⟩⟩ | ⟨hs, he, _, hno⟩
  · refine ⟨fun _ hnot => ?_, fun h1 => ?_⟩
    · obtain ⟨cols, hc⟩ := hq
      exact absurd hc (hnot cols)
    · rw [hs] at h1; cases h1
  · refine ⟨fun _ _ => ?_, fun h1 => ?_⟩
    · have hf : pre.filter isErrorEntry = [] := by
        rw [List.filter_eq_nil_iff]
        intro x hx
        simpa [isErrorEntry] using hpre x hx
      rw [hl, List.filter_append, hf]
      simp [isErrorEntry, hlev]
    · rw [hs] at h1; cases h1
  · refine ⟨fun h1 => ?_, fun _ => ?_⟩
    · rw [he] at h1; cases h1
    · rw [List.filter_eq_nil_iff]
      intro x hx
      simpa [isErrorEntry] using hno x hx

/-- Witness of C4: the sample order when the ERP refuses the customer ends with
error_count 1, is not an already-processed exit, and has its single error entry last. -/
theorem C4_single_error_entry_witness :
    ∃ r, (ProcessIntegration (sampleEnv clienteRefused) () sampleRequest).val = some r ∧
      r.ErrorCount = 1 ∧
      (∀ cols, (doQuery (sampleEnv clienteRefused) () DB.pg sqlValidate
        [sampleRequest.NumPedido]).val ≠ .firstRow cols) ∧
      (r.Logs.filter isErrorEntry).length = 1 ∧
      r.Logs.getLast?.map (·.Level) = some "error" :=
  ⟨_, rfl, rfl, (fun _ hc => by cases hc),
    (C4_single_error_entry (sampleEnv clienteRefused) () sampleRequest _ rfl).1 rfl
      (fun _ hc => by cases hc)⟩

/-- C5: the write operations `processOrder` performs on the ERP and the ledger form a
prefix of [register customer, register address, insert initial ledger row, submit order,
update final ledger status]; every write that is followed by another write was accepted
(so a failing write is the last one); a final ledger update is only made after an order
submission answered with a non-empty document number, which the update carries; and no
other write operation (in particular none undoing an earlier one) is issued. -/
theorem C5_write_sequence (env : Env σ) (s : σ) (numPedido conta tokenML tokenUser : String) :
    writeOps (processOrder env s numPedido conta tokenML tokenUser).trace <+: sagaWrites ∧
    (∀ e ∈ (writeEvents (processOrder env s numPedido conta tokenML tokenUser).trace).dropLast,
      opFailed env e = false) ∧
    (∀ args err,
      Event.exec DB.pg sqlUpdateFinal args err ∈
        (processOrder env s numPedido conta tokenML tokenUser).trace →
      ∃ hd body text r,
        Event.http ⟨"POST", urlPedidoEnvio, hd, body⟩ (.resp 200 (.ok text)) ∈
          (processOrder env s numPedido conta tokenML tokenUser).trace ∧
        env.decodePedido text = .ok r ∧ codigoPedidoString env r.CodigoPedido ≠ "" ∧
        args = [codigoPedidoString env r.CodigoPedido, tokenUser, numPedido]) ∧
    WriteOp.other ∉ writeOps (processOrder env s numPedido conta tokenML tokenUser).trace := by
  have hsh := processOrder_shape env s numPedido conta tokenML tokenUser
  generalize hT : (processOrder env s numPedido conta tokenML tokenUser).trace = tr at hsh ⊢
  generalize outcomeOf (processOrder env s numPedido conta tokenML tokenUser).val = out at hsh
  have hupd : ∀ args err, Event.exec DB.pg sqlUpdateFinal args err ∈ tr →
      Event.exec DB.pg sqlUpdateFinal args err ∈ writeEvents tr := fun args err h =>
    mem_writeEvents h (by rw [writeOp_update]; rfl)
  rw [← writeOps_writeEvents tr]
  rcases hsh with ⟨hev, _⟩ | ⟨c, hc, ⟨hev, _⟩ | ⟨hfc, a, ha, ⟨hev, _⟩ | ⟨hfa, i, hi, ⟨hev, _⟩ |
    ⟨hfi, _, o, ho, ⟨hev, _⟩ | ⟨hfo, hd, body, text, r, err, rfl, hdec, hdoc, hev, _⟩⟩⟩⟩⟩
  · refine ⟨?_, ?_, ?_, ?_⟩
    · rw [hev]; decide
    · rw [hev]; simp
    · intro args err h
      have := hupd args err h
      rw [hev] at this
      simp at this
    · rw [hev]; simp
  · refine ⟨?_, ?_, ?_, ?_⟩
    · rw [hev]; simp only [List.filterMap_cons, List.filterMap_nil, hc]; decide
    · rw [hev]; simp
    · intro args err h
      have := hupd args err h
      rw [hev] at this
      simp only [List.mem_singleton] at this
      rw [← this, writeOp_update] at hc
      cases hc
    · rw [hev]; simp [hc]
  · refine ⟨?_, ?_, ?_, ?_⟩
    · rw [hev]; simp only [List.filterMap_cons, List.filterMap_nil, hc, ha]; decide
    · rw [hev]; simp [hfc]
    · intro args err h
      have := hupd args err h
      rw [hev] at this
      simp only [List.mem_cons, List.mem_singleton, List.not_mem_nil, or_false] at this
      rcases this with h1 | h1
      · rw [← h1, writeOp_update] at hc; cases hc
      · rw [← h1, writeOp_update] at ha; cases ha
    · rw [hev]; simp [hc, ha]
  · refine ⟨?_, ?_, ?_, ?_⟩
    · rw [hev]; simp only [List.filterMap_cons, List.filterMap_nil, hc, ha, hi]; decide
    · rw [hev]; simp [hfc, hfa]
    · intro args err h
      have := hupd args err h
      rw [hev] at this
      simp only [List.mem_cons, List.mem_singleton, List.not_mem_nil, or_false] at this
      rcases this with h1 | h1 | h1
      · rw [← h1, writeOp_update] at hc; cases hc
      · rw [← h1, writeOp_update] at ha; cases ha
      · rw [← h1, writeOp_update] at hi; cases hi
    · rw [hev]; simp [hc, ha, hi]
  · refine ⟨?_, ?_, ?_, ?_⟩
    · rw [hev]; simp only [List.filterMap_cons, List.filterMap_nil, hc, ha, hi, ho]; decide
    · rw [hev]; simp [hfc, hfa, hfi]
    · intro args err h
      have := hupd args err h
      rw [hev] at this
      simp only [List.mem_cons, List.mem_singleton, List.not_mem_nil, or_false] at this
      rcases this with h1 | h1 | h1 | h1
      · rw [← h1, writeOp_update] at hc; cases hc
      · rw [← h1, writeOp_update] at ha; cases ha
      · rw [← h1, writeOp_update] at hi; cases hi
      · rw [← h1, writeOp_update] at ho; cases ho
    · rw [hev]; simp [hc, ha, hi, ho]
  · refine ⟨?_, ?_, ?_, ?_⟩
    · rw [hev]
      simp only [List.filterMap_cons, List.filterMap_nil, hc, ha, hi, ho, writeOp_update]
      decide
    · rw [hev]; simp [hfc, hfa, hfi, hfo]
    · intro args err2 h
      have := hupd args err2 h
      rw [hev] at this
      simp only [List.mem_cons, List.mem_singleton, List.not_mem_nil, or_false] at this
      rcases this with h1 | h1 | h1 | h1 | h1
      · rw [← h1, writeOp_update] at hc; cases hc
      · rw [← h1, writeOp_update] at ha; cases ha
      · rw [← h1, writeOp_update] at hi; cases hi
      · cases h1
      · refine ⟨hd, body, text, r, ?_, hdec, hdoc, ?_⟩
        · apply mem_of_mem_writeEvents
          rw [hev]
          simp
        · cases h1
          rfl
    · rw [hev]; simp [hc, ha, hi, ho, writeOp_update]

/-- C6, as stated, fails: in the sample world where no line item resolves to a SKU the
saga fails with the no-valid-items error, yet by then the customer registration, the
address registration and the initial ledger insert have been performed. -/
theorem C6_counterexample :
    resolvedItems (sampleEnv noSKU) "17" () sampleOrder.OrderItems = [] ∧
    (∃ r l, (processOrder (sampleEnv noSKU) () "2000012345678" "psa" "APP_USR-1234-5678"
        "5678").val = some (r, l) ∧ r.SuccessCount = 0 ∧ r.ErrorCount = 1 ∧
      l.getLast?.map (·.Message) = some ("Erro ao processar itens: " ++ errNoValidItems)) ∧
    writeOps (processOrder (sampleEnv noSKU) () "2000012345678" "psa" "APP_USR-1234-5678"
      "5678").trace = [.registerCustomer, .registerAddress, .insertInitial] :=
  ⟨rfl, ⟨_, _, rfl, rfl, rfl, rfl⟩, rfl⟩

/-- C6 (amended): for an order none of whose line items resolves to a SKU,
`processItemsAndSendOrder` fails with the no-valid-items error without any HTTP call; no
line item resolves exactly when no SKU lookup of the item loop finds a SKU; and a run of
`processOrder` in which no SKU lookup finds a SKU never succeeds and its writes are a
prefix of [register customer, register address, insert initial ledger row]: no order
submission and no final ledger update is made. -/
theorem C6_no_valid_items (env : Env σ) (s : σ) (order : MLOrder)
    (codEmpresa codFornecedor codCliente tokenNBS numPedido conta tokenML tokenUser : String) :
    (resolvedItems env codEmpresa s order.OrderItems = [] →
      (processItemsAndSendOrder env s order codEmpresa codFornecedor codCliente tokenNBS).val =
        .error errNoValidItems ∧
      ∀ e ∈ (processItemsAndSendOrder env s order codEmpresa codFornecedor codCliente
        tokenNBS).trace, e.isHTTP = false) ∧
    (skuResolved (itemLoop env s codEmpresa codFornecedor order.OrderItems).trace = false ↔
      resolvedItems env codEmpresa s order.OrderItems = []) ∧
    (skuResolved (processOrder env s numPedido conta tokenML tokenUser).trace = false →
      writeOps (processOrder env s numPedido conta tokenML tokenUser).trace <+:
        [.registerCustomer, .registerAddress, .insertInitial] ∧
      ∀ r l, (processOrder env s numPedido conta tokenML tokenUser).val = some (r, l) →
        r.SuccessCount = 0 ∧ r.ErrorCount = 1) := by
  refine ⟨?_, skuResolved_itemLoop env s codEmpresa codFornecedor order.OrderItems, ?_⟩
  · intro hnil
    rcases processItemsAndSendOrder_cases env s order codEmpresa codFornecedor codCliente
      tokenNBS with ⟨_, hv, htr⟩ | ⟨hne, _⟩
    · refine ⟨hv, ?_⟩
      rw [htr]
      exact itemLoop_noHTTP env s codEmpresa codFornecedor order.OrderItems
    · exfalso
      apply hne
      rw [itemLoop_val, hnil]
      rfl
  · intro hsku
    have hno := processOrder_noSubmit env s numPedido conta tokenML tokenUser hsku
    have hsh := processOrder_shape env s numPedido conta tokenML tokenUser
    obtain ⟨hpre, hout⟩ := noSubmit_of_shape hsh (fun o ho hw => hno (by
      rw [← writeOps_writeEvents]
      exact List.mem_filterMap.mpr ⟨o, ho, hw⟩))
    rw [writeOps_writeEvents] at hpre
    refine ⟨hpre, fun r l hv => ?_⟩
    rcases (processOrder_outcome env s numPedido conta tokenML tokenUser r l hv).2 with
      ⟨_, hs, he, _⟩ | ⟨_, hs, _⟩
    · exact ⟨hs, he⟩
    · exfalso
      apply hout
      rw [hv]
      simp [outcomeOf, hs]

/-- Witness of C6 (amended): the sample world in which the mapping store holds a SKU for
other items (such as `MLB222`) but none for `MLB111`, the only line item of the order.  The
run performs the two registrations and the initial ledger write, finds no SKU and ends
there. -/
theorem C6_no_valid_items_witness :
    (getSKUFromDePara unmappedItemEnv () "MLB222" "17").val = .ok "ABC123" ∧
    resolvedItems unmappedItemEnv "17" () sampleOrder.OrderItems = [] ∧
    (processItemsAndSendOrder unmappedItemEnv () sampleOrder "17" "7" "12345678909"
      "nbs-1").val = .error errNoValidItems ∧
    writeOps (processOrder unmappedItemEnv () "2000012345678" "psa" "APP_USR-1234-5678"
      "5678").trace = [.registerCustomer, .registerAddress, .insertInitial] ∧
    writeOps (processOrder unmappedItemEnv () "2000012345678" "psa" "APP_USR-1234-5678"
      "5678").trace <+: [.registerCustomer, .registerAddress, .insertInitial] ∧
    ∀ r l, (processOrder unmappedItemEnv () "2000012345678" "psa" "APP_USR-1234-5678"
        "5678").val = some (r, l) → r.SuccessCount = 0 ∧ r.ErrorCount = 1 :=
  ⟨rfl, rfl,
    ((C6_no_valid_items unmappedItemEnv () sampleOrder "17" "7" "12345678909" "nbs-1"
      "2000012345678" "psa" "APP_USR-1234-5678" "5678").1 rfl).1,
    rfl,
    ((C6_no_valid_items unmappedItemEnv () sampleOrder "17" "7" "12345678909" "nbs-1"
      "2000012345678" "psa" "APP_USR-1234-5678" "5678").2.2 rfl).1,
    ((C6_no_valid_items unmappedItemEnv () sampleOrder "17" "7" "12345678909" "nbs-1"
      "2000012345678" "psa" "APP_USR-1234-5678" "5678").2.2 rfl).2⟩

/-- C7: the item list `processItemsAndSendOrder` builds is the list of the line items
whose SKU lookup succeeds, in their original order, each as the map of its SKU, the given
supplier code and that item's own unit price and quantity; that list is the `Itens` entry
of the payload of the single HTTP request of the call (the order submission); a line item
whose lookup fails is only skipped; and the call returns an error without any HTTP
request exactly when the list is empty. -/
theorem C7_payload_items (env : Env σ) (s : σ) (order : MLOrder)
    (codEmpresa codFornecedor codCliente tokenNBS : String) :
    ((resolvedItems env codEmpresa s order.OrderItems).map Prod.fst).Sublist
      order.OrderItems ∧
    (itemLoop env s codEmpresa codFornecedor order.OrderItems).val =
      (resolvedItems env codEmpresa s order.OrderItems).map
        (fun p => [("COD_ITEM", JSONValue.str p.2), ("COD_FORNECEDOR", .str codFornecedor),
          ("PRECO_UNITARIO", .num p.1.UnitPrice), ("QTDE", jsonInt p.1.Quantity)]) ∧
    (resolvedItems env codEmpresa s order.OrderItems ≠ [] →
      ∃ res,
        (processItemsAndSendOrder env s order codEmpresa codFornecedor codCliente
          tokenNBS).trace.filter Event.isHTTP =
          [Event.http ⟨"POST", urlPedidoEnvio, nbsHeaders tokenNBS,
            some (.obj (dataPedidoMap order codEmpresa codCliente
              (itemLoop env s codEmpresa codFornecedor order.OrderItems).val))⟩ res] ∧
        GoMap.get (dataPedidoMap order codEmpresa codCliente
            (itemLoop env s codEmpresa codFornecedor order.OrderItems).val) "Itens" =
          some (.arr ((itemLoop env s codEmpresa codFornecedor order.OrderItems).val.map
            JSONValue.obj))) ∧
    (((∃ e, (processItemsAndSendOrder env s order codEmpresa codFornecedor codCliente
          tokenNBS).val = .error e) ∧
        ∀ ev ∈ (processItemsAndSendOrder env s order codEmpresa codFornecedor codCliente
          tokenNBS).trace, ev.isHTTP = false) ↔
      resolvedItems env codEmpresa s order.OrderItems = []) := by
  have hval := itemLoop_val env s codEmpresa codFornecedor order.OrderItems
  have hnil : (itemLoop env s codEmpresa codFornecedor order.OrderItems).val = [] ↔
      resolvedItems env codEmpresa s order.OrderItems = [] := by
    rw [hval]
    simp
  have hno := itemLoop_noHTTP env s codEmpresa codFornecedor order.OrderItems
  have hfilter : (itemLoop env s codEmpresa codFornecedor order.OrderItems).trace.filter
      Event.isHTTP = [] := by
    rw [List.filter_eq_nil_iff]
    intro e he
    simp [hno e he]
  refine ⟨resolvedItems_sublist env codEmpresa order.OrderItems s, hval, ?_, ?_⟩
  · intro hne
    rcases processItemsAndSendOrder_cases env s order codEmpresa codFornecedor codCliente
      tokenNBS with ⟨h0, _⟩ | ⟨_, res, htr, _⟩
    · exact absurd (hnil.mp h0) hne
    · refine ⟨res, ?_, ?_⟩
      · rw [htr, List.filter_append, hfilter]
        simp [Event.isHTTP]
      · simp [GoMap.get, dataPedidoMap]
  · constructor
    · rintro ⟨_, hall⟩
      rcases processItemsAndSendOrder_cases env s order codEmpresa codFornecedor codCliente
        tokenNBS with ⟨h0, _⟩ | ⟨_, res, htr, _⟩
      · exact hnil.mp h0
      · have := hall (Event.http ⟨"POST", urlPedidoEnvio, nbsHeaders tokenNBS,
          some (.obj (dataPedidoMap order codEmpresa codCliente
            (itemLoop env s codEmpresa codFornecedor order.OrderItems).val))⟩ res)
          (by rw [htr]; simp)
        simp [Event.isHTTP] at this
    · intro h0
      rcases processItemsAndSendOrder_cases env s order codEmpresa codFornecedor codCliente
        tokenNBS with ⟨_, hv, htr⟩ | ⟨hne, _⟩
      · exact ⟨⟨_, hv⟩, by rw [htr]; exact hno⟩
      · exact absurd (hnil.mpr h0) hne

/-- C8 fails on the code: for the account `oficial` and an item whose mapping row gives
company 17, the company lookup queries the schema of the account (`oficial`), but the SKU
lookup of `getSKUFromDePara` queries the schema derived from the company code
(`principal`), which is not `getSchemaFromConta` of the account. -/
theorem C8_schema_from_company_code :
    getSchemaFromConta (sampleEnv happy) "oficial" = "oficial" ∧
    (processOrder (sampleEnv happy) () "2000012345678" "oficial" "APP_USR-1234-5678"
      "5678").trace.filterMap Event.deparaSchema = ["oficial", "principal"] ∧
    (getSKUFromDePara (sampleEnv happy) () "MLB111" "17").trace.filterMap Event.deparaSchema =
      ["principal"] :=
  ⟨rfl, rfl, rfl⟩

/-- C9 fails on the code when the pack lists its sub-order id as a JSON string: the id is
rendered with the verb `%.0f`, which turns every string into the same bad-verb marker with
nothing of the id left in it, so the URL of the sub-order is refused and the lookup of the
pack `2000000000000001` ends in an error after the direct lookup and the pack lookup,
although the direct lookup of `2000000000000002` returns the order; with the id as a JSON
number the two lookups return the same order. -/
theorem C9_pack_with_string_id :
    (∀ id : String, sprintfF0 (sampleEnv packWithStringID) (.str id) = "%!f(string=)") ∧
    (getMLOrder (sampleEnv packWithStringID) () "2000000000000002" "APP_USR-1234-5678").val =
      .ok sampleOrder ∧
    (getMLOrder (sampleEnv packWithStringID) () "2000000000000001" "APP_USR-1234-5678").val =
      .error "invalid URL escape" ∧
    (getMLOrder (sampleEnv packWithStringID) () "2000000000000001"
        "APP_USR-1234-5678").trace.map
        (fun e => match e with
          | .http req (.resp status _) => (req.url, status)
          | _ => ("", 0)) =
      [("https://api.mercadolibre.com/orders/2000000000000001?access_token=APP_USR-1234-5678",
          404),
       ("https://api.mercadolibre.com/packs/2000000000000001?access_token=APP_USR-1234-5678",
          200)] ∧
    (getMLOrder (sampleEnv happy) () "2000000000000001" "APP_USR-1234-5678").val =
      .ok sampleOrder :=
  ⟨fun _ => rfl, rfl, rfl, rfl, rfl⟩

/-- C10: an ERP answer to the customer registration (respectively the address
registration) with a status outside 200..299 or with a false success flag makes
`registerClient` (respectively `registerAddress`) return an error; `processOrder` then
returns success_count 0 and error_count 1 and performs no later write: after a refused
customer registration the only write is that registration, after a refused address
registration the writes are the customer and the address registration (no ledger insert
and no order submission in either case). -/
theorem C10_registration_refused (env : Env σ) (s : σ)
    (numPedido conta tokenML tokenUser tokenNBS : String) (req : HttpRequest)
    (res : HttpResult) :
    (Event.http req res ∈ (registerClient env s numPedido tokenML tokenNBS).trace →
      (Event.http req res).writeOp = some .registerCustomer →
      registrationRefused env.decodeCliente res →
      ∃ e, (registerClient env s numPedido tokenML tokenNBS).val = .error e) ∧
    (Event.http req res ∈ (registerAddress env s numPedido tokenML tokenNBS).trace →
      (Event.http req res).writeOp = some .registerAddress →
      registrationRefused env.decodeEndereco res →
      ∃ e, (registerAddress env s numPedido tokenML tokenNBS).val = .error e) ∧
    (Event.http req res ∈ (processOrder env s numPedido conta tokenML tokenUser).trace →
      (Event.http req res).writeOp = some .registerCustomer →
      registrationRefused env.decodeCliente res →
      (∃ r l, (processOrder env s numPedido conta tokenML tokenUser).val = some (r, l) ∧
        r.SuccessCount = 0 ∧ r.ErrorCount = 1) ∧
      writeOps (processOrder env s numPedido conta tokenML tokenUser).trace =
        [.registerCustomer]) ∧
    (Event.http req res ∈ (processOrder env s numPedido conta tokenML tokenUser).trace →
      (Event.http req res).writeOp = some .registerAddress →
      registrationRefused env.decodeEndereco res →
      (∃ r l, (processOrder env s numPedido conta tokenML tokenUser).val = some (r, l) ∧
        r.SuccessCount = 0 ∧ r.ErrorCount = 1) ∧
      writeOps (processOrder env s numPedido conta tokenML tokenUser).trace =
        [.registerCustomer, .registerAddress]) := by
  refine ⟨fun hmem hop href => ?_, fun hmem hop href => ?_, fun hmem hop href => ?_,
    fun hmem hop href => ?_⟩
  · have hf := opFailed_of_refused_cliente env req res (url_of_registerCustomer hop) href
    have hw := mem_writeEvents hmem (by rw [hop]; rfl)
    rcases registerClient_cases env s numPedido tokenML tokenNBS with
      ⟨hnil, _⟩ | ⟨body, r0, hev, ⟨_, he⟩ | ⟨hok, _⟩⟩
    · rw [hnil] at hw; cases hw
    · exact he
    · rw [hev, List.mem_singleton] at hw
      rw [← hw, hf] at hok
      cases hok
  · have hf := opFailed_of_refused_endereco env req res (url_of_registerAddress hop) href
    have hw := mem_writeEvents hmem (by rw [hop]; rfl)
    rcases registerAddress_cases env s numPedido tokenML tokenNBS with
      ⟨hnil, _⟩ | ⟨body, r0, hev, ⟨_, he⟩ | ⟨hok, _⟩⟩
    · rw [hnil] at hw; cases hw
    · exact he
    · rw [hev, List.mem_singleton] at hw
      rw [← hw, hf] at hok
      cases hok
  · have hf := opFailed_of_refused_cliente env req res (url_of_registerCustomer hop) href
    have hw := mem_writeEvents hmem (by rw [hop]; rfl)
    obtain ⟨hev, hout⟩ := shape_customer_failed
      (processOrder_shape env s numPedido conta tokenML tokenUser) hw hop hf
    refine ⟨failure_of_outcome hout, ?_⟩
    rw [← writeOps_writeEvents, hev]
    simp [hop]
  · have hf := opFailed_of_refused_endereco env req res (url_of_registerAddress hop) href
    have hw := mem_writeEvents hmem (by rw [hop]; rfl)
    obtain ⟨⟨c, hc, hev⟩, hout⟩ := shape_address_failed
      (processOrder_shape env s numPedido conta tokenML tokenUser) hw hop hf
    refine ⟨failure_of_outcome hout, ?_⟩
    rw [← writeOps_writeEvents, hev]
    simp [hop, hc]

/-- Witness of C10: in the sample world where the ERP answers the customer registration
with status 200 and a false success flag, the run of `processOrder` ends as a failure
and the refused customer registration is its only write. -/
theorem C10_registration_refused_witness :
    Event.http ⟨"POST", urlCliente, nbsHeaders "nbs-1",
        some (.obj (clienteDataMap "12345678909" "F" "ANA LIMA"))⟩
        (.resp 200 (.ok "refused")) ∈
      (processOrder (sampleEnv clienteRefused) () "2000012345678" "psa" "APP_USR-1234-5678"
        "5678").trace ∧
    registrationRefused (sampleEnv clienteRefused).decodeCliente (.resp 200 (.ok "refused")) ∧
    (∃ r l, (processOrder (sampleEnv clienteRefused) () "2000012345678" "psa"
        "APP_USR-1234-5678" "5678").val = some (r, l) ∧
      r.SuccessCount = 0 ∧ r.ErrorCount = 1) ∧
    writeOps (processOrder (sampleEnv clienteRefused) () "2000012345678" "psa"
      "APP_USR-1234-5678" "5678").trace = [.registerCustomer] :=
  ⟨List.mem_of_getLast?_eq_some rfl, Or.inr ⟨"refused", ⟨false, "cliente recusado"⟩, rfl, rfl, rfl⟩,
    (C10_registration_refused (sampleEnv clienteRefused) () "2000012345678" "psa"
      "APP_USR-1234-5678" "5678" "nbs-1" _ _).2.2.1
      (List.mem_of_getLast?_eq_some rfl) (writeOp_cliente _ _ _)
      (Or.inr ⟨"refused", ⟨false, "cliente recusado"⟩, rfl, rfl, rfl⟩)⟩

/-- C11 (code bug): in the sample world the ERP answers the order submission with status
200 and a document whose success flag is false and whose document number is 123;
processItemsAndSendOrder returns 123 without an error, the saga ends with success_count 1
and error_count 0, and all five writes, the final ledger update included, are made. -/
theorem C11_success_flag_not_read :
    refusedOrderDoc.get "sucesso" = some (.bool false) ∧
    (processItemsAndSendOrder (orderReplyEnv refusedOrderDoc) () sampleOrder "17" "7"
      "12345678909" "nbs-1").val = .ok "123" ∧
    (∃ r, (ProcessIntegration (orderReplyEnv refusedOrderDoc) () sampleRequest).val = some r ∧
      r.SuccessCount = 1 ∧ r.ErrorCount = 0) ∧
    writeOps (ProcessIntegration (orderReplyEnv refusedOrderDoc) () sampleRequest).trace =
      sagaWrites :=
  ⟨rfl, rfl, ⟨_, rfl, rfl, rfl⟩, rfl⟩

/-- C12 (code bug): an absent document number is rendered by the type switch as the text
`<nil>`, which is not empty; in the sample world the ERP answers the order submission with
status 200 and a document without a document number, processItemsAndSendOrder returns
`<nil>` as the document number, and the saga ends with success_count 1 and error_count
0. -/
theorem C12_absent_document_number :
    (∀ env : Env Unit, codigoPedidoString env .null = "<nil>") ∧
    (resultEnvioOf absentOrderDoc).CodigoPedido = .null ∧
    (processItemsAndSendOrder (orderReplyEnv absentOrderDoc) () sampleOrder "17" "7"
      "12345678909" "nbs-1").val = .ok "<nil>" ∧
    (∃ r, (ProcessIntegration (orderReplyEnv absentOrderDoc) () sampleRequest).val = some r ∧
      r.SuccessCount = 1 ∧ r.ErrorCount = 0) :=
  ⟨fun _ => rfl, rfl, rfl, ⟨_, rfl, rfl, rfl⟩⟩

/-- C13: for every n below 2^53, the document number given as the JSON number n and the
one given as the JSON string of the decimal digits of n are both normalised to those
digits, in the type switch and in the value processItemsAndSendOrder returns for an
answer with status 200; a string document number is taken unchanged. -/
theorem C13_document_number_normalised (env : Env σ) (n : Nat) (hn : n < 2 ^ 53) :
    codigoPedidoString env (.num (float64OfNat n)) = toString n ∧
    codigoPedidoString env (.str (toString n)) = toString n ∧
    (∀ v : String, codigoPedidoString env (.str v) = v) ∧
    (∀ (s : σ) (order : MLOrder) (ce cf cc tk text mensagem : String) (d : JSONValue),
      (itemLoop env s ce cf order.OrderItems).val.length ≠ 0 →
      (env.httpDo (itemLoop env s ce cf order.OrderItems).st
        ⟨"POST", urlPedidoEnvio, nbsHeaders tk,
          some (.obj (dataPedidoMap order ce cc (itemLoop env s ce cf order.OrderItems).val))⟩).1
        = .resp 200 (.ok text) →
      env.decodePedido text = .ok ⟨d, mensagem⟩ →
      d = .num (float64OfNat n) ∨ d = .str (toString n) →
      (processItemsAndSendOrder env s order ce cf cc tk).val = .ok (toString n)) := by
  have h1 : codigoPedidoString env (.num (float64OfNat n)) = toString n := by
    simp only [codigoPedidoString, float64OfNat, hn, if_true]
    exact fmtFixed_zero_nat n
  have h2 : ∀ v : String, codigoPedidoString env (.str v) = v := fun v => rfl
  refine ⟨h1, h2 _, h2, ?_⟩
  intro s order ce cf cc tk text mensagem d hne hresp hdec hd
  have hc : codigoPedidoString env d = toString n := by
    rcases hd with hd | hd
    · rw [hd]; exact h1
    · rw [hd]; exact h2 _
  have hlen : ¬ (itemLoop env s ce cf order.OrderItems).val.length = 0 := hne
  simp [processItemsAndSendOrder, doHTTP, hlen, hresp, hdec, hc, toString_nat_ne_empty]

/-- Witness of C13: the document number 998877 of the sample world, as a number and as a
string, and the run of the order submission that returns it. -/
theorem C13_document_number_normalised_witness :
    codigoPedidoString (sampleEnv happy) (.num (float64OfNat 998877)) = toString 998877 ∧
    codigoPedidoString (sampleEnv happy) (.str (toString 998877)) = toString 998877 ∧
    (processItemsAndSendOrder (sampleEnv happy) () sampleOrder "17" "7" "12345678909"
      "nbs-1").val = .ok (toString 998877) :=
  ⟨(C13_document_number_normalised (sampleEnv happy) 998877 (by decide)).1,
   (C13_document_number_normalised (sampleEnv happy) 998877 (by decide)).2.1,
   (C13_document_number_normalised (sampleEnv happy) 998877 (by decide)).2.2.2 ()
      sampleOrder "17" "7" "12345678909" "nbs-1" "pedido" "" (.num (float64OfNat 998877))
      (by decide) rfl rfl (Or.inl rfl)⟩

/-- C14: once the item is fetched and the mapping query answered, what getEmpresaFornecedor
returns is decided by the attributes of the item and by the mapping row.  When the value of
the first attribute named MPN contains LC, it returns the company LUCIOS, with supplier 8
when a mapping row exists.  When the item has no attribute named MPN, or the value of the
first one does not contain LC, it returns the fallback pair 17 and 8 when there is no
mapping row or the mapped company is empty, and otherwise the pair of the fixed table for
the mapped company code. -/
theorem C14_company_supplier_pair (env : Env σ) (s : σ) (mlbItem conta : String)
    (status : Nat) (body : Except GoError String) (item : MLItem) (reply : QueryReply)
    (hurl : env.urlError ("https://api.mercadolibre.com/items/" ++ mlbItem) = none)
    (hresp : (env.httpDo s (httpGet ("https://api.mercadolibre.com/items/" ++ mlbItem))).1 = .resp status body)
    (hitem : body.bind env.decodeItem = .ok item)
    (hq : (env.dbQuery (env.httpDo s (httpGet ("https://api.mercadolibre.com/items/" ++ mlbItem))).2 DB.sqlserver
      ("SELECT mlb, sku, filial FROM " ++ getSchemaFromConta env conta ++ ".stg_Depara WHERE mlb = @p1") [mlbItem]).1 = reply) :
    (∀ (pre post : List MLAttribute) (a : MLAttribute) (u v : String),
      item.Attributes = pre ++ a :: post → (∀ b ∈ pre, b.Name ≠ "MPN") → a.Name = "MPN" →
      a.ValueName = u ++ "LC" ++ v →
      (∀ x y filial, reply = .firstRow [some x, some y, some filial] →
        (getEmpresaFornecedor env s mlbItem conta).val = .ok ("LUCIOS", "8")) ∧
      (reply = .noRows →
        (getEmpresaFornecedor env s mlbItem conta).val =
          .ok ("LUCIOS", "lucio nao encontrado"))) ∧
    (((∀ b ∈ item.Attributes, b.Name ≠ "MPN") ∨
        ∃ (pre post : List MLAttribute) (a : MLAttribute),
          item.Attributes = pre ++ a :: post ∧ (∀ b ∈ pre, b.Name ≠ "MPN") ∧
          a.Name = "MPN" ∧ ∀ u v : String, a.ValueName ≠ u ++ "LC" ++ v) →
      (reply = .noRows →
        (getEmpresaFornecedor env s mlbItem conta).val = .ok ("17", "8")) ∧
      (∀ x y, reply = .firstRow [some x, some y, some ""] →
        (getEmpresaFornecedor env s mlbItem conta).val = .ok ("17", "8")) ∧
      (∀ x y filial p, reply = .firstRow [some x, some y, some filial] →
        (filial, p) ∈ claimedSupplierTable →
        (getEmpresaFornecedor env s mlbItem conta).val = .ok p)) := by
  subst hq
  refine ⟨?_, ?_⟩
  · intro pre post a u v hattr hpre ha hv
    have hlc : stringsContains (validadorPeca item) "LC" = true := by
      rw [validadorPeca_first item pre post a hattr hpre ha]
      exact (stringsContains_iff _ _).mpr ⟨u, v, hv⟩
    refine ⟨?_, ?_⟩
    · intro x y filial hrow
      simp [getEmpresaFornecedor, doHTTP, doQuery, hurl, hresp, hitem, hrow, hlc,
        getCodigoFornecedor]
    · intro hrow
      simp [getEmpresaFornecedor, doHTTP, doQuery, hurl, hresp, hitem, hrow, hlc,
        getCodigoFornecedor]
  · intro hno
    have hlc : stringsContains (validadorPeca item) "LC" = false := by
      rcases hno with hnone | ⟨pre, post, a, hattr, hpre, ha, hv⟩
      · rw [validadorPeca_absent item hnone]
        decide
      · rw [validadorPeca_first item pre post a hattr hpre ha]
        cases hc : stringsContains a.ValueName "LC" with
        | false => rfl
        | true =>
          obtain ⟨u, v, huv⟩ := (stringsContains_iff _ _).mp hc
          exact absurd huv (hv u v)
    refine ⟨?_, ?_, ?_⟩
    · intro hrow
      simp [getEmpresaFornecedor, doHTTP, doQuery, hurl, hresp, hitem, hrow, hlc,
        getCodigoFornecedor]
    · intro x y hrow
      simp [getEmpresaFornecedor, doHTTP, doQuery, hurl, hresp, hitem, hrow, hlc,
        getCodigoFornecedor]
    · intro x y filial p hrow hp
      simp only [claimedSupplierTable, List.mem_cons, Prod.mk.injEq, List.mem_nil_iff,
        or_false] at hp
      rcases hp with ⟨rfl, rfl⟩ | ⟨rfl, rfl⟩ | ⟨rfl, rfl⟩ | ⟨rfl, rfl⟩ | ⟨rfl, rfl⟩ |
        ⟨rfl, rfl⟩ | ⟨rfl, rfl⟩ | ⟨rfl, rfl⟩ | ⟨rfl, rfl⟩ <;>
      simp [getEmpresaFornecedor, doHTTP, doQuery, hurl, hresp, hitem, hrow, hlc,
        getCodigoFornecedor]

/-- Witness of C14: the item whose first attribute named MPN has the value 9LC100 gets the
company LUCIOS with supplier 8 although its mapping row names company 17 and a later
attribute named MPN has no LC; the item of the sample world, with the part number F100 and
the same mapping row, gets the pair of company 17. -/
theorem C14_company_supplier_pair_witness :
    (getEmpresaFornecedor lucioItemEnv () "MLB111" "psa").val = .ok ("LUCIOS", "8") ∧
    (getEmpresaFornecedor (sampleEnv happy) () "MLB111" "psa").val = .ok ("17", "7") :=
  ⟨((C14_company_supplier_pair lucioItemEnv () "MLB111" "psa" 200 (.ok "item")
      ⟨"MLB111", "Filtro", [⟨"BRAND", "ACME"⟩, ⟨"MPN", "9LC100"⟩, ⟨"MPN", "F100"⟩]⟩
      (.firstRow [some "MLB111", some "ABC123", some "17"]) rfl rfl rfl rfl).1
      [⟨"BRAND", "ACME"⟩] [⟨"MPN", "F100"⟩] ⟨"MPN", "9LC100"⟩ "9" "100" rfl
      (fun b hb => by
        rw [List.mem_singleton] at hb
        subst hb
        decide)
      rfl rfl).1 "MLB111" "ABC123" "17" rfl,
   ((C14_company_supplier_pair (sampleEnv happy) () "MLB111" "psa" 200 (.ok "item")
      ⟨"MLB111", "Filtro", [⟨"MPN", "F100"⟩]⟩
      (.firstRow [some "MLB111", some "ABC123", some "17"]) rfl rfl rfl rfl).2
      (Or.inr ⟨[], [], ⟨"MPN", "F100"⟩, rfl, fun _ hb => absurd hb (List.not_mem_nil _), rfl,
        fun u v huv => absurd ((stringsContains_iff "F100" "LC").mpr ⟨u, v, huv⟩)
          (by decide)⟩)).2.2 "MLB111" "ABC123" "17" ("17", "7") rfl (List.Mem.head _)⟩

/-- C15: the customer record getMLClientData builds from a billing info has tipo F exactly
when doc_type is CPF and tipo J otherwise; its name is the upper-cased FIRST_NAME, a
space and LAST_NAME for an individual (FIRST_NAME alone without a LAST_NAME string), the
upper-cased BUSINESS_NAME for an organization, and CLIENTE ML when FIRST_NAME
(individual) or BUSINESS_NAME (organization) has no string value; codigoCliente and
cpfCnpj are doc_number.  The record is what getMLClientData returns when the billing
request is answered with status 200 and that billing info. -/
theorem C15_customer_classification (env : Env σ) (b : BillingInfo) :
    (((clienteDataOf env b).getString "tipo" = some "F" ↔ b.DocType = "CPF") ∧
     ((clienteDataOf env b).getString "tipo" = some "J" ↔ b.DocType ≠ "CPF")) ∧
    (b.DocType = "CPF" →
      (∀ f l, (additionalInfoMap b.AdditionalInfo).getString "FIRST_NAME" = some f →
        (additionalInfoMap b.AdditionalInfo).getString "LAST_NAME" = some l →
        (clienteDataOf env b).getString "nome" = some (env.toUpper (f ++ " " ++ l))) ∧
      (∀ f, (additionalInfoMap b.AdditionalInfo).getString "FIRST_NAME" = some f →
        (additionalInfoMap b.AdditionalInfo).getString "LAST_NAME" = none →
        (clienteDataOf env b).getString "nome" = some (env.toUpper f)) ∧
      ((additionalInfoMap b.AdditionalInfo).getString "FIRST_NAME" = none →
        (clienteDataOf env b).getString "nome" = some "CLIENTE ML")) ∧
    (b.DocType ≠ "CPF" →
      (∀ n, (additionalInfoMap b.AdditionalInfo).getString "BUSINESS_NAME" = some n →
        (clienteDataOf env b).getString "nome" = some (env.toUpper n)) ∧
      ((additionalInfoMap b.AdditionalInfo).getString "BUSINESS_NAME" = none →
        (clienteDataOf env b).getString "nome" = some "CLIENTE ML")) ∧
    ((clienteDataOf env b).getString "codigoCliente" = some b.DocNumber ∧
     (clienteDataOf env b).getString "cpfCnpj" = some b.DocNumber) ∧
    (∀ (s : σ) (numPedido tokenML : String) (body : Except GoError String),
      env.urlError ("https://api.mercadolibre.com/orders/" ++ numPedido ++ "/billing_info") = none →
      (env.httpDo s (mlBearerRequest ("https://api.mercadolibre.com/orders/" ++ numPedido ++ "/billing_info") tokenML)).1 = .resp 200 body →
      body.bind env.decodeBilling = .ok b →
      (getMLClientData env s numPedido tokenML).val = .ok (clienteDataOf env b)) := by
  have ht : (clienteDataOf env b).getString "tipo" = some (nomeTipoCliente env b).2 := by
    simp [clienteDataOf, clienteDataMap, GoMap.getString, GoMap.get]
  have hn : (clienteDataOf env b).getString "nome" = some (nomeTipoCliente env b).1 := by
    simp [clienteDataOf, clienteDataMap, GoMap.getString, GoMap.get]
  refine ⟨⟨?_, ?_⟩, ?_, ?_, ⟨?_, ?_⟩, ?_⟩
  · rw [ht]
    by_cases hd : b.DocType = "CPF"
    · simp only [nomeTipoCliente, hd, if_true]
      repeat' split
      all_goals simp
    · simp only [nomeTipoCliente, hd, if_false]
      repeat' split
      all_goals simp
  · rw [ht]
    by_cases hd : b.DocType = "CPF"
    · simp only [nomeTipoCliente, hd, if_true]
      repeat' split
      all_goals simp
    · simp only [nomeTipoCliente, hd, if_false]
      repeat' split
      all_goals simp [hd]
  · intro hd
    refine ⟨?_, ?_, ?_⟩
    · intro f l hf hl
      rw [hn]; simp [nomeTipoCliente, hd, hf, hl]
    · intro f hf hl
      rw [hn]; simp [nomeTipoCliente, hd, hf, hl]
    · intro hf
      rw [hn]; simp [nomeTipoCliente, hd, hf]
  · intro hd
    refine ⟨?_, ?_⟩
    · intro n hb
      rw [hn]; simp [nomeTipoCliente, hd, hb]
    · intro hb
      rw [hn]; simp [nomeTipoCliente, hd, hb]
  · simp [clienteDataOf, clienteDataMap, GoMap.getString, GoMap.get]
  · simp [clienteDataOf, clienteDataMap, GoMap.getString, GoMap.get]
  · intro s numPedido tokenML body hurl hresp hdec
    simp [getMLClientData, doHTTP, hurl, hresp, hdec]

/-- Witness of C15: the individual customer of the sample world. -/
theorem C15_customer_classification_witness :
    (getMLClientData (sampleEnv happy) () "2000012345678" "APP_USR-1234-5678").val =
      .ok (clienteDataOf (sampleEnv happy) ⟨"CPF", "12345678909",
        .arr [.obj [("name", .str "FIRST_NAME"), ("value", .str "Ana")],
              .obj [("name", .str "LAST_NAME"), ("value", .str "Lima")]]⟩) ∧
    (clienteDataOf (sampleEnv happy) ⟨"CPF", "12345678909",
        .arr [.obj [("name", .str "FIRST_NAME"), ("value", .str "Ana")],
              .obj [("name", .str "LAST_NAME"), ("value", .str "Lima")]]⟩).getString "nome" =
      some (asciiUpper ("Ana" ++ " " ++ "Lima")) :=
  ⟨(C15_customer_classification (sampleEnv happy) ⟨"CPF", "12345678909",
        .arr [.obj [("name", .str "FIRST_NAME"), ("value", .str "Ana")],
              .obj [("name", .str "LAST_NAME"), ("value", .str "Lima")]]⟩).2.2.2.2
      () "2000012345678" "APP_USR-1234-5678" (.ok "billing") rfl rfl rfl,
   ((C15_customer_classification (sampleEnv happy) ⟨"CPF", "12345678909",
        .arr [.obj [("name", .str "FIRST_NAME"), ("value", .str "Ana")],
              .obj [("name", .str "LAST_NAME"), ("value", .str "Lima")]]⟩).2.1 rfl).1
      "Ana" "Lima" rfl rfl⟩

/-- C16: for an account other than ford whose credential document is served, getMLToken
fails exactly when the marker-based extraction described for it yields no token (no `y>`,
or no `</` after the first `y>`), and otherwise returns that token; and when getMLToken
fails, ProcessIntegration returns error_count 1 and its only exchanges are the ledger
check and the request for the credential document. -/
theorem C16_token_extraction (env : Env σ) (s : σ) (conta : String) (status : Nat)
    (content : String) (hford : conta ≠ "ford")
    (hurl : env.urlError ("https://imgs-amz.s3.us-east-1.amazonaws.com/tk/" ++ stringsReplaceOnce ("tk" ++ conta) "principal" "amz" ++ ".html") = none)
    (hresp : (env.httpDo s
      (httpGet ("https://imgs-amz.s3.us-east-1.amazonaws.com/tk/" ++ stringsReplaceOnce ("tk" ++ conta) "principal" "amz" ++ ".html"))).1 =
        .resp status (.ok content)) :
    ((∃ e, (getMLToken env s conta).val = .error e) ↔ markerToken content = none) ∧
    (∀ tok, markerToken content = some tok →
      (getMLToken env s conta).val = .ok (tok, lastDashSegment tok)) ∧
    (∀ (s0 : σ) (req : IntegrationRequest),
      (doQuery env s0 DB.pg sqlValidate [req.NumPedido]).val = .noRows →
      (∃ e, (getMLToken env (doQuery env s0 DB.pg sqlValidate [req.NumPedido]).st
        req.Conta).val = .error e) →
      (∃ r, (ProcessIntegration env s0 req).val = some r ∧ r.TotalProcessed = 0 ∧
        r.SuccessCount = 0 ∧ r.ErrorCount = 1 ∧ r.Results = []) ∧
      (ProcessIntegration env s0 req).trace =
        (doQuery env s0 DB.pg sqlValidate [req.NumPedido]).trace ++
        (getMLToken env (doQuery env s0 DB.pg sqlValidate [req.NumPedido]).st req.Conta).trace ∧
      ∀ ev ∈ (getMLToken env (doQuery env s0 DB.pg sqlValidate [req.NumPedido]).st
          req.Conta).trace,
        ∃ url res, ev = Event.http (httpGet url) res ∧
          startsWith "https://imgs-amz.s3.us-east-1.amazonaws.com/tk/".data url.data = true) := by
  refine ⟨?_, ?_, ?_⟩
  · rcases getMLToken_marker env s conta status content hford hurl hresp with
      ⟨hm, he⟩ | ⟨tok, hm, hv⟩
    · exact ⟨fun _ => hm, fun _ => he⟩
    · constructor
      · rintro ⟨e, he⟩
        rw [hv] at he
        cases he
      · intro hn
        rw [hm] at hn
        cases hn
  · intro tok htok
    rcases getMLToken_marker env s conta status content hford hurl hresp with
      ⟨hm, _⟩ | ⟨tok2, hm, hv⟩
    · rw [hm] at htok
      cases htok
    · rw [hm] at htok
      cases htok
      exact hv
  · intro s0 req hq ht
    obtain ⟨e, he⟩ := ht
    refine ⟨?_, ?_, getMLToken_trace env _ _⟩
    · simp [ProcessIntegration, hq, he]
    · simp [ProcessIntegration, hq, he]

/-- Witness of C16: the account renault, whose credential document the sample world does
not serve, and the account psa, whose document holds a token. -/
theorem C16_token_extraction_witness :
    markerToken "not found" = none ∧
    (∃ e, (getMLToken (sampleEnv happy) () "renault").val = .error e) ∧
    (∃ r, (ProcessIntegration (sampleEnv happy) () renaultRequest).val = some r ∧
      r.TotalProcessed = 0 ∧ r.SuccessCount = 0 ∧ r.ErrorCount = 1 ∧ r.Results = []) ∧
    (getMLToken (sampleEnv happy) () "psa").val = .ok ("APP_USR-1234-5678", "5678") :=
  ⟨by decide,
   (C16_token_extraction (sampleEnv happy) () "renault" 404 "not found" (by decide) rfl rfl).1.mpr
     (by decide),
   ((C16_token_extraction (sampleEnv happy) () "renault" 404 "not found" (by decide) rfl rfl).2.2
     () renaultRequest rfl
     ((C16_token_extraction (sampleEnv happy) () "renault" 404 "not found" (by decide) rfl
       rfl).1.mpr (by decide))).1,
   (C16_token_extraction (sampleEnv happy) () "psa" 200 "<html><body>1234-5678</body></html>"
     (by decide) rfl rfl).2.1 "APP_USR-1234-5678" (by decide)⟩

/-- Counterexample to C17: the successful run of the sample world sends two Notifier
messages (the success message of processOrder and the final summary), and the run for an
account without a credential document ends with error_count 1 and sends none. -/
theorem C17_counterexample :
    (∃ r, (ProcessIntegration (sampleEnv happy) () sampleRequest).val = some r ∧
      r.SuccessCount = 1 ∧ r.ErrorCount = 0) ∧
    notifierCount (ProcessIntegration (sampleEnv happy) () sampleRequest).trace = 2 ∧
    (∃ r, (ProcessIntegration (sampleEnv happy) () renaultRequest).val = some r ∧
      r.SuccessCount = 0 ∧ r.ErrorCount = 1) ∧
    notifierCount (ProcessIntegration (sampleEnv happy) () renaultRequest).trace = 0 :=
  ⟨⟨_, rfl, rfl, rfl⟩, rfl, ⟨_, rfl, rfl, rfl⟩, rfl⟩

/-- C17 (amended): a run of ProcessIntegration that gets past the token step and completes
(total_processed 1) sends the final summary once; a successful run has sent the success
message of processOrder before it, two Notifier messages in all, and a run that failed
inside processOrder sends exactly one. -/
theorem C17_notifier_messages (env : Env σ) (s : σ) (req : IntegrationRequest)
    (r : IntegrationResponse) (h : (ProcessIntegration env s req).val = some r)
    (ht : r.TotalProcessed = 1) :
    (r.SuccessCount = 1 ∧ r.ErrorCount = 0 ∧
      notifierCount (ProcessIntegration env s req).trace = 2) ∨
    (r.SuccessCount = 0 ∧ r.ErrorCount = 1 ∧
      notifierCount (ProcessIntegration env s req).trace = 1) := by
  generalize hR : ProcessIntegration env s req = R at h
  simp only [ProcessIntegration] at hR
  split at hR
  · subst hR
    simp only [Option.some.injEq] at h
    subst h
    simp at ht
  · subst hR
    simp only [Option.some.injEq] at h
    subst h
    simp at ht
  · split at hR
    · subst hR
      simp only [Option.some.injEq] at h
      subst h
      simp at ht
    · split at hR
      · subst hR
        simp at h
      · rename_i tokenML tokenUser htok result processLogs hp
        have hq : notifierCount (doQuery env s DB.pg sqlValidate [req.NumPedido]).trace = 0 := by
          simp [doQuery, notifierCount, isNotifier_query]
        obtain ⟨_, hcases⟩ := processOrder_outcome env _ _ _ _ _ result processLogs hp
        have hn := processOrder_notifier env _ _ _ _ _ result processLogs hp
        split at hR
        · rename_i hpos
          subst hR
          simp only [Option.some.injEq] at h
          subst h
          rcases hn with ⟨h0, _⟩ | ⟨h1, hc⟩
          · rw [h0] at hpos
            exact absurd hpos (by decide)
          · left
            rcases hcases with ⟨_, hs, _⟩ | ⟨_, _, he, _⟩
            · rw [hs] at h1
              exact absurd h1 (by decide)
            · refine ⟨h1, he, ?_⟩
              simp [notifierCount_append, hq, getMLToken_notifier, hc,
                finalSuccessMessage_notifier, sendTelegramMessage_notifier]
        · rename_i hpos
          subst hR
          simp only [Option.some.injEq] at h
          subst h
          rcases hn with ⟨h0, hc⟩ | ⟨h1, _⟩
          · right
            rcases hcases with ⟨_, _, he, _⟩ | ⟨_, hs, _⟩
            · refine ⟨h0, he, ?_⟩
              simp [notifierCount_append, hq, getMLToken_notifier, hc,
                sendTelegramMessage_notifier]
            · rw [hs] at h0
              exact absurd h0 (by decide)
          · rw [h1] at hpos
            exact absurd (by decide) hpos

/-- Witness of C17 (amended): the run of the sample world in which the ERP refuses the
customer. -/
theorem C17_notifier_messages_witness :
    ∃ r, (ProcessIntegration (sampleEnv clienteRefused) () sampleRequest).val = some r ∧
      r.TotalProcessed = 1 ∧
      ((r.SuccessCount = 1 ∧ r.ErrorCount = 0 ∧
        notifierCount (ProcessIntegration (sampleEnv clienteRefused) () sampleRequest).trace = 2) ∨
       (r.SuccessCount = 0 ∧ r.ErrorCount = 1 ∧
        notifierCount (ProcessIntegration (sampleEnv clienteRefused) () sampleRequest).trace = 1)) :=
  ⟨_, rfl, rfl, C17_notifier_messages (sampleEnv clienteRefused) () sampleRequest _ rfl rfl⟩

/-- C18: one iteration of Invoice Sync for a record with an invoice whose shipment is
ready_to_ship/invoice_pending.  When the upload endpoint answers 406, the iteration counts
a success and issues the ledger update with status 3 after the upload; when it answers
any other status code, the iteration counts an error and its last exchange is the upload,
so no update with status 3 is issued.  In either case the loop goes on: the log of a
batch has the opening entry of each of its records. -/
theorem C18_upload_outcome (w : XMLIntegrator.World σ) (svc : XMLIntegrator.Service)
    (token : String) (acc : XMLIntegrator.Acc σ) (pedido : XMLIntegrator.PedidoInfo)
    (xmlData : XMLIntegrator.OracleXMLData) (mlStatus : XMLIntegrator.MLResponse)
    (s1 s2 s3 s4 : σ) (text : String) (status : Nat) (body : Except GoError String)
    (hora : svc.oracleDB = true) (hpg : svc.pgDB = true)
    (hx : w.queryOracle acc.st XMLIntegrator.sqlOracle pedido.NumPrenota = (.row xmlData, s1))
    (hne : xmlData.XMLNota ≠ "")
    (hu : w.execUpdate s1 XMLIntegrator.sqlUpdateStatus
      [xmlData.XMLNota, xmlData.Controle, "2", pedido.NumPrenota] = (none, s2))
    (hurl : w.urlError ("https://api.mercadolibre.com/shipments/" ++ pedido.NumEnvio) = none)
    (hm : w.httpDo s2 (XMLIntegrator.shipmentRequest pedido.NumEnvio token) =
      (.resp 200 (.ok text), s3))
    (hdec : w.decodeShipment text = .ok mlStatus)
    (hs : mlStatus.Status = "ready_to_ship") (hss : mlStatus.Substatus = "invoice_pending")
    (hurl2 : w.urlError ("https://api.mercadolibre.com/shipments/" ++ pedido.NumEnvio ++ "/invoice_data?siteId=MLB") = none)
    (hup : w.httpDo s3 (XMLIntegrator.uploadRequest pedido.NumEnvio xmlData.XMLNota token) =
      (.resp status body, s4)) :
    (status = 406 →
      (XMLIntegrator.processPedido w svc token acc pedido).successCount = acc.successCount + 1 ∧
      (XMLIntegrator.processPedido w svc token acc pedido).errorCount = acc.errorCount ∧
      (XMLIntegrator.processPedido w svc token acc pedido).trace = acc.trace ++
        [ .oracle XMLIntegrator.sqlOracle pedido.NumPrenota (.row xmlData),
          .exec XMLIntegrator.sqlUpdateStatus
            [xmlData.XMLNota, xmlData.Controle, "2", pedido.NumPrenota] none,
          .http (XMLIntegrator.shipmentRequest pedido.NumEnvio token) (.resp 200 (.ok text)),
          .http (XMLIntegrator.uploadRequest pedido.NumEnvio xmlData.XMLNota token)
            (.resp 406 body),
          .exec XMLIntegrator.sqlUpdateStatus
            [xmlData.XMLNota, xmlData.Controle, "3", pedido.NumPrenota]
            (w.execUpdate s4 XMLIntegrator.sqlUpdateStatus
              [xmlData.XMLNota, xmlData.Controle, "3", pedido.NumPrenota]).1 ]) ∧
    (status ≠ 406 →
      (XMLIntegrator.processPedido w svc token acc pedido).successCount = acc.successCount ∧
      (XMLIntegrator.processPedido w svc token acc pedido).errorCount = acc.errorCount + 1 ∧
      (XMLIntegrator.processPedido w svc token acc pedido).trace = acc.trace ++
        [ .oracle XMLIntegrator.sqlOracle pedido.NumPrenota (.row xmlData),
          .exec XMLIntegrator.sqlUpdateStatus
            [xmlData.XMLNota, xmlData.Controle, "2", pedido.NumPrenota] none,
          .http (XMLIntegrator.shipmentRequest pedido.NumEnvio token) (.resp 200 (.ok text)),
          .http (XMLIntegrator.uploadRequest pedido.NumEnvio xmlData.XMLNota token)
            (.resp status body) ]) ∧
    (∀ (pedidos : List XMLIntegrator.PedidoInfo) (init : XMLIntegrator.Acc σ),
      (XMLIntegrator.pedidoLoop w svc token pedidos init).logs.filter
          (fun l => l.Step = "Processamento") =
        init.logs.filter (fun l => l.Step = "Processamento") ++
          pedidos.map XMLIntegrator.startedEntry) := by
  refine ⟨?_, ?_, fun pedidos init => pedidoLoop_started w svc token pedidos init⟩
  · intro h406
    subst h406
    simp [XMLIntegrator.processPedido, XMLIntegrator.getXMLDataFromOracle, hora, hpg, hx, hne,
      updatePostgresStatus_ok w svc s1 s2 _ _ _ _ hpg hu, updatePostgresStatus_trace, XMLIntegrator.getMLShipmentStatus, hurl,
      XMLIntegrator.doHTTP, hm, Except.bind, hdec, XMLIntegrator.dispatchStatus, hs, hss,
      XMLIntegrator.sendXMLToML, hurl2, hup]
  · intro h406
    simp [XMLIntegrator.processPedido, XMLIntegrator.getXMLDataFromOracle, hora, hpg, hx, hne,
      updatePostgresStatus_ok w svc s1 s2 _ _ _ _ hpg hu, updatePostgresStatus_trace, XMLIntegrator.getMLShipmentStatus, hurl,
      XMLIntegrator.doHTTP, hm, Except.bind, hdec, XMLIntegrator.dispatchStatus, hs, hss,
      XMLIntegrator.sendXMLToML, hurl2, hup, h406]

/-- Witness of C18: the first record of the sample order when the upload is answered 406
and when it is answered 500, and the whole runs of both worlds. -/
theorem C18_upload_outcome_witness :
    (XMLIntegrator.processPedido (XMLIntegrator.sampleWorld XMLIntegrator.uploadAccepted) XMLIntegrator.sampleService
      XMLIntegrator.sampleToken ⟨[], [], 0, 0, [], ()⟩
      ⟨"2000012345678", "7001", "43210987654", "", "Mercado Envios", 1, "PSA"⟩).successCount = 1 ∧
    (XMLIntegrator.processPedido (XMLIntegrator.sampleWorld XMLIntegrator.uploadRejected) XMLIntegrator.sampleService
      XMLIntegrator.sampleToken ⟨[], [], 0, 0, [], ()⟩
      ⟨"2000012345678", "7001", "43210987654", "", "Mercado Envios", 1, "PSA"⟩).errorCount = 1 ∧
    ((XMLIntegrator.ProcessXMLIntegration (XMLIntegrator.sampleWorld XMLIntegrator.uploadAccepted)
      XMLIntegrator.sampleService () "2000012345678").val.map
      (fun r => r.1.toOption.map (fun d =>
        (d.TotalProcessed, d.SuccessCount, d.ErrorCount, d.Results.length)))) =
      some (some (2, 1, 0, 2)) ∧
    XMLIntegrator.ledgerUpdates (XMLIntegrator.ProcessXMLIntegration (XMLIntegrator.sampleWorld XMLIntegrator.uploadAccepted)
      XMLIntegrator.sampleService () "2000012345678").trace =
      [("7001", "2"), ("7001", "3"), ("7002", "2")] ∧
    ((XMLIntegrator.ProcessXMLIntegration (XMLIntegrator.sampleWorld XMLIntegrator.uploadRejected)
      XMLIntegrator.sampleService () "2000012345678").val.map
      (fun r => r.1.toOption.map (fun d =>
        (d.TotalProcessed, d.SuccessCount, d.ErrorCount, d.Results.length)))) =
      some (some (2, 0, 1, 2)) ∧
    XMLIntegrator.ledgerUpdates (XMLIntegrator.ProcessXMLIntegration (XMLIntegrator.sampleWorld XMLIntegrator.uploadRejected)
      XMLIntegrator.sampleService () "2000012345678").trace =
      [("7001", "2"), ("7002", "2")] :=
  ⟨((C18_upload_outcome (XMLIntegrator.sampleWorld XMLIntegrator.uploadAccepted) XMLIntegrator.sampleService
      XMLIntegrator.sampleToken ⟨[], [], 0, 0, [], ()⟩
      ⟨"2000012345678", "7001", "43210987654", "", "Mercado Envios", 1, "PSA"⟩
      ⟨"55001", "2024-05-02", "7001", "2000012345678", "<nfe>55001</nfe>", "F"⟩
      ⟨"ready_to_ship", "invoice_pending", ""⟩ () () () () "first" 406 (.ok "upload")
      rfl rfl rfl (by decide) rfl rfl rfl rfl rfl rfl rfl rfl).1 rfl).1,
   ((C18_upload_outcome (XMLIntegrator.sampleWorld XMLIntegrator.uploadRejected) XMLIntegrator.sampleService
      XMLIntegrator.sampleToken ⟨[], [], 0, 0, [], ()⟩
      ⟨"2000012345678", "7001", "43210987654", "", "Mercado Envios", 1, "PSA"⟩
      ⟨"55001", "2024-05-02", "7001", "2000012345678", "<nfe>55001</nfe>", "F"⟩
      ⟨"ready_to_ship", "invoice_pending", ""⟩ () () () () "first" 500 (.ok "upload")
      rfl rfl rfl (by decide) rfl rfl rfl rfl rfl rfl rfl rfl).2.1 (by decide)).2.1,
   rfl, rfl, rfl, rfl⟩

/-- C19: one iteration of Invoice Sync for a record with an invoice whose shipment status is
neither ready_to_ship/invoice_pending nor pending/buffered.  If the ledger record has an
invoice number, the iteration counts a success and issues the ledger update with status 3
right after the status check, without any call of the upload endpoint; otherwise its last
exchange is the status check and neither count changes. -/
theorem C19_no_invoice_required (w : XMLIntegrator.World σ) (svc : XMLIntegrator.Service)
    (token : String) (acc : XMLIntegrator.Acc σ) (pedido : XMLIntegrator.PedidoInfo)
    (xmlData : XMLIntegrator.OracleXMLData) (mlStatus : XMLIntegrator.MLResponse)
    (s1 s2 s3 : σ) (text : String)
    (hora : svc.oracleDB = true) (hpg : svc.pgDB = true)
    (hx : w.queryOracle acc.st XMLIntegrator.sqlOracle pedido.NumPrenota = (.row xmlData, s1))
    (hne : xmlData.XMLNota ≠ "")
    (hu : w.execUpdate s1 XMLIntegrator.sqlUpdateStatus
      [xmlData.XMLNota, xmlData.Controle, "2", pedido.NumPrenota] = (none, s2))
    (hurl : w.urlError ("https://api.mercadolibre.com/shipments/" ++ pedido.NumEnvio) = none)
    (hm : w.httpDo s2 (XMLIntegrator.shipmentRequest pedido.NumEnvio token) =
      (.resp 200 (.ok text), s3))
    (hdec : w.decodeShipment text = .ok mlStatus)
    (hn1 : ¬ (mlStatus.Status = "ready_to_ship" ∧ mlStatus.Substatus = "invoice_pending"))
    (hn2 : ¬ (mlStatus.Status = "pending" ∧ mlStatus.Substatus = "buffered")) :
    (pedido.NumNotaFiscal ≠ "" →
      (XMLIntegrator.processPedido w svc token acc pedido).successCount = acc.successCount + 1 ∧
      (XMLIntegrator.processPedido w svc token acc pedido).errorCount = acc.errorCount ∧
      (XMLIntegrator.processPedido w svc token acc pedido).trace = acc.trace ++
        [ .oracle XMLIntegrator.sqlOracle pedido.NumPrenota (.row xmlData),
          .exec XMLIntegrator.sqlUpdateStatus
            [xmlData.XMLNota, xmlData.Controle, "2", pedido.NumPrenota] none,
          .http (XMLIntegrator.shipmentRequest pedido.NumEnvio token) (.resp 200 (.ok text)),
          .exec XMLIntegrator.sqlUpdateStatus
            [xmlData.XMLNota, xmlData.Controle, "3", pedido.NumPrenota]
            (w.execUpdate s3 XMLIntegrator.sqlUpdateStatus
              [xmlData.XMLNota, xmlData.Controle, "3", pedido.NumPrenota]).1 ]) ∧
    (pedido.NumNotaFiscal = "" →
      (XMLIntegrator.processPedido w svc token acc pedido).successCount = acc.successCount ∧
      (XMLIntegrator.processPedido w svc token acc pedido).errorCount = acc.errorCount ∧
      (XMLIntegrator.processPedido w svc token acc pedido).trace = acc.trace ++
        [ .oracle XMLIntegrator.sqlOracle pedido.NumPrenota (.row xmlData),
          .exec XMLIntegrator.sqlUpdateStatus
            [xmlData.XMLNota, xmlData.Controle, "2", pedido.NumPrenota] none,
          .http (XMLIntegrator.shipmentRequest pedido.NumEnvio token) (.resp 200 (.ok text)) ]) := by
  refine ⟨?_, ?_⟩
  · intro hnf
    simp [XMLIntegrator.processPedido, XMLIntegrator.getXMLDataFromOracle, hora, hpg, hx, hne,
      updatePostgresStatus_ok w svc s1 s2 _ _ _ _ hpg hu, updatePostgresStatus_trace,
      XMLIntegrator.getMLShipmentStatus, hurl, XMLIntegrator.doHTTP, hm, Except.bind, hdec,
      XMLIntegrator.dispatchStatus, hn1, hn2, hnf]
  · intro hnf
    simp [XMLIntegrator.processPedido, XMLIntegrator.getXMLDataFromOracle, hora, hpg, hx, hne,
      updatePostgresStatus_ok w svc s1 s2 _ _ _ _ hpg hu, updatePostgresStatus_trace,
      XMLIntegrator.getMLShipmentStatus, hurl, XMLIntegrator.doHTTP, hm, Except.bind, hdec,
      XMLIntegrator.dispatchStatus, hn1, hn2, hnf]

/-- Witness of C19: the first record of the sample order when it is already shipped, with
and without an invoice number in the ledger, and the whole runs of both worlds. -/
theorem C19_no_invoice_required_witness :
    (XMLIntegrator.processPedido (XMLIntegrator.sampleWorld XMLIntegrator.shippedWithInvoice) XMLIntegrator.sampleService
      XMLIntegrator.sampleToken ⟨[], [], 0, 0, [], ()⟩
      ⟨"2000012345678", "7001", "43210987654", "55001", "Mercado Envios", 1, "PSA"⟩).successCount = 1 ∧
    (XMLIntegrator.processPedido (XMLIntegrator.sampleWorld XMLIntegrator.shippedWithoutInvoice) XMLIntegrator.sampleService
      XMLIntegrator.sampleToken ⟨[], [], 0, 0, [], ()⟩
      ⟨"2000012345678", "7001", "43210987654", "", "Mercado Envios", 1, "PSA"⟩).successCount = 0 ∧
    ((XMLIntegrator.ProcessXMLIntegration (XMLIntegrator.sampleWorld XMLIntegrator.shippedWithInvoice)
      XMLIntegrator.sampleService () "2000012345678").val.map
      (fun r => r.1.toOption.map (fun d =>
        (d.TotalProcessed, d.SuccessCount, d.ErrorCount, d.Results.length)))) =
      some (some (2, 1, 0, 2)) ∧
    XMLIntegrator.ledgerUpdates (XMLIntegrator.ProcessXMLIntegration (XMLIntegrator.sampleWorld XMLIntegrator.shippedWithInvoice)
      XMLIntegrator.sampleService () "2000012345678").trace =
      [("7001", "2"), ("7001", "3"), ("7002", "2")] ∧
    XMLIntegrator.uploadCalls (XMLIntegrator.ProcessXMLIntegration (XMLIntegrator.sampleWorld XMLIntegrator.shippedWithInvoice)
      XMLIntegrator.sampleService () "2000012345678").trace = [] ∧
    ((XMLIntegrator.ProcessXMLIntegration (XMLIntegrator.sampleWorld XMLIntegrator.shippedWithoutInvoice)
      XMLIntegrator.sampleService () "2000012345678").val.map
      (fun r => r.1.toOption.map (fun d =>
        (d.TotalProcessed, d.SuccessCount, d.ErrorCount, d.Results.length)))) =
      some (some (2, 0, 0, 2)) ∧
    XMLIntegrator.ledgerUpdates (XMLIntegrator.ProcessXMLIntegration (XMLIntegrator.sampleWorld XMLIntegrator.shippedWithoutInvoice)
      XMLIntegrator.sampleService () "2000012345678").trace =
      [("7001", "2"), ("7002", "2")] :=
  ⟨((C19_no_invoice_required (XMLIntegrator.sampleWorld XMLIntegrator.shippedWithInvoice) XMLIntegrator.sampleService
      XMLIntegrator.sampleToken ⟨[], [], 0, 0, [], ()⟩
      ⟨"2000012345678", "7001", "43210987654", "55001", "Mercado Envios", 1, "PSA"⟩
      ⟨"55001", "2024-05-02", "7001", "2000012345678", "<nfe>55001</nfe>", "F"⟩
      ⟨"shipped", "", ""⟩ () () () "first"
      rfl rfl rfl (by decide) rfl rfl rfl rfl (by decide) (by decide)).1 (by decide)).1,
   ((C19_no_invoice_required (XMLIntegrator.sampleWorld XMLIntegrator.shippedWithoutInvoice) XMLIntegrator.sampleService
      XMLIntegrator.sampleToken ⟨[], [], 0, 0, [], ()⟩
      ⟨"2000012345678", "7001", "43210987654", "", "Mercado Envios", 1, "PSA"⟩
      ⟨"55001", "2024-05-02", "7001", "2000012345678", "<nfe>55001</nfe>", "F"⟩
      ⟨"shipped", "", ""⟩ () () () "first"
      rfl rfl rfl (by decide) rfl rfl rfl rfl (by decide) (by decide)).2 rfl).1,
   rfl, rfl, rfl, rfl, rfl⟩

/-- Counterexample to C20: in the sample world both records of the order are
pending/buffered, and the run still writes to the ledger row of each of them (the update
with status 2, made before the shipment status is read); neither count changes. -/
theorem C20_counterexample :
    ((XMLIntegrator.ProcessXMLIntegration (XMLIntegrator.sampleWorld XMLIntegrator.scheduled)
      XMLIntegrator.sampleService () "2000012345678").val.map
      (fun r => r.1.toOption.map (fun d =>
        (d.Results.map (fun e => (e.prenota, e.status, e.substatus)), d.SuccessCount,
          d.ErrorCount)))) =
      some (some ([("7001", "pending", "buffered"), ("7002", "pending", "buffered")], 0, 0)) ∧
    XMLIntegrator.ledgerUpdates
      (XMLIntegrator.ProcessXMLIntegration (XMLIntegrator.sampleWorld XMLIntegrator.scheduled)
        XMLIntegrator.sampleService () "2000012345678").trace =
      [("7001", "2"), ("7002", "2")] :=
  ⟨rfl, rfl⟩

/-- C20 (amended): one iteration of Invoice Sync for a record with an invoice whose shipment
status is pending/buffered does nothing after the status check: its exchanges are the
invoice lookup, the ledger update with status 2 and the status check, so it makes no call
of the upload endpoint and no further ledger update, and neither count changes. -/
theorem C20_scheduled_record (w : XMLIntegrator.World σ) (svc : XMLIntegrator.Service)
    (token : String) (acc : XMLIntegrator.Acc σ) (pedido : XMLIntegrator.PedidoInfo)
    (xmlData : XMLIntegrator.OracleXMLData) (mlStatus : XMLIntegrator.MLResponse)
    (s1 s2 s3 : σ) (text : String)
    (hora : svc.oracleDB = true) (hpg : svc.pgDB = true)
    (hx : w.queryOracle acc.st XMLIntegrator.sqlOracle pedido.NumPrenota = (.row xmlData, s1))
    (hne : xmlData.XMLNota ≠ "")
    (hu : w.execUpdate s1 XMLIntegrator.sqlUpdateStatus
      [xmlData.XMLNota, xmlData.Controle, "2", pedido.NumPrenota] = (none, s2))
    (hurl : w.urlError ("https://api.mercadolibre.com/shipments/" ++ pedido.NumEnvio) = none)
    (hm : w.httpDo s2 (XMLIntegrator.shipmentRequest pedido.NumEnvio token) =
      (.resp 200 (.ok text), s3))
    (hdec : w.decodeShipment text = .ok mlStatus)
    (hs : mlStatus.Status = "pending") (hss : mlStatus.Substatus = "buffered") :
    (XMLIntegrator.processPedido w svc token acc pedido).successCount = acc.successCount ∧
    (XMLIntegrator.processPedido w svc token acc pedido).errorCount = acc.errorCount ∧
    (XMLIntegrator.processPedido w svc token acc pedido).trace = acc.trace ++
        [ .oracle XMLIntegrator.sqlOracle pedido.NumPrenota (.row xmlData),
          .exec XMLIntegrator.sqlUpdateStatus
            [xmlData.XMLNota, xmlData.Controle, "2", pedido.NumPrenota] none,
          .http (XMLIntegrator.shipmentRequest pedido.NumEnvio token) (.resp 200 (.ok text)) ] ∧
    XMLIntegrator.uploadCalls (XMLIntegrator.processPedido w svc token acc pedido).trace = XMLIntegrator.uploadCalls acc.trace ∧
    XMLIntegrator.ledgerUpdates (XMLIntegrator.processPedido w svc token acc pedido).trace =
      XMLIntegrator.ledgerUpdates acc.trace ++ [(pedido.NumPrenota, "2")] := by
  have ht : (XMLIntegrator.processPedido w svc token acc pedido).trace = acc.trace ++
        [ .oracle XMLIntegrator.sqlOracle pedido.NumPrenota (.row xmlData),
          .exec XMLIntegrator.sqlUpdateStatus
            [xmlData.XMLNota, xmlData.Controle, "2", pedido.NumPrenota] none,
          .http (XMLIntegrator.shipmentRequest pedido.NumEnvio token) (.resp 200 (.ok text)) ] := by
    simp [XMLIntegrator.processPedido, XMLIntegrator.getXMLDataFromOracle, hora, hpg, hx, hne,
      updatePostgresStatus_ok w svc s1 s2 _ _ _ _ hpg hu, updatePostgresStatus_trace,
      XMLIntegrator.getMLShipmentStatus, hurl, XMLIntegrator.doHTTP, hm, Except.bind, hdec,
      XMLIntegrator.dispatchStatus, hs, hss]
  refine ⟨?_, ?_, ht, ?_, ?_⟩
  · simp [XMLIntegrator.processPedido, XMLIntegrator.getXMLDataFromOracle, hora, hpg, hx, hne,
      updatePostgresStatus_ok w svc s1 s2 _ _ _ _ hpg hu, updatePostgresStatus_trace,
      XMLIntegrator.getMLShipmentStatus, hurl, XMLIntegrator.doHTTP, hm, Except.bind, hdec,
      XMLIntegrator.dispatchStatus, hs, hss]
  · simp [XMLIntegrator.processPedido, XMLIntegrator.getXMLDataFromOracle, hora, hpg, hx, hne,
      updatePostgresStatus_ok w svc s1 s2 _ _ _ _ hpg hu, updatePostgresStatus_trace,
      XMLIntegrator.getMLShipmentStatus, hurl, XMLIntegrator.doHTTP, hm, Except.bind, hdec,
      XMLIntegrator.dispatchStatus, hs, hss]
  · rw [ht]
    simp [XMLIntegrator.uploadCalls, XMLIntegrator.shipmentRequest]
  · rw [ht]
    simp [XMLIntegrator.ledgerUpdates]

/-- Witness of C20 (amended): the first record of the sample order when it is
pending/buffered. -/
theorem C20_scheduled_record_witness :
    (XMLIntegrator.processPedido (XMLIntegrator.sampleWorld XMLIntegrator.scheduled) XMLIntegrator.sampleService
      XMLIntegrator.sampleToken ⟨[], [], 0, 0, [], ()⟩
      ⟨"2000012345678", "7001", "43210987654", "", "Mercado Envios", 1, "PSA"⟩).successCount = 0 ∧
    (XMLIntegrator.processPedido (XMLIntegrator.sampleWorld XMLIntegrator.scheduled) XMLIntegrator.sampleService
      XMLIntegrator.sampleToken ⟨[], [], 0, 0, [], ()⟩
      ⟨"2000012345678", "7001", "43210987654", "", "Mercado Envios", 1, "PSA"⟩).errorCount = 0 ∧
    XMLIntegrator.uploadCalls (XMLIntegrator.processPedido (XMLIntegrator.sampleWorld XMLIntegrator.scheduled) XMLIntegrator.sampleService
      XMLIntegrator.sampleToken ⟨[], [], 0, 0, [], ()⟩
      ⟨"2000012345678", "7001", "43210987654", "", "Mercado Envios", 1, "PSA"⟩).trace = [] ∧
    XMLIntegrator.ledgerUpdates (XMLIntegrator.processPedido (XMLIntegrator.sampleWorld XMLIntegrator.scheduled) XMLIntegrator.sampleService
      XMLIntegrator.sampleToken ⟨[], [], 0, 0, [], ()⟩
      ⟨"2000012345678", "7001", "43210987654", "", "Mercado Envios", 1, "PSA"⟩).trace = [("7001", "2")] :=
  ⟨(C20_scheduled_record (XMLIntegrator.sampleWorld XMLIntegrator.scheduled) XMLIntegrator.sampleService
      XMLIntegrator.sampleToken ⟨[], [], 0, 0, [], ()⟩
      ⟨"2000012345678", "7001", "43210987654", "", "Mercado Envios", 1, "PSA"⟩
      ⟨"55001", "2024-05-02", "7001", "2000012345678", "<nfe>55001</nfe>", "F"⟩
      ⟨"pending", "buffered", ""⟩ () () () "first"
      rfl rfl rfl (by decide) rfl rfl rfl rfl rfl rfl).1,
   (C20_scheduled_record (XMLIntegrator.sampleWorld XMLIntegrator.scheduled) XMLIntegrator.sampleService
      XMLIntegrator.sampleToken ⟨[], [], 0, 0, [], ()⟩
      ⟨"2000012345678", "7001", "43210987654", "", "Mercado Envios", 1, "PSA"⟩
      ⟨"55001", "2024-05-02", "7001", "2000012345678", "<nfe>55001</nfe>", "F"⟩
      ⟨"pending", "buffered", ""⟩ () () () "first"
      rfl rfl rfl (by decide) rfl rfl rfl rfl rfl rfl).2.1,
   (C20_scheduled_record (XMLIntegrator.sampleWorld XMLIntegrator.scheduled) XMLIntegrator.sampleService
      XMLIntegrator.sampleToken ⟨[], [], 0, 0, [], ()⟩
      ⟨"2000012345678", "7001", "43210987654", "", "Mercado Envios", 1, "PSA"⟩
      ⟨"55001", "2024-05-02", "7001", "2000012345678", "<nfe>55001</nfe>", "F"⟩
      ⟨"pending", "buffered", ""⟩ () () () "first"
      rfl rfl rfl (by decide) rfl rfl rfl rfl rfl rfl).2.2.2.1,
   (C20_scheduled_record (XMLIntegrator.sampleWorld XMLIntegrator.scheduled) XMLIntegrator.sampleService
      XMLIntegrator.sampleToken ⟨[], [], 0, 0, [], ()⟩
      ⟨"2000012345678", "7001", "43210987654", "", "Mercado Envios", 1, "PSA"⟩
      ⟨"55001", "2024-05-02", "7001", "2000012345678", "<nfe>55001</nfe>", "F"⟩
      ⟨"pending", "buffered", ""⟩ () () () "first"
      rfl rfl rfl (by decide) rfl rfl rfl rfl rfl rfl).2.2.2.2⟩

/-- C21: one iteration of Invoice Sync for a record for which the invoice lookup finds no
row, fails, or finds a row with an empty XML.  Its exchanges are the lookup and one
Notifier message: it issues no ledger update and no marketplace request, adds no result,
counts an error, and the loop goes on with the next record (the log of a batch has the
opening entry of each of its records). -/
theorem C21_no_invoice_data (w : XMLIntegrator.World σ) (svc : XMLIntegrator.Service)
    (token : String) (acc : XMLIntegrator.Acc σ) (pedido : XMLIntegrator.PedidoInfo)
    (reply : XMLIntegrator.OracleReply) (s1 : σ)
    (hora : svc.oracleDB = true)
    (hx : w.queryOracle acc.st XMLIntegrator.sqlOracle pedido.NumPrenota = (reply, s1))
    (hno : reply = .noRows ∨ (∃ e, reply = .failed e) ∨ ∃ d, reply = .row d ∧ d.XMLNota = "") :
    (∃ message, (XMLIntegrator.processPedido w svc token acc pedido).trace =
      acc.trace ++ [.oracle XMLIntegrator.sqlOracle pedido.NumPrenota reply] ++
        (XMLIntegrator.sendTelegramMessage w s1 message).trace) ∧
    XMLIntegrator.ledgerUpdates (XMLIntegrator.processPedido w svc token acc pedido).trace =
      XMLIntegrator.ledgerUpdates acc.trace ∧
    XMLIntegrator.marketplaceCalls (XMLIntegrator.processPedido w svc token acc pedido).trace =
      XMLIntegrator.marketplaceCalls acc.trace ∧
    (XMLIntegrator.processPedido w svc token acc pedido).results = acc.results ∧
    (XMLIntegrator.processPedido w svc token acc pedido).successCount = acc.successCount ∧
    (XMLIntegrator.processPedido w svc token acc pedido).errorCount = acc.errorCount + 1 ∧
    (∀ rest : List XMLIntegrator.PedidoInfo,
      XMLIntegrator.pedidoLoop w svc token (pedido :: rest) acc =
        XMLIntegrator.pedidoLoop w svc token rest
          (XMLIntegrator.processPedido w svc token acc pedido)) ∧
    (∀ (pedidos : List XMLIntegrator.PedidoInfo) (init : XMLIntegrator.Acc σ),
      (XMLIntegrator.pedidoLoop w svc token pedidos init).logs.filter
          (fun l => l.Step = "Processamento") =
        init.logs.filter (fun l => l.Step = "Processamento") ++
          pedidos.map XMLIntegrator.startedEntry) := by
  have key : ∃ message, (XMLIntegrator.processPedido w svc token acc pedido).trace =
        acc.trace ++ [.oracle XMLIntegrator.sqlOracle pedido.NumPrenota reply] ++
          (XMLIntegrator.sendTelegramMessage w s1 message).trace ∧
      (XMLIntegrator.processPedido w svc token acc pedido).results = acc.results ∧
      (XMLIntegrator.processPedido w svc token acc pedido).successCount = acc.successCount ∧
      (XMLIntegrator.processPedido w svc token acc pedido).errorCount = acc.errorCount + 1 := by
    rcases hno with rfl | ⟨e, rfl⟩ | ⟨d, rfl, hd⟩
    · refine ⟨("⚠️ Pedido " ++ pedido.NumPedido ++ " ainda não possui XML"), ?_⟩
      simp [XMLIntegrator.processPedido, XMLIntegrator.getXMLDataFromOracle, hora, hx]
    · have hf : ∀ err : String, err = ("erro ao buscar XML: " ++ e) → ∃ message,
          (XMLIntegrator.processPedido w svc token acc pedido).trace =
            acc.trace ++ [.oracle XMLIntegrator.sqlOracle pedido.NumPrenota (.failed e)] ++
              (XMLIntegrator.sendTelegramMessage w s1 message).trace ∧
          (XMLIntegrator.processPedido w svc token acc pedido).results = acc.results ∧
          (XMLIntegrator.processPedido w svc token acc pedido).successCount =
            acc.successCount ∧
          (XMLIntegrator.processPedido w svc token acc pedido).errorCount =
            acc.errorCount + 1 := by
        intro err herr
        refine ⟨("❌ Erro ao buscar XML para pedido " ++ pedido.NumPedido ++ ": " ++ err), ?_⟩
        subst herr
        simp [XMLIntegrator.processPedido, XMLIntegrator.getXMLDataFromOracle, hora, hx]
      exact hf _ rfl
    · refine ⟨("⚠️ Pedido " ++ pedido.NumPedido ++ " possui XML vazio"), ?_⟩
      simp [XMLIntegrator.processPedido, XMLIntegrator.getXMLDataFromOracle, hora, hx, hd]
  obtain ⟨message, ht, hr, hs, he⟩ := key
  refine ⟨⟨message, ht⟩, ?_, ?_, hr, hs, he, fun rest => rfl,
    fun pedidos init => pedidoLoop_started w svc token pedidos init⟩
  · rw [ht, xml_ledgerUpdates_append, xml_ledgerUpdates_append,
      (xml_sendTelegramMessage_quiet w s1 message).1]
    simp [XMLIntegrator.ledgerUpdates]
  · rw [ht, xml_marketplaceCalls_append, xml_marketplaceCalls_append,
      (xml_sendTelegramMessage_quiet w s1 message).2.1]
    simp [XMLIntegrator.marketplaceCalls]

/-- Witness of C21: the sample world in which the ERP database holds no invoice data for the
first record; the second record is still looked up and written. -/
theorem C21_no_invoice_data_witness :
    XMLIntegrator.ledgerUpdates (XMLIntegrator.processPedido XMLIntegrator.noInvoiceWorld XMLIntegrator.sampleService
      XMLIntegrator.sampleToken ⟨[], [], 0, 0, [], ()⟩
      ⟨"2000012345678", "7001", "43210987654", "", "Mercado Envios", 1, "PSA"⟩).trace = [] ∧
    XMLIntegrator.marketplaceCalls (XMLIntegrator.processPedido XMLIntegrator.noInvoiceWorld XMLIntegrator.sampleService
      XMLIntegrator.sampleToken ⟨[], [], 0, 0, [], ()⟩
      ⟨"2000012345678", "7001", "43210987654", "", "Mercado Envios", 1, "PSA"⟩).trace = [] ∧
    (XMLIntegrator.processPedido XMLIntegrator.noInvoiceWorld XMLIntegrator.sampleService
      XMLIntegrator.sampleToken ⟨[], [], 0, 0, [], ()⟩
      ⟨"2000012345678", "7001", "43210987654", "", "Mercado Envios", 1, "PSA"⟩).errorCount = 1 ∧
    ((XMLIntegrator.ProcessXMLIntegration XMLIntegrator.noInvoiceWorld
      XMLIntegrator.sampleService () "2000012345678").val.map
      (fun r => r.1.toOption.map (fun d =>
        (d.TotalProcessed, d.SuccessCount, d.ErrorCount, d.Results.length)))) =
      some (some (2, 0, 1, 1)) ∧
    XMLIntegrator.invoiceLookups (XMLIntegrator.ProcessXMLIntegration XMLIntegrator.noInvoiceWorld
      XMLIntegrator.sampleService () "2000012345678").trace = ["7001", "7002"] ∧
    XMLIntegrator.ledgerUpdates (XMLIntegrator.ProcessXMLIntegration XMLIntegrator.noInvoiceWorld
      XMLIntegrator.sampleService () "2000012345678").trace = [("7002", "2")] ∧
    XMLIntegrator.marketplaceCalls (XMLIntegrator.ProcessXMLIntegration XMLIntegrator.noInvoiceWorld
      XMLIntegrator.sampleService () "2000012345678").trace =
      ["https://api.mercadolibre.com/shipments/43210987655"] :=
  ⟨(C21_no_invoice_data XMLIntegrator.noInvoiceWorld XMLIntegrator.sampleService
      XMLIntegrator.sampleToken ⟨[], [], 0, 0, [], ()⟩
      ⟨"2000012345678", "7001", "43210987654", "", "Mercado Envios", 1, "PSA"⟩
      .noRows () rfl rfl (Or.inl rfl)).2.1,
   (C21_no_invoice_data XMLIntegrator.noInvoiceWorld XMLIntegrator.sampleService
      XMLIntegrator.sampleToken ⟨[], [], 0, 0, [], ()⟩
      ⟨"2000012345678", "7001", "43210987654", "", "Mercado Envios", 1, "PSA"⟩
      .noRows () rfl rfl (Or.inl rfl)).2.2.1,
   (C21_no_invoice_data XMLIntegrator.noInvoiceWorld XMLIntegrator.sampleService
      XMLIntegrator.sampleToken ⟨[], [], 0, 0, [], ()⟩
      ⟨"2000012345678", "7001", "43210987654", "", "Mercado Envios", 1, "PSA"⟩
      .noRows () rfl rfl (Or.inl rfl)).2.2.2.2.2.1,
   rfl, rfl, rfl, rfl⟩

/-- C22 (code bug): the status of a ledger record is never read: an iteration does the same
for a record whatever its status is; in the sample world whose only ledger record of the
order is at status 0, the run looks up the invoice of that record, writes status 2 and
then status 3 to its ledger row and uploads its invoice. -/
theorem C22_status_not_checked :
    (∀ (w : XMLIntegrator.World σ) (svc : XMLIntegrator.Service) (token : String)
      (acc : XMLIntegrator.Acc σ) (pedido : XMLIntegrator.PedidoInfo) (status : Int),
      XMLIntegrator.processPedido w svc token acc { pedido with FlgStatusPedido := status } =
        XMLIntegrator.processPedido w svc token acc pedido) ∧
    ((XMLIntegrator.getPedidosFromPostgres XMLIntegrator.statusZeroWorld
      XMLIntegrator.sampleService () "2000012345678").val.map
      (fun r => r.toOption.map (fun l => l.map (fun p => (p.NumPrenota, p.FlgStatusPedido))))) =
      some (some [("7001", 0)]) ∧
    ((XMLIntegrator.ProcessXMLIntegration XMLIntegrator.statusZeroWorld
      XMLIntegrator.sampleService () "2000012345678").val.map
      (fun r => r.1.toOption.map (fun d =>
        (d.TotalProcessed, d.SuccessCount, d.ErrorCount, d.Results.length)))) =
      some (some (1, 1, 0, 1)) ∧
    XMLIntegrator.invoiceLookups (XMLIntegrator.ProcessXMLIntegration XMLIntegrator.statusZeroWorld
      XMLIntegrator.sampleService () "2000012345678").trace = ["7001"] ∧
    XMLIntegrator.ledgerUpdates (XMLIntegrator.ProcessXMLIntegration XMLIntegrator.statusZeroWorld
      XMLIntegrator.sampleService () "2000012345678").trace =
      [("7001", "2"), ("7001", "3")] ∧
    XMLIntegrator.uploadCalls (XMLIntegrator.ProcessXMLIntegration XMLIntegrator.statusZeroWorld
      XMLIntegrator.sampleService () "2000012345678").trace =
      ["https://api.mercadolibre.com/shipments/43210987654/invoice_data?siteId=MLB"] :=
  ⟨fun _ _ _ _ _ _ => rfl, rfl, rfl, rfl, rfl, rfl⟩

/-- C23 (code bug): a run of ProcessXMLIntegration that processes one or more records
returns a log that is not empty, but leaves the service as it was and pushes nothing to
the hub, so GetLogs answers for its process id what it answered before the run; only the
run that finds no ledger record retains its log and, with a hub, pushes each entry. -/
theorem C23_log_not_retained (w : XMLIntegrator.World σ) (svc svc2 : XMLIntegrator.Service)
    (s : σ) (numPedido : String) (r : XMLIntegrator.Response)
    (h : (XMLIntegrator.ProcessXMLIntegration w svc s numPedido).val = some (.ok r, svc2)) :
    (r.TotalProcessed ≠ 0 →
      r.Logs ≠ [] ∧ svc2 = svc ∧
      XMLIntegrator.GetLogs svc2 numPedido = XMLIntegrator.GetLogs svc numPedido ∧
      XMLIntegrator.broadcasts (XMLIntegrator.ProcessXMLIntegration w svc s numPedido).trace =
        []) ∧
    (r.TotalProcessed = 0 →
      XMLIntegrator.GetLogs svc2 numPedido = r.Logs ∧
      (svc.wsHub = true →
        XMLIntegrator.broadcasts (XMLIntegrator.ProcessXMLIntegration w svc s numPedido).trace =
          r.Logs.map (fun l => ⟨"log", l.Level, l.Step, l.Message, numPedido⟩))) := by
  generalize hR : XMLIntegrator.ProcessXMLIntegration w svc s numPedido = R at h
  simp only [XMLIntegrator.ProcessXMLIntegration] at hR
  split at hR
  · subst hR
    simp at h
  · subst hR
    simp at h
  · subst hR
    simp only [Option.some.injEq, Prod.mk.injEq, Except.ok.injEq] at h
    obtain ⟨rfl, rfl⟩ := h
    refine ⟨fun hn => absurd rfl hn, fun _ => ⟨?_, ?_⟩⟩
    · simp [XMLIntegrator.GetLogs, XMLIntegrator.setLogs, List.lookup]
    · intro hub
      simp only [xml_broadcasts_append, xml_getPedidos_broadcasts, hub, if_true,
        List.nil_append]
      simp [XMLIntegrator.broadcasts, XMLIntegrator.noRecordLogs]
  · split at hR
    · subst hR
      simp at h
    · subst hR
      simp at h
    · subst hR
      simp only [Option.some.injEq, Prod.mk.injEq, Except.ok.injEq] at h
      obtain ⟨rfl, rfl⟩ := h
      refine ⟨fun _ => ⟨by simp, rfl, rfl, ?_⟩, fun h0 => ?_⟩
      · simp only [xml_broadcasts_append, xml_pedidoLoop_broadcasts, xml_getPedidos_broadcasts,
          xml_getMLToken_broadcasts, (xml_sendTelegramMessage_quiet _ _ _).2.2, List.append_nil]
      · simp at h0

/-- Witness of C23: the run of the sample world that uploads the invoice of the first record
returns a log of eighteen entries and retains none; the run for an order without ledger
record retains the four entries it returns. -/
theorem C23_log_not_retained_witness :
    (∃ r svc2, (XMLIntegrator.ProcessXMLIntegration
        (XMLIntegrator.sampleWorld XMLIntegrator.uploadAccepted) XMLIntegrator.sampleService ()
        "2000012345678").val = some (.ok r, svc2) ∧
      r.Logs.length = 18 ∧ XMLIntegrator.GetLogs svc2 "2000012345678" = [] ∧
      XMLIntegrator.broadcasts (XMLIntegrator.ProcessXMLIntegration
        (XMLIntegrator.sampleWorld XMLIntegrator.uploadAccepted) XMLIntegrator.sampleService ()
        "2000012345678").trace = []) ∧
    (∃ r svc2, (XMLIntegrator.ProcessXMLIntegration
        (XMLIntegrator.sampleWorld XMLIntegrator.uploadAccepted) XMLIntegrator.sampleService ()
        "999").val = some (.ok r, svc2) ∧
      r.Logs.length = 4 ∧ XMLIntegrator.GetLogs svc2 "999" = r.Logs) :=
  ⟨⟨_, _, rfl, rfl,
      ((C23_log_not_retained (XMLIntegrator.sampleWorld XMLIntegrator.uploadAccepted)
        XMLIntegrator.sampleService _ () "2000012345678" _ rfl).1 (by decide)).2.2.1.trans rfl,
      ((C23_log_not_retained (XMLIntegrator.sampleWorld XMLIntegrator.uploadAccepted)
        XMLIntegrator.sampleService _ () "2000012345678" _ rfl).1 (by decide)).2.2.2⟩,
   ⟨_, _, rfl, rfl,
      ((C23_log_not_retained (XMLIntegrator.sampleWorld XMLIntegrator.uploadAccepted)
        XMLIntegrator.sampleService _ () "999" _ rfl).2 rfl).1⟩⟩

/-- C24: in every state the hub reaches from NewHub, the broadcast step of Run ends
without a panic and without waiting, and it does to every client what is said of it: a
registered client with fewer than 256 queued messages has the message appended to its
queue and stays registered, a registered client with a full queue is removed from the
registry and its channel is closed without the message, and any other client is left as
it is. -/
theorem C24_broadcast (steps : List Hub.Step) (st : Hub.State) (message : String)
    (h : Hub.runFrom Hub.NewHub steps = some st) :
    Hub.step st (.broadcast message) = some (st.map (Hub.afterBroadcast message)) ∧
    (∀ c ∈ st, c.registered = true → c.queue.length < 256 →
      Hub.afterBroadcast message c = { c with queue := c.queue ++ [message] } ∧
      (Hub.afterBroadcast message c).registered = true ∧
      (Hub.afterBroadcast message c).closed = false) ∧
    (∀ c ∈ st, c.registered = true → ¬ c.queue.length < 256 →
      Hub.afterBroadcast message c = { c with closed := true, registered := false }) ∧
    (∀ c ∈ st, c.registered = false → Hub.afterBroadcast message c = c) := by
  obtain ⟨st2, h2, hw⟩ := hub_runFrom_wf steps Hub.NewHub rfl
  rw [h] at h2
  cases h2
  refine ⟨hub_broadcastAll_wf message st hw, ?_, ?_, ?_⟩
  · intro c hc hr hq
    have hcl := ((hub_wellFormed_iff st).mp hw c hc).2
    simp [Hub.afterBroadcast, hr, hq, hcl]
  · intro c _ hr hq
    simp [Hub.afterBroadcast, hr, hq]
  · intro c _ hr
    simp [Hub.afterBroadcast, hr]

/-- Witness of C24: after the sample history the first client has 256 queued messages and
the second none; a broadcast evicts the first and reaches the second. -/
theorem C24_broadcast_witness :
    Hub.runFrom Hub.NewHub Hub.sampleSteps =
      some [⟨List.replicate 256 "m", 256, false, true⟩, ⟨[], 256, false, true⟩] ∧
    Hub.step [⟨List.replicate 256 "m", 256, false, true⟩, ⟨[], 256, false, true⟩]
        (.broadcast "x") =
      some [⟨List.replicate 256 "m", 256, true, false⟩, ⟨["x"], 256, false, true⟩] :=
  ⟨rfl, (C24_broadcast Hub.sampleSteps _ "x" rfl).1⟩

/-- C25: two invocations for the order 2000012345678 on the sample ledger, where the
existence check of the second is answered before the first has written (the first then
runs from start to end).  The check of the second run finds no row.  On a ledger that
refuses a second row for an order id, the first run performs the initial write and
succeeds, while the second run registers the customer and the address again, has its
initial write refused and ends with total 1, success 0, error 1 and a last log entry of
level error for that write; its log has no entry that reports the order as already
processed.  On a ledger that accepts a second row, both runs perform the initial write and
all five write steps, both succeed, and the ledger ends with two rows for the order. -/
theorem C25_concurrent_invocations :
    (ProcessIntegration (withConcurrentRun (ledgerEnv true acceptedOrderDoc) sampleRequest)
        ([], false) sampleRequest).trace.head? =
      some (Event.query DB.pg sqlValidate ["2000012345678"] .noRows) ∧
    insertAccepted (ProcessIntegration (ledgerEnv true acceptedOrderDoc) [] sampleRequest).trace
      = true ∧
    (ProcessIntegration (ledgerEnv true acceptedOrderDoc) [] sampleRequest).val.map
        (fun r => (r.TotalProcessed, r.SuccessCount, r.ErrorCount)) = some (1, 1, 0) ∧
    (ProcessIntegration (withConcurrentRun (ledgerEnv true acceptedOrderDoc) sampleRequest)
        ([], false) sampleRequest).st = (["2000012345678"], true) ∧
    writeOps (ProcessIntegration
        (withConcurrentRun (ledgerEnv true acceptedOrderDoc) sampleRequest)
        ([], false) sampleRequest).trace =
      [.registerCustomer, .registerAddress, .insertInitial] ∧
    insertAccepted (ProcessIntegration
        (withConcurrentRun (ledgerEnv true acceptedOrderDoc) sampleRequest)
        ([], false) sampleRequest).trace = false ∧
    (ProcessIntegration (withConcurrentRun (ledgerEnv true acceptedOrderDoc) sampleRequest)
        ([], false) sampleRequest).val.map
        (fun r => (r.TotalProcessed, r.SuccessCount, r.ErrorCount, r.Logs.getLast?,
          r.Logs.filter (fun l => l.Level = "warning"))) =
      some (1, 0, 1,
        some ⟨"error", "üìù",
          ("Erro ao inserir status inicial: " ++ "duplicate key value violates unique constraint")⟩, []) ∧
    insertAccepted (ProcessIntegration
        (withConcurrentRun (ledgerEnv false acceptedOrderDoc) sampleRequest)
        ([], false) sampleRequest).trace = true ∧
    writeOps (ProcessIntegration
        (withConcurrentRun (ledgerEnv false acceptedOrderDoc) sampleRequest)
        ([], false) sampleRequest).trace = sagaWrites ∧
    (ProcessIntegration (withConcurrentRun (ledgerEnv false acceptedOrderDoc) sampleRequest)
        ([], false) sampleRequest).val.map
        (fun r => (r.TotalProcessed, r.SuccessCount, r.ErrorCount)) = some (1, 1, 0) ∧
    (ProcessIntegration (withConcurrentRun (ledgerEnv false acceptedOrderDoc) sampleRequest)
        ([], false) sampleRequest).st = (["2000012345678", "2000012345678"], true) := by
  refine ⟨?_, ?_, ?_, ?_, ?_, ?_, ?_, ?_, ?_, ?_, ?_⟩
  · rfl
  · rfl
  · rfl
  · rfl
  · rfl
  · rfl
  · rfl
  · rfl
  · rfl
  · rfl
  · rfl

/-- Counterexample to C26: two order submissions of the sample world that differ only in
the customer code resolved upstream carry different customer ids in their payloads (and
the same card number). -/
theorem C26_counterexample :
    (submittedPayloads (processItemsAndSendOrder (sampleEnv happy) () sampleOrder "17" "7"
      "12345678909" "nbs-1").trace).map (fun m => (m.get "COD_CLIENTE", payloadCardNumber m)) =
      [(some (.str "12345678909"), some (.str "9999999999999999"))] ∧
    (submittedPayloads (processItemsAndSendOrder (sampleEnv happy) () sampleOrder "17" "7"
      "98765432100" "nbs-1").trace).map (fun m => (m.get "COD_CLIENTE", payloadCardNumber m)) =
      [(some (.str "98765432100"), some (.str "9999999999999999"))] ∧
    (JSONValue.str "12345678909" ≠ JSONValue.str "98765432100") :=
  ⟨rfl, rfl, fun h => absurd (JSONValue.str.inj h) (by decide)⟩

/-- C26 (amended): every payload that processItemsAndSendOrder submits carries the customer
code it was called with as COD_CLIENTE, and the same web order number 1005502702 and the
same card number 9999999999999999 whatever the order and the customer are. -/
theorem C26_payload_fields (env : Env σ) (s : σ) (order : MLOrder)
    (ce cf cc tk : String) :
    ∀ m ∈ submittedPayloads (processItemsAndSendOrder env s order ce cf cc tk).trace,
      m.get "COD_CLIENTE" = some (.str cc) ∧
      m.get "COD_PEDIDO_WEB" = some (jsonInt 1005502702) ∧
      payloadCardNumber m = some (.str "9999999999999999") := by
  have hl := submittedPayloads_of_noHTTP _ (itemLoop_noHTTP env s ce cf order.OrderItems)
  generalize h : processItemsAndSendOrder env s order ce cf cc tk = r
  simp only [processItemsAndSendOrder] at h
  repeat' split at h
  all_goals subst h
  all_goals simp only [submittedPayloads_append, hl, doHTTP, List.nil_append,
    List.not_mem_nil, false_imp_iff, implies_true]
  all_goals (
    intro m hm
    simp only [submittedPayloads, List.filterMap_cons, List.filterMap_nil, if_true,
      List.mem_singleton] at hm
    subst hm
    exact dataPedidoMap_fields _ _ _ _)

/-- Witness of C26 (amended): the order submission of the sample world. -/
theorem C26_payload_fields_witness :
    ∃ m, m ∈ submittedPayloads (processItemsAndSendOrder (sampleEnv happy) () sampleOrder
        "17" "7" "12345678909" "nbs-1").trace ∧
      m.get "COD_CLIENTE" = some (.str "12345678909") ∧
      m.get "COD_PEDIDO_WEB" = some (jsonInt 1005502702) ∧
      payloadCardNumber m = some (.str "9999999999999999") :=
  ⟨_, List.mem_of_mem_head? rfl,
    C26_payload_fields (sampleEnv happy) () sampleOrder "17" "7" "12345678909" "nbs-1" _
      (List.mem_of_mem_head? rfl)⟩

/-- C27 (code bug): for an order that the Order Fetcher returns without line items,
processOrder returns no result: the access to the first line item panics, after the
order request as the only exchange. -/
theorem C27_order_without_items (env : Env σ) (s : σ)
    (numPedido conta tokenML tokenUser : String) (order : MLOrder)
    (ho : (getMLOrder env s numPedido tokenML).val = .ok order)
    (he : order.OrderItems = []) :
    (processOrder env s numPedido conta tokenML tokenUser).val = none ∧
    (processOrder env s numPedido conta tokenML tokenUser).trace =
      (getMLOrder env s numPedido tokenML).trace := by
  simp [processOrder, ho, he]

/-- Witness of C27: the sample world in which the marketplace returns the order without
line items; neither processOrder nor ProcessIntegration returns a result. -/
theorem C27_order_without_items_witness :
    (getMLOrder emptyOrderEnv () "2000012345678" "APP_USR-1234-5678").val =
      .ok { sampleOrder with OrderItems := [] } ∧
    (processOrder emptyOrderEnv () "2000012345678" "psa" "APP_USR-1234-5678" "5678").val =
      none ∧
    (ProcessIntegration emptyOrderEnv () sampleRequest).val = none :=
  ⟨rfl,
   (C27_order_without_items emptyOrderEnv () "2000012345678" "psa" "APP_USR-1234-5678" "5678"
     { sampleOrder with OrderItems := [] } rfl rfl).1,
   rfl⟩

/-- C28: for a ledger that keeps its rows (an accepted initial write leaves a row for the
order id, no later exchange removes it, and the existence check finds it), a run of
`ProcessIntegration` whose initial ledger write was accepted ends with the row in place,
whatever happened afterwards; and every invocation for the same order id from a state that
has the row answers with success count 0, error count 1, no results and a last log entry
of level warning that reports the order as already processed, after a single exchange, the
existence check, and leaves the row in place. -/
theorem C28_row_remains {env : Env σ} {has : σ → Bool} (s : σ) (req : IntegrationRequest)
    (hL : LedgerKeepsRow env req.NumPedido has)
    (hacc : insertAccepted (ProcessIntegration env s req).trace = true) :
    has (ProcessIntegration env s req).st = true ∧
    ∀ (s2 : σ) (req2 : IntegrationRequest), req2.NumPedido = req.NumPedido →
      has s2 = true →
      ∃ cols, (ProcessIntegration env s2 req2).trace =
          [Event.query DB.pg sqlValidate [req.NumPedido] (.firstRow cols)] ∧
        has (ProcessIntegration env s2 req2).st = true ∧
        ∃ r, (ProcessIntegration env s2 req2).val = some r ∧
          r.TotalProcessed = 0 ∧ r.SuccessCount = 0 ∧ r.ErrorCount = 1 ∧ r.Results = [] ∧
          r.Logs.getLast? = some ⟨"warning", "‚ö†Ô∏è", ("Pedido " ++ req.NumPedido ++ " j√° foi processado anteriormente")⟩ := by
  refine ⟨keepsRow_ProcessIntegration s req hL hacc, ?_⟩
  intro s2 req2 hreq h2
  obtain ⟨cols, hc⟩ := hL.check_finds s2 h2
  have hk := hL.query_keeps s2 DB.pg sqlValidate [req.NumPedido] h2
  refine ⟨cols, ?_, ?_, ?_⟩
  · simp [ProcessIntegration, doQuery, hreq, hc]
  · simpa [ProcessIntegration, doQuery, hreq, hc] using hk
  · simp [ProcessIntegration, doQuery, hreq, hc]

/-- Witness of C28 on the sample ledger, where the ERP answers the order submission
without a document number: the run registers customer and address, writes the initial
ledger row, submits the order and fails there (total 1, success 0, error 1), and the ledger
then holds the row; a second invocation from that state gets the already-processed
answer. -/
theorem C28_row_remains_witness :
    writeOps (ProcessIntegration (ledgerEnv true emptyNumberDoc) [] sampleRequest).trace =
      [.registerCustomer, .registerAddress, .insertInitial, .submitOrder] ∧
    (ProcessIntegration (ledgerEnv true emptyNumberDoc) [] sampleRequest).val.map
        (fun r => (r.TotalProcessed, r.SuccessCount, r.ErrorCount)) = some (1, 0, 1) ∧
    insertAccepted (ProcessIntegration (ledgerEnv true emptyNumberDoc) [] sampleRequest).trace
      = true ∧
    (ProcessIntegration (ledgerEnv true emptyNumberDoc) [] sampleRequest).st
      = ["2000012345678"] ∧
    (ProcessIntegration (ledgerEnv true emptyNumberDoc) ["2000012345678"] sampleRequest).val.map
        (fun r => (r.TotalProcessed, r.SuccessCount, r.ErrorCount, r.Results)) =
      some (0, 0, 1, []) ∧
    ((fun s => s.contains sampleRequest.NumPedido)
        (ProcessIntegration (ledgerEnv true emptyNumberDoc) [] sampleRequest).st = true ∧
      ∀ (s2 : List String) (req2 : IntegrationRequest),
        req2.NumPedido = sampleRequest.NumPedido →
        (fun s => s.contains sampleRequest.NumPedido) s2 = true →
        ∃ cols, (ProcessIntegration (ledgerEnv true emptyNumberDoc) s2 req2).trace =
            [Event.query DB.pg sqlValidate [sampleRequest.NumPedido] (.firstRow cols)] ∧
          (fun s => s.contains sampleRequest.NumPedido)
            (ProcessIntegration (ledgerEnv true emptyNumberDoc) s2 req2).st = true ∧
          ∃ r, (ProcessIntegration (ledgerEnv true emptyNumberDoc) s2 req2).val = some r ∧
            r.TotalProcessed = 0 ∧ r.SuccessCount = 0 ∧ r.ErrorCount = 1 ∧ r.Results = [] ∧
            r.Logs.getLast? =
              some ⟨"warning", "‚ö†Ô∏è", ("Pedido " ++ sampleRequest.NumPedido ++ " j√° foi processado anteriormente")⟩) :=
  ⟨rfl, rfl, rfl, rfl, rfl,
    C28_row_remains [] sampleRequest
      (ledgerEnv_keepsRow true emptyNumberDoc sampleRequest.NumPedido) rfl⟩

/-- C29: every sequence of register, unregister, broadcast and receive steps from NewHub
runs without a panic (no channel is closed twice, nothing is sent on a closed channel),
and in the state it reaches the channel of a client is closed exactly when the client is
not in the registry; every further step runs without a panic as well, and unregistering a
client that is not in the registry leaves the state as it is. -/
theorem C29_hub_invariant (steps : List Hub.Step) :
    ∃ st, Hub.runFrom Hub.NewHub steps = some st ∧
      (∀ c ∈ st, (c.closed = true ↔ c.registered = false)) ∧
      (∀ a, ∃ st2, Hub.step st a = some st2) ∧
      (∀ i c, st[i]? = some c → c.registered = false →
        Hub.step st (.unregister i) = some st) := by
  obtain ⟨st, h, hw⟩ := hub_runFrom_wf steps Hub.NewHub rfl
  refine ⟨st, h, ?_, ?_, ?_⟩
  · intro c hc
    have hcl := ((hub_wellFormed_iff st).mp hw c hc).2
    rw [hcl]
    cases c.registered <;> simp
  · intro a
    obtain ⟨st2, h2, _⟩ := hub_step_wf st a hw
    exact ⟨st2, h2⟩
  · intro i c hi hr
    exact hub_unregister_again st i c hi hr

/-- Witness of C29: the sample history followed by a broadcast that evicts the first
client and by two unregistrations of that client. -/
theorem C29_hub_invariant_witness :
    Hub.runFrom Hub.NewHub
        (Hub.sampleSteps ++ [.broadcast "x", .unregister 0, .unregister 1, .unregister 0]) =
      some [⟨List.replicate 256 "m", 256, true, false⟩, ⟨["x"], 256, true, false⟩] ∧
    ∃ st, Hub.runFrom Hub.NewHub
        (Hub.sampleSteps ++ [.broadcast "x", .unregister 0, .unregister 1, .unregister 0]) =
        some st ∧
      (∀ c ∈ st, (c.closed = true ↔ c.registered = false)) ∧
      (∀ a, ∃ st2, Hub.step st a = some st2) ∧
      (∀ i c, st[i]? = some c → c.registered = false →
        Hub.step st (.unregister i) = some st) :=
  ⟨rfl, C29_hub_invariant
    (Hub.sampleSteps ++ [.broadcast "x", .unregister 0, .unregister 1, .unregister 0])⟩

/-- C30: for every doc_type, doc_number and list of name/value pairs of strings (with
pairwise distinct names or not), the map built from additional_info given as an array of
name/value objects is the map built from it given as one object, and so getMLClientData
derives the same name, kind and customer record from both: what it returns for a billing
answer in the array form is the record of the object form. -/
theorem C30_additional_info_forms (env : Env σ) (docType docNumber : String)
    (pairs : List (String × String)) :
    additionalInfoMap (infoArray pairs) = additionalInfoMap (infoObject pairs) ∧
    nomeTipoCliente env ⟨docType, docNumber, infoArray pairs⟩ =
      nomeTipoCliente env ⟨docType, docNumber, infoObject pairs⟩ ∧
    clienteDataOf env ⟨docType, docNumber, infoArray pairs⟩ =
      clienteDataOf env ⟨docType, docNumber, infoObject pairs⟩ ∧
    (∀ (s : σ) (numPedido tokenML : String) (body : Except GoError String),
      env.urlError ("https://api.mercadolibre.com/orders/" ++ numPedido ++ "/billing_info") = none →
      (env.httpDo s (mlBearerRequest ("https://api.mercadolibre.com/orders/" ++ numPedido ++ "/billing_info") tokenML)).1 = .resp 200 body →
      body.bind env.decodeBilling = .ok ⟨docType, docNumber, infoArray pairs⟩ →
      (getMLClientData env s numPedido tokenML).val =
        .ok (clienteDataOf env ⟨docType, docNumber, infoObject pairs⟩)) := by
  have h : additionalInfoMap (infoArray pairs) = additionalInfoMap (infoObject pairs) := by
    simp only [additionalInfoMap, infoArray, infoObject, foldl_addInfoItem_pairs,
      List.nil_append]
  have h2 : nomeTipoCliente env ⟨docType, docNumber, infoArray pairs⟩ =
      nomeTipoCliente env ⟨docType, docNumber, infoObject pairs⟩ := by
    simp only [nomeTipoCliente, h]
  have h3 : clienteDataOf env ⟨docType, docNumber, infoArray pairs⟩ =
      clienteDataOf env ⟨docType, docNumber, infoObject pairs⟩ := by
    simp only [clienteDataOf, h2]
  refine ⟨h, h2, h3, ?_⟩
  intro s numPedido tokenML body hurl hresp hdec
  rw [← h3]
  simp [getMLClientData, doHTTP, hurl, hresp, hdec]

/-- Witness of C30: the billing answer of the sample world, which is in the array form. -/
theorem C30_additional_info_forms_witness :
    (getMLClientData (sampleEnv happy) () "2000012345678" "APP_USR-1234-5678").val =
      .ok (clienteDataOf (sampleEnv happy) ⟨"CPF", "12345678909",
        infoObject [("FIRST_NAME", "Ana"), ("LAST_NAME", "Lima")]⟩) :=
  (C30_additional_info_forms (sampleEnv happy) "CPF" "12345678909"
    [("FIRST_NAME", "Ana"), ("LAST_NAME", "Lima")]).2.2.2 () "2000012345678"
    "APP_USR-1234-5678" (.ok "billing") rfl rfl rfl

end Integration
